import Mathlib

/-!
PKCS11Lib: result wrapping, error translation and session state.

A shallow embedding of `Token/include/result.h`, `Token/include/pkcs11_lib.h`
and `Token/src/pkcs11_lib.cpp`. The vendor module, the dynamic loader and the
file stream are external: every call to them is recorded in a trace and answered
by an arbitrary oracle `Vendor`.
-/

namespace PKCS11Lib

/-! ## `result.h`: the `Status` enumeration -/

/-- The enumeration `Status` of `result.h`, enumerator by enumerator. -/
inductive Status where
  | OK
  | ERROR_GENERAL
  | ERROR_CANCEL
  | ERROR_HOST_MEMORY
  | ERROR_SLOT_ID_INVALID
  | ERROR_FUNCTION_FAILED
  | ERROR_ARGUMENTS_BAD
  | ERROR_NO_EVENT
  | ERROR_NEED_TO_CREATE_THREADS
  | ERROR_CANT_LOCK
  | ERROR_ATTRIBUTE_READ_ONLY
  | ERROR_ATTRIBUTE_SENSITIVE
  | ERROR_ATTRIBUTE_TYPE_INVALID
  | ERROR_ATTRIBUTE_VALUE_INVALID
  | ERROR_DATA_INVALID
  | ERROR_DATA_LEN_RANGE
  | ERROR_DEVICE_ERROR
  | ERROR_DEVICE_MEMORY
  | ERROR_DEVICE_REMOVED
  | ERROR_ENCRYPTED_DATA_INVALID
  | ERROR_ENCRYPTED_DATA_LEN_RANGE
  | ERROR_FUNCTION_CANCELED
  | ERROR_FUNCTION_NOT_PARALLEL
  | ERROR_FUNCTION_NOT_SUPPORTED
  | ERROR_FUNCTION_REJECTED
  | ERROR_KEY_HANDLE_INVALID
  | ERROR_KEY_SIZE_RANGE
  | ERROR_KEY_TYPE_INCONSISTENT
  | ERROR_KEY_NOT_NEEDED
  | ERROR_KEY_CHANGED
  | ERROR_KEY_NEEDED
  | ERROR_KEY_INDIGESTIBLE
  | ERROR_KEY_FUNCTION_NOT_PERMITTED
  | ERROR_KEY_NOT_WRAPPABLE
  | ERROR_KEY_UNEXTRACTABLE
  | ERROR_MECHANISM_INVALID
  | ERROR_MECHANISM_PARAM_INVALID
  | ERROR_OBJECT_HANDLE_INVALID
  | ERROR_OBJECT_NOT_FOUND
  | ERROR_OPERATION_ACTIVE
  | ERROR_OPERATION_NOT_INITIALIZED
  | ERROR_PIN_INCORRECT
  | ERROR_PIN_INVALID
  | ERROR_PIN_LEN_RANGE
  | ERROR_PIN_EXPIRED
  | ERROR_PIN_LOCKED
  | ERROR_SESSION_CLOSED
  | ERROR_SESSION_COUNT
  | ERROR_SESSION_HANDLE_INVALID
  | ERROR_SESSION_PARALLEL_NOT_SUPPORTED
  | ERROR_SESSION_READ_ONLY
  | ERROR_SESSION_EXISTS
  | ERROR_SESSION_READ_ONLY_EXISTS
  | ERROR_SESSION_READ_WRITE_SO_EXISTS
  | ERROR_SIGNATURE_INVALID
  | ERROR_SIGNATURE_LEN_RANGE
  | ERROR_TEMPLATE_INCOMPLETE
  | ERROR_TEMPLATE_INCONSISTENT
  | ERROR_TOKEN_NOT_PRESENT
  | ERROR_TOKEN_NOT_RECOGNIZED
  | ERROR_TOKEN_WRITE_PROTECTED
  | ERROR_UNWRAPPING_KEY_HANDLE_INVALID
  | ERROR_UNWRAPPING_KEY_SIZE_RANGE
  | ERROR_UNWRAPPING_KEY_TYPE_INCONSISTENT
  | ERROR_WRAPPED_KEY_INVALID
  | ERROR_WRAPPED_KEY_LEN_RANGE
  | ERROR_WRAPPING_KEY_HANDLE_INVALID
  | ERROR_WRAPPING_KEY_SIZE_RANGE
  | ERROR_WRAPPING_KEY_TYPE_INCONSISTENT
  | ERROR_USER_ALREADY_LOGGED_IN
  | ERROR_USER_NOT_LOGGED_IN
  | ERROR_USER_PIN_NOT_INITIALIZED
  | ERROR_USER_TYPE_INVALID
  | ERROR_USER_ANOTHER_ALREADY_LOGGED_IN
  | ERROR_USER_TOO_MANY_TYPES
  | ERROR_RANDOM_SEED_NOT_SUPPORTED
  | ERROR_RANDOM_NO_RNG
  | ERROR_DOMAIN_PARAMS_INVALID
  | ERROR_BUFFER_TOO_SMALL
  | ERROR_SAVED_STATE_INVALID
  | ERROR_INFORMATION_SENSITIVE
  | ERROR_STATE_UNSAVEABLE
  | ERROR_CRYPTOKI_NOT_INITIALIZED
  | ERROR_CRYPTOKI_ALREADY_INITIALIZED
  | ERROR_MUTEX_BAD
  | ERROR_MUTEX_NOT_LOCKED
  | ERROR_NEW_PIN_MODE
  | ERROR_NEXT_OTP
  | ERROR_VENDOR_DEFINED
  | ERROR_LIBRARY_LOAD_FAILED
  | ERROR_FUNCTION_LIST_NOT_AVAILABLE
  | ERROR_AUX_FUNCTION_NOT_AVAILABLE
  | ERROR_INVALID_PARAMETER
  | ERROR_MEMORY
  | ERROR_FILE_IO
  | ERROR_UNSUPPORTED_ALGORITHM
  | ERROR_UNSUPPORTED_OPERATION
  deriving DecidableEq, Repr

/-- The integer value each enumerator of `Status` is declared with. -/
def Status.toNat : Status → Nat
  | Status.OK => 0
  | Status.ERROR_GENERAL => 1
  | Status.ERROR_CANCEL => 2
  | Status.ERROR_HOST_MEMORY => 3
  | Status.ERROR_SLOT_ID_INVALID => 4
  | Status.ERROR_FUNCTION_FAILED => 5
  | Status.ERROR_ARGUMENTS_BAD => 6
  | Status.ERROR_NO_EVENT => 7
  | Status.ERROR_NEED_TO_CREATE_THREADS => 8
  | Status.ERROR_CANT_LOCK => 9
  | Status.ERROR_ATTRIBUTE_READ_ONLY => 10
  | Status.ERROR_ATTRIBUTE_SENSITIVE => 11
  | Status.ERROR_ATTRIBUTE_TYPE_INVALID => 12
  | Status.ERROR_ATTRIBUTE_VALUE_INVALID => 13
  | Status.ERROR_DATA_INVALID => 20
  | Status.ERROR_DATA_LEN_RANGE => 21
  | Status.ERROR_DEVICE_ERROR => 30
  | Status.ERROR_DEVICE_MEMORY => 31
  | Status.ERROR_DEVICE_REMOVED => 32
  | Status.ERROR_ENCRYPTED_DATA_INVALID => 40
  | Status.ERROR_ENCRYPTED_DATA_LEN_RANGE => 41
  | Status.ERROR_FUNCTION_CANCELED => 50
  | Status.ERROR_FUNCTION_NOT_PARALLEL => 51
  | Status.ERROR_FUNCTION_NOT_SUPPORTED => 52
  | Status.ERROR_FUNCTION_REJECTED => 53
  | Status.ERROR_KEY_HANDLE_INVALID => 60
  | Status.ERROR_KEY_SIZE_RANGE => 61
  | Status.ERROR_KEY_TYPE_INCONSISTENT => 62
  | Status.ERROR_KEY_NOT_NEEDED => 63
  | Status.ERROR_KEY_CHANGED => 64
  | Status.ERROR_KEY_NEEDED => 65
  | Status.ERROR_KEY_INDIGESTIBLE => 66
  | Status.ERROR_KEY_FUNCTION_NOT_PERMITTED => 67
  | Status.ERROR_KEY_NOT_WRAPPABLE => 68
  | Status.ERROR_KEY_UNEXTRACTABLE => 69
  | Status.ERROR_MECHANISM_INVALID => 70
  | Status.ERROR_MECHANISM_PARAM_INVALID => 71
  | Status.ERROR_OBJECT_HANDLE_INVALID => 80
  | Status.ERROR_OBJECT_NOT_FOUND => 81
  | Status.ERROR_OPERATION_ACTIVE => 90
  | Status.ERROR_OPERATION_NOT_INITIALIZED => 91
  | Status.ERROR_PIN_INCORRECT => 100
  | Status.ERROR_PIN_INVALID => 101
  | Status.ERROR_PIN_LEN_RANGE => 102
  | Status.ERROR_PIN_EXPIRED => 103
  | Status.ERROR_PIN_LOCKED => 104
  | Status.ERROR_SESSION_CLOSED => 110
  | Status.ERROR_SESSION_COUNT => 111
  | Status.ERROR_SESSION_HANDLE_INVALID => 112
  | Status.ERROR_SESSION_PARALLEL_NOT_SUPPORTED => 113
  | Status.ERROR_SESSION_READ_ONLY => 114
  | Status.ERROR_SESSION_EXISTS => 115
  | Status.ERROR_SESSION_READ_ONLY_EXISTS => 116
  | Status.ERROR_SESSION_READ_WRITE_SO_EXISTS => 117
  | Status.ERROR_SIGNATURE_INVALID => 120
  | Status.ERROR_SIGNATURE_LEN_RANGE => 121
  | Status.ERROR_TEMPLATE_INCOMPLETE => 130
  | Status.ERROR_TEMPLATE_INCONSISTENT => 131
  | Status.ERROR_TOKEN_NOT_PRESENT => 140
  | Status.ERROR_TOKEN_NOT_RECOGNIZED => 141
  | Status.ERROR_TOKEN_WRITE_PROTECTED => 142
  | Status.ERROR_UNWRAPPING_KEY_HANDLE_INVALID => 150
  | Status.ERROR_UNWRAPPING_KEY_SIZE_RANGE => 151
  | Status.ERROR_UNWRAPPING_KEY_TYPE_INCONSISTENT => 152
  | Status.ERROR_WRAPPED_KEY_INVALID => 153
  | Status.ERROR_WRAPPED_KEY_LEN_RANGE => 154
  | Status.ERROR_WRAPPING_KEY_HANDLE_INVALID => 155
  | Status.ERROR_WRAPPING_KEY_SIZE_RANGE => 156
  | Status.ERROR_WRAPPING_KEY_TYPE_INCONSISTENT => 157
  | Status.ERROR_USER_ALREADY_LOGGED_IN => 160
  | Status.ERROR_USER_NOT_LOGGED_IN => 161
  | Status.ERROR_USER_PIN_NOT_INITIALIZED => 162
  | Status.ERROR_USER_TYPE_INVALID => 163
  | Status.ERROR_USER_ANOTHER_ALREADY_LOGGED_IN => 164
  | Status.ERROR_USER_TOO_MANY_TYPES => 165
  | Status.ERROR_RANDOM_SEED_NOT_SUPPORTED => 170
  | Status.ERROR_RANDOM_NO_RNG => 171
  | Status.ERROR_DOMAIN_PARAMS_INVALID => 180
  | Status.ERROR_BUFFER_TOO_SMALL => 190
  | Status.ERROR_SAVED_STATE_INVALID => 200
  | Status.ERROR_INFORMATION_SENSITIVE => 201
  | Status.ERROR_STATE_UNSAVEABLE => 202
  | Status.ERROR_CRYPTOKI_NOT_INITIALIZED => 210
  | Status.ERROR_CRYPTOKI_ALREADY_INITIALIZED => 211
  | Status.ERROR_MUTEX_BAD => 220
  | Status.ERROR_MUTEX_NOT_LOCKED => 221
  | Status.ERROR_NEW_PIN_MODE => 230
  | Status.ERROR_NEXT_OTP => 231
  | Status.ERROR_VENDOR_DEFINED => 240
  | Status.ERROR_LIBRARY_LOAD_FAILED => 250
  | Status.ERROR_FUNCTION_LIST_NOT_AVAILABLE => 251
  | Status.ERROR_AUX_FUNCTION_NOT_AVAILABLE => 252
  | Status.ERROR_INVALID_PARAMETER => 253
  | Status.ERROR_MEMORY => 254
  | Status.ERROR_FILE_IO => 255
  | Status.ERROR_UNSUPPORTED_ALGORITHM => 256
  | Status.ERROR_UNSUPPORTED_OPERATION => 257

/-! ## Constants of the PKCS#11 headers

The headers `cryptoki_ext.h` and `auxiliary.h` are not among the sources. The
constants the adapter names are given the values of the PKCS#11 v2.20 standard
header (`pkcs11t.h`), the external specification the design defers to. -/

/-- Modelled from the spec: the C type `CK_RV` of the PKCS#11 header, absent from the sources; an `unsigned long`. -/
abbrev CK_RV := Nat

/-- Modelled from the spec: the C type `CK_ULONG` of the PKCS#11 header, absent from the sources; an `unsigned long`. -/
abbrev CK_ULONG := Nat

/-- Modelled from the spec: `CKR_OK` of the PKCS#11 header, absent from the sources; the value is the one of PKCS#11 v2.20. -/
def CKR_OK : CK_RV := 0x0

/-- Modelled from the spec: `CKR_CRYPTOKI_ALREADY_INITIALIZED` of the PKCS#11 header, absent from the sources; the value is the one of PKCS#11 v2.20. -/
def CKR_CRYPTOKI_ALREADY_INITIALIZED : CK_RV := 0x191

/-- Modelled from the spec: `CKR_TOKEN_NOT_PRESENT` of the PKCS#11 header, absent from the sources; the value is the one of PKCS#11 v2.20. -/
def CKR_TOKEN_NOT_PRESENT : CK_RV := 0xE0

/-- Modelled from the spec: `CKR_PIN_INCORRECT` of the PKCS#11 header, absent from the sources; the value is the one of PKCS#11 v2.20. -/
def CKR_PIN_INCORRECT : CK_RV := 0xA0

/-- Modelled from the spec: `CKR_PIN_INVALID` of the PKCS#11 header, absent from the sources; the value is the one of PKCS#11 v2.20. -/
def CKR_PIN_INVALID : CK_RV := 0xA1

/-- Modelled from the spec: `CKR_PIN_LOCKED` of the PKCS#11 header, absent from the sources; the value is the one of PKCS#11 v2.20. -/
def CKR_PIN_LOCKED : CK_RV := 0xA4

/-- Modelled from the spec: `CKR_HOST_MEMORY` of the PKCS#11 header, absent from the sources; the value is the one of PKCS#11 v2.20. -/
def CKR_HOST_MEMORY : CK_RV := 0x2

/-- Modelled from the spec: `CKR_FUNCTION_FAILED` of the PKCS#11 header, absent from the sources; the value is the one of PKCS#11 v2.20. -/
def CKR_FUNCTION_FAILED : CK_RV := 0x6

/-- Modelled from the spec: `CKR_OBJECT_HANDLE_INVALID` of the PKCS#11 header, absent from the sources; the value is the one of PKCS#11 v2.20. -/
def CKR_OBJECT_HANDLE_INVALID : CK_RV := 0x82

/-- Modelled from the spec: `CKR_ARGUMENTS_BAD` of the PKCS#11 header, absent from the sources; the value is the one of PKCS#11 v2.20. -/
def CKR_ARGUMENTS_BAD : CK_RV := 0x7

/-- Modelled from the spec: `CKR_CANCEL` of the PKCS#11 header, absent from the sources; the value is the one of PKCS#11 v2.20. -/
def CKR_CANCEL : CK_RV := 0x1

/-- Modelled from the spec: `CKR_SLOT_ID_INVALID` of the PKCS#11 header, absent from the sources; the value is the one of PKCS#11 v2.20. -/
def CKR_SLOT_ID_INVALID : CK_RV := 0x3

/-- Modelled from the spec: `CKR_GENERAL_ERROR` of the PKCS#11 header, absent from the sources; the value is the one of PKCS#11 v2.20. -/
def CKR_GENERAL_ERROR : CK_RV := 0x5

/-- Modelled from the spec: `CKR_NO_EVENT` of the PKCS#11 header, absent from the sources; the value is the one of PKCS#11 v2.20. -/
def CKR_NO_EVENT : CK_RV := 0x8

/-- Modelled from the spec: `CKR_NEED_TO_CREATE_THREADS` of the PKCS#11 header, absent from the sources; the value is the one of PKCS#11 v2.20. -/
def CKR_NEED_TO_CREATE_THREADS : CK_RV := 0x9

/-- Modelled from the spec: `CKR_CANT_LOCK` of the PKCS#11 header, absent from the sources; the value is the one of PKCS#11 v2.20. -/
def CKR_CANT_LOCK : CK_RV := 0xA

/-- Modelled from the spec: `CKR_ATTRIBUTE_READ_ONLY` of the PKCS#11 header, absent from the sources; the value is the one of PKCS#11 v2.20. -/
def CKR_ATTRIBUTE_READ_ONLY : CK_RV := 0x10

/-- Modelled from the spec: `CKR_ATTRIBUTE_SENSITIVE` of the PKCS#11 header, absent from the sources; the value is the one of PKCS#11 v2.20. -/
def CKR_ATTRIBUTE_SENSITIVE : CK_RV := 0x11

/-- Modelled from the spec: `CKR_ATTRIBUTE_TYPE_INVALID` of the PKCS#11 header, absent from the sources; the value is the one of PKCS#11 v2.20. -/
def CKR_ATTRIBUTE_TYPE_INVALID : CK_RV := 0x12

/-- Modelled from the spec: `CKR_ATTRIBUTE_VALUE_INVALID` of the PKCS#11 header, absent from the sources; the value is the one of PKCS#11 v2.20. -/
def CKR_ATTRIBUTE_VALUE_INVALID : CK_RV := 0x13

/-- Modelled from the spec: `CKR_DATA_INVALID` of the PKCS#11 header, absent from the sources; the value is the one of PKCS#11 v2.20. -/
def CKR_DATA_INVALID : CK_RV := 0x20

/-- Modelled from the spec: `CKR_DATA_LEN_RANGE` of the PKCS#11 header, absent from the sources; the value is the one of PKCS#11 v2.20. -/
def CKR_DATA_LEN_RANGE : CK_RV := 0x21

/-- Modelled from the spec: `CKR_DEVICE_ERROR` of the PKCS#11 header, absent from the sources; the value is the one of PKCS#11 v2.20. -/
def CKR_DEVICE_ERROR : CK_RV := 0x30

/-- Modelled from the spec: `CKR_DEVICE_MEMORY` of the PKCS#11 header, absent from the sources; the value is the one of PKCS#11 v2.20. -/
def CKR_DEVICE_MEMORY : CK_RV := 0x31

/-- Modelled from the spec: `CKR_DEVICE_REMOVED` of the PKCS#11 header, absent from the sources; the value is the one of PKCS#11 v2.20. -/
def CKR_DEVICE_REMOVED : CK_RV := 0x32

/-- Modelled from the spec: `CKR_ENCRYPTED_DATA_INVALID` of the PKCS#11 header, absent from the sources; the value is the one of PKCS#11 v2.20. -/
def CKR_ENCRYPTED_DATA_INVALID : CK_RV := 0x40

/-- Modelled from the spec: `CKR_ENCRYPTED_DATA_LEN_RANGE` of the PKCS#11 header, absent from the sources; the value is the one of PKCS#11 v2.20. -/
def CKR_ENCRYPTED_DATA_LEN_RANGE : CK_RV := 0x41

/-- Modelled from the spec: `CKR_FUNCTION_CANCELED` of the PKCS#11 header, absent from the sources; the value is the one of PKCS#11 v2.20. -/
def CKR_FUNCTION_CANCELED : CK_RV := 0x50

/-- Modelled from the spec: `CKR_FUNCTION_NOT_PARALLEL` of the PKCS#11 header, absent from the sources; the value is the one of PKCS#11 v2.20. -/
def CKR_FUNCTION_NOT_PARALLEL : CK_RV := 0x51

/-- Modelled from the spec: `CKR_FUNCTION_NOT_SUPPORTED` of the PKCS#11 header, absent from the sources; the value is the one of PKCS#11 v2.20. -/
def CKR_FUNCTION_NOT_SUPPORTED : CK_RV := 0x54

/-- Modelled from the spec: `CKR_KEY_HANDLE_INVALID` of the PKCS#11 header, absent from the sources; the value is the one of PKCS#11 v2.20. -/
def CKR_KEY_HANDLE_INVALID : CK_RV := 0x60

/-- Modelled from the spec: `CKR_KEY_SIZE_RANGE` of the PKCS#11 header, absent from the sources; the value is the one of PKCS#11 v2.20. -/
def CKR_KEY_SIZE_RANGE : CK_RV := 0x62

/-- Modelled from the spec: `CKR_KEY_TYPE_INCONSISTENT` of the PKCS#11 header, absent from the sources; the value is the one of PKCS#11 v2.20. -/
def CKR_KEY_TYPE_INCONSISTENT : CK_RV := 0x63

/-- Modelled from the spec: `CKR_KEY_NOT_NEEDED` of the PKCS#11 header, absent from the sources; the value is the one of PKCS#11 v2.20. -/
def CKR_KEY_NOT_NEEDED : CK_RV := 0x64

/-- Modelled from the spec: `CKR_KEY_CHANGED` of the PKCS#11 header, absent from the sources; the value is the one of PKCS#11 v2.20. -/
def CKR_KEY_CHANGED : CK_RV := 0x65

/-- Modelled from the spec: `CKR_KEY_NEEDED` of the PKCS#11 header, absent from the sources; the value is the one of PKCS#11 v2.20. -/
def CKR_KEY_NEEDED : CK_RV := 0x66

/-- Modelled from the spec: `CKR_KEY_INDIGESTIBLE` of the PKCS#11 header, absent from the sources; the value is the one of PKCS#11 v2.20. -/
def CKR_KEY_INDIGESTIBLE : CK_RV := 0x67

/-- Modelled from the spec: `CKR_KEY_FUNCTION_NOT_PERMITTED` of the PKCS#11 header, absent from the sources; the value is the one of PKCS#11 v2.20. -/
def CKR_KEY_FUNCTION_NOT_PERMITTED : CK_RV := 0x68

/-- Modelled from the spec: `CKR_KEY_NOT_WRAPPABLE` of the PKCS#11 header, absent from the sources; the value is the one of PKCS#11 v2.20. -/
def CKR_KEY_NOT_WRAPPABLE : CK_RV := 0x69

/-- Modelled from the spec: `CKR_KEY_UNEXTRACTABLE` of the PKCS#11 header, absent from the sources; the value is the one of PKCS#11 v2.20. -/
def CKR_KEY_UNEXTRACTABLE : CK_RV := 0x6A

/-- Modelled from the spec: `CKR_MECHANISM_INVALID` of the PKCS#11 header, absent from the sources; the value is the one of PKCS#11 v2.20. -/
def CKR_MECHANISM_INVALID : CK_RV := 0x70

/-- Modelled from the spec: `CKR_MECHANISM_PARAM_INVALID` of the PKCS#11 header, absent from the sources; the value is the one of PKCS#11 v2.20. -/
def CKR_MECHANISM_PARAM_INVALID : CK_RV := 0x71

/-- Modelled from the spec: `CKR_OPERATION_ACTIVE` of the PKCS#11 header, absent from the sources; the value is the one of PKCS#11 v2.20. -/
def CKR_OPERATION_ACTIVE : CK_RV := 0x90

/-- Modelled from the spec: `CKR_OPERATION_NOT_INITIALIZED` of the PKCS#11 header, absent from the sources; the value is the one of PKCS#11 v2.20. -/
def CKR_OPERATION_NOT_INITIALIZED : CK_RV := 0x91

/-- Modelled from the spec: `CKR_PIN_LEN_RANGE` of the PKCS#11 header, absent from the sources; the value is the one of PKCS#11 v2.20. -/
def CKR_PIN_LEN_RANGE : CK_RV := 0xA2

/-- Modelled from the spec: `CKR_PIN_EXPIRED` of the PKCS#11 header, absent from the sources; the value is the one of PKCS#11 v2.20. -/
def CKR_PIN_EXPIRED : CK_RV := 0xA3

/-- Modelled from the spec: `CKR_SESSION_CLOSED` of the PKCS#11 header, absent from the sources; the value is the one of PKCS#11 v2.20. -/
def CKR_SESSION_CLOSED : CK_RV := 0xB0

/-- Modelled from the spec: `CKR_SESSION_COUNT` of the PKCS#11 header, absent from the sources; the value is the one of PKCS#11 v2.20. -/
def CKR_SESSION_COUNT : CK_RV := 0xB1

/-- Modelled from the spec: `CKR_SESSION_HANDLE_INVALID` of the PKCS#11 header, absent from the sources; the value is the one of PKCS#11 v2.20. -/
def CKR_SESSION_HANDLE_INVALID : CK_RV := 0xB3

/-- Modelled from the spec: `CKR_SESSION_PARALLEL_NOT_SUPPORTED` of the PKCS#11 header, absent from the sources; the value is the one of PKCS#11 v2.20. -/
def CKR_SESSION_PARALLEL_NOT_SUPPORTED : CK_RV := 0xB4

/-- Modelled from the spec: `CKR_SESSION_READ_ONLY` of the PKCS#11 header, absent from the sources; the value is the one of PKCS#11 v2.20. -/
def CKR_SESSION_READ_ONLY : CK_RV := 0xB5

/-- Modelled from the spec: `CKR_SESSION_EXISTS` of the PKCS#11 header, absent from the sources; the value is the one of PKCS#11 v2.20. -/
def CKR_SESSION_EXISTS : CK_RV := 0xB6

/-- Modelled from the spec: `CKR_SESSION_READ_ONLY_EXISTS` of the PKCS#11 header, absent from the sources; the value is the one of PKCS#11 v2.20. -/
def CKR_SESSION_READ_ONLY_EXISTS : CK_RV := 0xB7

/-- Modelled from the spec: `CKR_SESSION_READ_WRITE_SO_EXISTS` of the PKCS#11 header, absent from the sources; the value is the one of PKCS#11 v2.20. -/
def CKR_SESSION_READ_WRITE_SO_EXISTS : CK_RV := 0xB8

/-- Modelled from the spec: `CKR_SIGNATURE_INVALID` of the PKCS#11 header, absent from the sources; the value is the one of PKCS#11 v2.20. -/
def CKR_SIGNATURE_INVALID : CK_RV := 0xC0

/-- Modelled from the spec: `CKR_SIGNATURE_LEN_RANGE` of the PKCS#11 header, absent from the sources; the value is the one of PKCS#11 v2.20. -/
def CKR_SIGNATURE_LEN_RANGE : CK_RV := 0xC1

/-- Modelled from the spec: `CKR_TEMPLATE_INCOMPLETE` of the PKCS#11 header, absent from the sources; the value is the one of PKCS#11 v2.20. -/
def CKR_TEMPLATE_INCOMPLETE : CK_RV := 0xD0

/-- Modelled from the spec: `CKR_TEMPLATE_INCONSISTENT` of the PKCS#11 header, absent from the sources; the value is the one of PKCS#11 v2.20. -/
def CKR_TEMPLATE_INCONSISTENT : CK_RV := 0xD1

/-- Modelled from the spec: `CKR_TOKEN_NOT_RECOGNIZED` of the PKCS#11 header, absent from the sources; the value is the one of PKCS#11 v2.20. -/
def CKR_TOKEN_NOT_RECOGNIZED : CK_RV := 0xE1

/-- Modelled from the spec: `CKR_TOKEN_WRITE_PROTECTED` of the PKCS#11 header, absent from the sources; the value is the one of PKCS#11 v2.20. -/
def CKR_TOKEN_WRITE_PROTECTED : CK_RV := 0xE2

/-- Modelled from the spec: `CKR_UNWRAPPING_KEY_HANDLE_INVALID` of the PKCS#11 header, absent from the sources; the value is the one of PKCS#11 v2.20. -/
def CKR_UNWRAPPING_KEY_HANDLE_INVALID : CK_RV := 0xF0

/-- Modelled from the spec: `CKR_UNWRAPPING_KEY_SIZE_RANGE` of the PKCS#11 header, absent from the sources; the value is the one of PKCS#11 v2.20. -/
def CKR_UNWRAPPING_KEY_SIZE_RANGE : CK_RV := 0xF1

/-- Modelled from the spec: `CKR_UNWRAPPING_KEY_TYPE_INCONSISTENT` of the PKCS#11 header, absent from the sources; the value is the one of PKCS#11 v2.20. -/
def CKR_UNWRAPPING_KEY_TYPE_INCONSISTENT : CK_RV := 0xF2

/-- Modelled from the spec: `CKR_USER_ALREADY_LOGGED_IN` of the PKCS#11 header, absent from the sources; the value is the one of PKCS#11 v2.20. -/
def CKR_USER_ALREADY_LOGGED_IN : CK_RV := 0x100

/-- Modelled from the spec: `CKR_USER_NOT_LOGGED_IN` of the PKCS#11 header, absent from the sources; the value is the one of PKCS#11 v2.20. -/
def CKR_USER_NOT_LOGGED_IN : CK_RV := 0x101

/-- Modelled from the spec: `CKR_USER_PIN_NOT_INITIALIZED` of the PKCS#11 header, absent from the sources; the value is the one of PKCS#11 v2.20. -/
def CKR_USER_PIN_NOT_INITIALIZED : CK_RV := 0x102

/-- Modelled from the spec: `CKR_USER_TYPE_INVALID` of the PKCS#11 header, absent from the sources; the value is the one of PKCS#11 v2.20. -/
def CKR_USER_TYPE_INVALID : CK_RV := 0x103

/-- Modelled from the spec: `CKR_USER_ANOTHER_ALREADY_LOGGED_IN` of the PKCS#11 header, absent from the sources; the value is the one of PKCS#11 v2.20. -/
def CKR_USER_ANOTHER_ALREADY_LOGGED_IN : CK_RV := 0x104

/-- Modelled from the spec: `CKR_USER_TOO_MANY_TYPES` of the PKCS#11 header, absent from the sources; the value is the one of PKCS#11 v2.20. -/
def CKR_USER_TOO_MANY_TYPES : CK_RV := 0x105

/-- Modelled from the spec: `CKR_WRAPPED_KEY_INVALID` of the PKCS#11 header, absent from the sources; the value is the one of PKCS#11 v2.20. -/
def CKR_WRAPPED_KEY_INVALID : CK_RV := 0x110

/-- Modelled from the spec: `CKR_WRAPPED_KEY_LEN_RANGE` of the PKCS#11 header, absent from the sources; the value is the one of PKCS#11 v2.20. -/
def CKR_WRAPPED_KEY_LEN_RANGE : CK_RV := 0x112

/-- Modelled from the spec: `CKR_WRAPPING_KEY_HANDLE_INVALID` of the PKCS#11 header, absent from the sources; the value is the one of PKCS#11 v2.20. -/
def CKR_WRAPPING_KEY_HANDLE_INVALID : CK_RV := 0x113

/-- Modelled from the spec: `CKR_WRAPPING_KEY_SIZE_RANGE` of the PKCS#11 header, absent from the sources; the value is the one of PKCS#11 v2.20. -/
def CKR_WRAPPING_KEY_SIZE_RANGE : CK_RV := 0x114

/-- Modelled from the spec: `CKR_WRAPPING_KEY_TYPE_INCONSISTENT` of the PKCS#11 header, absent from the sources; the value is the one of PKCS#11 v2.20. -/
def CKR_WRAPPING_KEY_TYPE_INCONSISTENT : CK_RV := 0x115

/-- Modelled from the spec: `CKR_RANDOM_SEED_NOT_SUPPORTED` of the PKCS#11 header, absent from the sources; the value is the one of PKCS#11 v2.20. -/
def CKR_RANDOM_SEED_NOT_SUPPORTED : CK_RV := 0x120

/-- Modelled from the spec: `CKR_RANDOM_NO_RNG` of the PKCS#11 header, absent from the sources; the value is the one of PKCS#11 v2.20. -/
def CKR_RANDOM_NO_RNG : CK_RV := 0x121

/-- Modelled from the spec: `CKR_DOMAIN_PARAMS_INVALID` of the PKCS#11 header, absent from the sources; the value is the one of PKCS#11 v2.20. -/
def CKR_DOMAIN_PARAMS_INVALID : CK_RV := 0x130

/-- Modelled from the spec: `CKR_BUFFER_TOO_SMALL` of the PKCS#11 header, absent from the sources; the value is the one of PKCS#11 v2.20. -/
def CKR_BUFFER_TOO_SMALL : CK_RV := 0x150

/-- Modelled from the spec: `CKR_SAVED_STATE_INVALID` of the PKCS#11 header, absent from the sources; the value is the one of PKCS#11 v2.20. -/
def CKR_SAVED_STATE_INVALID : CK_RV := 0x160

/-- Modelled from the spec: `CKR_INFORMATION_SENSITIVE` of the PKCS#11 header, absent from the sources; the value is the one of PKCS#11 v2.20. -/
def CKR_INFORMATION_SENSITIVE : CK_RV := 0x170

/-- Modelled from the spec: `CKR_STATE_UNSAVEABLE` of the PKCS#11 header, absent from the sources; the value is the one of PKCS#11 v2.20. -/
def CKR_STATE_UNSAVEABLE : CK_RV := 0x180

/-- Modelled from the spec: `CKR_CRYPTOKI_NOT_INITIALIZED` of the PKCS#11 header, absent from the sources; the value is the one of PKCS#11 v2.20. -/
def CKR_CRYPTOKI_NOT_INITIALIZED : CK_RV := 0x190

/-- Modelled from the spec: `CKR_MUTEX_BAD` of the PKCS#11 header, absent from the sources; the value is the one of PKCS#11 v2.20. -/
def CKR_MUTEX_BAD : CK_RV := 0x1A0

/-- Modelled from the spec: `CKR_MUTEX_NOT_LOCKED` of the PKCS#11 header, absent from the sources; the value is the one of PKCS#11 v2.20. -/
def CKR_MUTEX_NOT_LOCKED : CK_RV := 0x1A1

/-- Modelled from the spec: `CKR_FUNCTION_REJECTED` of the PKCS#11 header, absent from the sources; the value is the one of PKCS#11 v2.20. -/
def CKR_FUNCTION_REJECTED : CK_RV := 0x200

/-- Modelled from the spec: `CKR_VENDOR_DEFINED` of the PKCS#11 header, absent from the sources; the value is the one of PKCS#11 v2.20. -/
def CKR_VENDOR_DEFINED : CK_RV := 0x80000000

/-! ## `result.h`: the `Result` template -/

/-- The class template `Result<T>` of `result.h`; `Result<void>` is `Result Unit`. -/
structure Result (α : Type) where
  success : Bool
  value : α
  errorCode : Status
  errorMessage : String
  pkcs11Error : Nat
  deriving DecidableEq, Repr

namespace Result

variable {α : Type}

/-- The factory `Result::Ok(value)`: `Result(true, value, Status::OK)`, the message
and the vendor code taking their defaults `""` and `0`. -/
def Ok (value : α) : Result α :=
  { success := true, value := value, errorCode := Status.OK, errorMessage := "", pkcs11Error := 0 }

/-- The factory `Result::Error(errorCode, errorMessage, pkcs11Error)`:
`Result(false, T{}, errorCode, errorMessage, pkcs11Error)`. -/
def Error [Inhabited α] (errorCode : Status) (errorMessage : String) (pkcs11Error : Nat) :
    Result α :=
  { success := false, value := default, errorCode := errorCode,
    errorMessage := errorMessage, pkcs11Error := pkcs11Error }

/-- The method `isOk()`. -/
def isOk (r : Result α) : Bool := r.success

/-- The method `isError()`. -/
def isError (r : Result α) : Bool := !r.success

/-- The method `isTokenNotPresent()`. -/
def isTokenNotPresent (r : Result α) : Bool :=
  r.errorCode == Status.ERROR_TOKEN_NOT_PRESENT

/-- The method `isPinError()`. -/
def isPinError (r : Result α) : Bool :=
  r.errorCode == Status.ERROR_PIN_INCORRECT ||
  r.errorCode == Status.ERROR_PIN_INVALID ||
  r.errorCode == Status.ERROR_PIN_LOCKED ||
  r.errorCode == Status.ERROR_PIN_EXPIRED

/-- The method `isSessionError()`. -/
def isSessionError (r : Result α) : Bool :=
  r.errorCode == Status.ERROR_SESSION_CLOSED ||
  r.errorCode == Status.ERROR_SESSION_HANDLE_INVALID ||
  r.errorCode == Status.ERROR_SESSION_READ_ONLY

/-- The method `isKeyError()`. -/
def isKeyError (r : Result α) : Bool :=
  r.errorCode == Status.ERROR_KEY_HANDLE_INVALID ||
  r.errorCode == Status.ERROR_KEY_SIZE_RANGE ||
  r.errorCode == Status.ERROR_KEY_TYPE_INCONSISTENT

/-- The method `isObjectError()`. -/
def isObjectError (r : Result α) : Bool :=
  r.errorCode == Status.ERROR_OBJECT_HANDLE_INVALID ||
  r.errorCode == Status.ERROR_OBJECT_NOT_FOUND

end Result

/-! ## `pkcs11_lib.cpp`: error translation -/

/-- The method `PKCS11Library::convertPKCS11Error`: a `switch` over `rv` whose labels
are tried in order, `CKR_PIN_INCORRECT` falling through to the `CKR_PIN_INVALID`
label, with `ERROR_GENERAL` as the `default`. -/
def convertPKCS11Error (rv : CK_RV) : Status :=
  if rv = CKR_OK then Status.OK
  else if rv = CKR_TOKEN_NOT_PRESENT then Status.ERROR_TOKEN_NOT_PRESENT
  else if rv = CKR_PIN_INCORRECT then Status.ERROR_PIN_INVALID
  else if rv = CKR_PIN_INVALID then Status.ERROR_PIN_INVALID
  else if rv = CKR_PIN_LOCKED then Status.ERROR_PIN_LOCKED
  else if rv = CKR_HOST_MEMORY then Status.ERROR_MEMORY
  else if rv = CKR_FUNCTION_FAILED then Status.ERROR_FUNCTION_FAILED
  else if rv = CKR_OBJECT_HANDLE_INVALID then Status.ERROR_OBJECT_NOT_FOUND
  else if rv = CKR_ARGUMENTS_BAD then Status.ERROR_INVALID_PARAMETER
  else Status.ERROR_GENERAL

/-- Every return code `CKR_X` the adapter names for which `Status` has the like-named enumerator `ERROR_X`, paired with that enumerator. -/
def likeNamed : List (CK_RV × Status) :=
  [ (CKR_CRYPTOKI_ALREADY_INITIALIZED, Status.ERROR_CRYPTOKI_ALREADY_INITIALIZED),
    (CKR_TOKEN_NOT_PRESENT, Status.ERROR_TOKEN_NOT_PRESENT),
    (CKR_PIN_INCORRECT, Status.ERROR_PIN_INCORRECT),
    (CKR_PIN_INVALID, Status.ERROR_PIN_INVALID),
    (CKR_PIN_LOCKED, Status.ERROR_PIN_LOCKED),
    (CKR_HOST_MEMORY, Status.ERROR_HOST_MEMORY),
    (CKR_FUNCTION_FAILED, Status.ERROR_FUNCTION_FAILED),
    (CKR_OBJECT_HANDLE_INVALID, Status.ERROR_OBJECT_HANDLE_INVALID),
    (CKR_ARGUMENTS_BAD, Status.ERROR_ARGUMENTS_BAD),
    (CKR_CANCEL, Status.ERROR_CANCEL),
    (CKR_SLOT_ID_INVALID, Status.ERROR_SLOT_ID_INVALID),
    (CKR_NO_EVENT, Status.ERROR_NO_EVENT),
    (CKR_NEED_TO_CREATE_THREADS, Status.ERROR_NEED_TO_CREATE_THREADS),
    (CKR_CANT_LOCK, Status.ERROR_CANT_LOCK),
    (CKR_ATTRIBUTE_READ_ONLY, Status.ERROR_ATTRIBUTE_READ_ONLY),
    (CKR_ATTRIBUTE_SENSITIVE, Status.ERROR_ATTRIBUTE_SENSITIVE),
    (CKR_ATTRIBUTE_TYPE_INVALID, Status.ERROR_ATTRIBUTE_TYPE_INVALID),
    (CKR_ATTRIBUTE_VALUE_INVALID, Status.ERROR_ATTRIBUTE_VALUE_INVALID),
    (CKR_DATA_INVALID, Status.ERROR_DATA_INVALID),
    (CKR_DATA_LEN_RANGE, Status.ERROR_DATA_LEN_RANGE),
    (CKR_DEVICE_ERROR, Status.ERROR_DEVICE_ERROR),
    (CKR_DEVICE_MEMORY, Status.ERROR_DEVICE_MEMORY),
    (CKR_DEVICE_REMOVED, Status.ERROR_DEVICE_REMOVED),
    (CKR_ENCRYPTED_DATA_INVALID, Status.ERROR_ENCRYPTED_DATA_INVALID),
    (CKR_ENCRYPTED_DATA_LEN_RANGE, Status.ERROR_ENCRYPTED_DATA_LEN_RANGE),
    (CKR_FUNCTION_CANCELED, Status.ERROR_FUNCTION_CANCELED),
    (CKR_FUNCTION_NOT_PARALLEL, Status.ERROR_FUNCTION_NOT_PARALLEL),
    (CKR_FUNCTION_NOT_SUPPORTED, Status.ERROR_FUNCTION_NOT_SUPPORTED),
    (CKR_KEY_HANDLE_INVALID, Status.ERROR_KEY_HANDLE_INVALID),
    (CKR_KEY_SIZE_RANGE, Status.ERROR_KEY_SIZE_RANGE),
    (CKR_KEY_TYPE_INCONSISTENT, Status.ERROR_KEY_TYPE_INCONSISTENT),
    (CKR_KEY_NOT_NEEDED, Status.ERROR_KEY_NOT_NEEDED),
    (CKR_KEY_CHANGED, Status.ERROR_KEY_CHANGED),
    (CKR_KEY_NEEDED, Status.ERROR_KEY_NEEDED),
    (CKR_KEY_INDIGESTIBLE, Status.ERROR_KEY_INDIGESTIBLE),
    (CKR_KEY_FUNCTION_NOT_PERMITTED, Status.ERROR_KEY_FUNCTION_NOT_PERMITTED),
    (CKR_KEY_NOT_WRAPPABLE, Status.ERROR_KEY_NOT_WRAPPABLE),
    (CKR_KEY_UNEXTRACTABLE, Status.ERROR_KEY_UNEXTRACTABLE),
    (CKR_MECHANISM_INVALID, Status.ERROR_MECHANISM_INVALID),
    (CKR_MECHANISM_PARAM_INVALID, Status.ERROR_MECHANISM_PARAM_INVALID),
    (CKR_OPERATION_ACTIVE, Status.ERROR_OPERATION_ACTIVE),
    (CKR_OPERATION_NOT_INITIALIZED, Status.ERROR_OPERATION_NOT_INITIALIZED),
    (CKR_PIN_LEN_RANGE, Status.ERROR_PIN_LEN_RANGE),
    (CKR_PIN_EXPIRED, Status.ERROR_PIN_EXPIRED),
    (CKR_SESSION_CLOSED, Status.ERROR_SESSION_CLOSED),
    (CKR_SESSION_COUNT, Status.ERROR_SESSION_COUNT),
    (CKR_SESSION_HANDLE_INVALID, Status.ERROR_SESSION_HANDLE_INVALID),
    (CKR_SESSION_PARALLEL_NOT_SUPPORTED, Status.ERROR_SESSION_PARALLEL_NOT_SUPPORTED),
    (CKR_SESSION_READ_ONLY, Status.ERROR_SESSION_READ_ONLY),
    (CKR_SESSION_EXISTS, Status.ERROR_SESSION_EXISTS),
    (CKR_SESSION_READ_ONLY_EXISTS, Status.ERROR_SESSION_READ_ONLY_EXISTS),
    (CKR_SESSION_READ_WRITE_SO_EXISTS, Status.ERROR_SESSION_READ_WRITE_SO_EXISTS),
    (CKR_SIGNATURE_INVALID, Status.ERROR_SIGNATURE_INVALID),
    (CKR_SIGNATURE_LEN_RANGE, Status.ERROR_SIGNATURE_LEN_RANGE),
    (CKR_TEMPLATE_INCOMPLETE, Status.ERROR_TEMPLATE_INCOMPLETE),
    (CKR_TEMPLATE_INCONSISTENT, Status.ERROR_TEMPLATE_INCONSISTENT),
    (CKR_TOKEN_NOT_RECOGNIZED, Status.ERROR_TOKEN_NOT_RECOGNIZED),
    (CKR_TOKEN_WRITE_PROTECTED, Status.ERROR_TOKEN_WRITE_PROTECTED),
    (CKR_UNWRAPPING_KEY_HANDLE_INVALID, Status.ERROR_UNWRAPPING_KEY_HANDLE_INVALID),
    (CKR_UNWRAPPING_KEY_SIZE_RANGE, Status.ERROR_UNWRAPPING_KEY_SIZE_RANGE),
    (CKR_UNWRAPPING_KEY_TYPE_INCONSISTENT, Status.ERROR_UNWRAPPING_KEY_TYPE_INCONSISTENT),
    (CKR_USER_ALREADY_LOGGED_IN, Status.ERROR_USER_ALREADY_LOGGED_IN),
    (CKR_USER_NOT_LOGGED_IN, Status.ERROR_USER_NOT_LOGGED_IN),
    (CKR_USER_PIN_NOT_INITIALIZED, Status.ERROR_USER_PIN_NOT_INITIALIZED),
    (CKR_USER_TYPE_INVALID, Status.ERROR_USER_TYPE_INVALID),
    (CKR_USER_ANOTHER_ALREADY_LOGGED_IN, Status.ERROR_USER_ANOTHER_ALREADY_LOGGED_IN),
    (CKR_USER_TOO_MANY_TYPES, Status.ERROR_USER_TOO_MANY_TYPES),
    (CKR_WRAPPED_KEY_INVALID, Status.ERROR_WRAPPED_KEY_INVALID),
    (CKR_WRAPPED_KEY_LEN_RANGE, Status.ERROR_WRAPPED_KEY_LEN_RANGE),
    (CKR_WRAPPING_KEY_HANDLE_INVALID, Status.ERROR_WRAPPING_KEY_HANDLE_INVALID),
    (CKR_WRAPPING_KEY_SIZE_RANGE, Status.ERROR_WRAPPING_KEY_SIZE_RANGE),
    (CKR_WRAPPING_KEY_TYPE_INCONSISTENT, Status.ERROR_WRAPPING_KEY_TYPE_INCONSISTENT),
    (CKR_RANDOM_SEED_NOT_SUPPORTED, Status.ERROR_RANDOM_SEED_NOT_SUPPORTED),
    (CKR_RANDOM_NO_RNG, Status.ERROR_RANDOM_NO_RNG),
    (CKR_DOMAIN_PARAMS_INVALID, Status.ERROR_DOMAIN_PARAMS_INVALID),
    (CKR_BUFFER_TOO_SMALL, Status.ERROR_BUFFER_TOO_SMALL),
    (CKR_SAVED_STATE_INVALID, Status.ERROR_SAVED_STATE_INVALID),
    (CKR_INFORMATION_SENSITIVE, Status.ERROR_INFORMATION_SENSITIVE),
    (CKR_STATE_UNSAVEABLE, Status.ERROR_STATE_UNSAVEABLE),
    (CKR_CRYPTOKI_NOT_INITIALIZED, Status.ERROR_CRYPTOKI_NOT_INITIALIZED),
    (CKR_MUTEX_BAD, Status.ERROR_MUTEX_BAD),
    (CKR_MUTEX_NOT_LOCKED, Status.ERROR_MUTEX_NOT_LOCKED),
    (CKR_FUNCTION_REJECTED, Status.ERROR_FUNCTION_REJECTED),
    (CKR_VENDOR_DEFINED, Status.ERROR_VENDOR_DEFINED) ]
/-- Modelled from the spec: the C type `CK_SLOT_ID` of the PKCS#11 header, absent from the sources; an `unsigned long`. -/
abbrev CK_SLOT_ID := Nat

/-- Modelled from the spec: the C type `CK_SESSION_HANDLE` of the PKCS#11 header, absent from the sources; an `unsigned long`. -/
abbrev CK_SESSION_HANDLE := Nat

/-- Modelled from the spec: the C type `CK_OBJECT_HANDLE` of the PKCS#11 header, absent from the sources; an `unsigned long`. -/
abbrev CK_OBJECT_HANDLE := Nat

/-- Modelled from the spec: the C type `CK_FLAGS` of the PKCS#11 header, absent from the sources; an `unsigned long`. -/
abbrev CK_FLAGS := Nat

/-- Modelled from the spec: the C type `CK_USER_TYPE` of the PKCS#11 header, absent from the sources; an `unsigned long`. -/
abbrev CK_USER_TYPE := Nat

/-- Modelled from the spec: the C type `CK_ATTRIBUTE_TYPE` of the PKCS#11 header, absent from the sources; an `unsigned long`. -/
abbrev CK_ATTRIBUTE_TYPE := Nat

/-- Modelled from the spec: the C type `CK_OBJECT_CLASS` of the PKCS#11 header, absent from the sources; an `unsigned long`. -/
abbrev CK_OBJECT_CLASS := Nat

/-- Modelled from the spec: the C type `CK_KEY_TYPE` of the PKCS#11 header, absent from the sources; an `unsigned long`. -/
abbrev CK_KEY_TYPE := Nat

/-- Modelled from the spec: the C type `CK_MECHANISM_TYPE` of the PKCS#11 header, absent from the sources; an `unsigned long`. -/
abbrev CK_MECHANISM_TYPE := Nat

/-- Modelled from the spec: the C type `CK_CERTIFICATE_TYPE` of the PKCS#11 header, absent from the sources; an `unsigned long`. -/
abbrev CK_CERTIFICATE_TYPE := Nat

/-- Modelled from the spec: the C type `CK_BYTE` of the PKCS#11 header, absent from the sources; an `unsigned char`, a number below 256. -/
abbrev CK_BYTE := Nat

/-- Modelled from the spec: `CKF_RW_SESSION` of the PKCS#11 header, absent from the sources; the value is the one of PKCS#11 v2.20. -/
def CKF_RW_SESSION : CK_FLAGS := 0x2

/-- Modelled from the spec: `CKF_SERIAL_SESSION` of the PKCS#11 header, absent from the sources; the value is the one of PKCS#11 v2.20. -/
def CKF_SERIAL_SESSION : CK_FLAGS := 0x4

/-- Modelled from the spec: `CKF_DONT_BLOCK` of the PKCS#11 header, absent from the sources; the value is the one of PKCS#11 v2.20. -/
def CKF_DONT_BLOCK : CK_FLAGS := 0x1

/-- Modelled from the spec: `CKU_USER` of the PKCS#11 header, absent from the sources; the value is the one of PKCS#11 v2.20. -/
def CKU_USER : CK_USER_TYPE := 0x1

/-- Modelled from the spec: `CKO_DATA` of the PKCS#11 header, absent from the sources; the value is the one of PKCS#11 v2.20. -/
def CKO_DATA : CK_OBJECT_CLASS := 0x0

/-- Modelled from the spec: `CKO_CERTIFICATE` of the PKCS#11 header, absent from the sources; the value is the one of PKCS#11 v2.20. -/
def CKO_CERTIFICATE : CK_OBJECT_CLASS := 0x1

/-- Modelled from the spec: `CKO_PUBLIC_KEY` of the PKCS#11 header, absent from the sources; the value is the one of PKCS#11 v2.20. -/
def CKO_PUBLIC_KEY : CK_OBJECT_CLASS := 0x2

/-- Modelled from the spec: `CKO_PRIVATE_KEY` of the PKCS#11 header, absent from the sources; the value is the one of PKCS#11 v2.20. -/
def CKO_PRIVATE_KEY : CK_OBJECT_CLASS := 0x3

/-- Modelled from the spec: `CKO_SECRET_KEY` of the PKCS#11 header, absent from the sources; the value is the one of PKCS#11 v2.20. -/
def CKO_SECRET_KEY : CK_OBJECT_CLASS := 0x4

/-- Modelled from the spec: `CKA_CLASS` of the PKCS#11 header, absent from the sources; the value is the one of PKCS#11 v2.20. -/
def CKA_CLASS : CK_ATTRIBUTE_TYPE := 0x0

/-- Modelled from the spec: `CKA_TOKEN` of the PKCS#11 header, absent from the sources; the value is the one of PKCS#11 v2.20. -/
def CKA_TOKEN : CK_ATTRIBUTE_TYPE := 0x1

/-- Modelled from the spec: `CKA_PRIVATE` of the PKCS#11 header, absent from the sources; the value is the one of PKCS#11 v2.20. -/
def CKA_PRIVATE : CK_ATTRIBUTE_TYPE := 0x2

/-- Modelled from the spec: `CKA_LABEL` of the PKCS#11 header, absent from the sources; the value is the one of PKCS#11 v2.20. -/
def CKA_LABEL : CK_ATTRIBUTE_TYPE := 0x3

/-- Modelled from the spec: `CKA_VALUE` of the PKCS#11 header, absent from the sources; the value is the one of PKCS#11 v2.20. -/
def CKA_VALUE : CK_ATTRIBUTE_TYPE := 0x11

/-- Modelled from the spec: `CKA_CERTIFICATE_TYPE` of the PKCS#11 header, absent from the sources; the value is the one of PKCS#11 v2.20. -/
def CKA_CERTIFICATE_TYPE : CK_ATTRIBUTE_TYPE := 0x80

/-- Modelled from the spec: `CKA_KEY_TYPE` of the PKCS#11 header, absent from the sources; the value is the one of PKCS#11 v2.20. -/
def CKA_KEY_TYPE : CK_ATTRIBUTE_TYPE := 0x100

/-- Modelled from the spec: `CKA_SUBJECT` of the PKCS#11 header, absent from the sources; the value is the one of PKCS#11 v2.20. -/
def CKA_SUBJECT : CK_ATTRIBUTE_TYPE := 0x101

/-- Modelled from the spec: `CKA_ID` of the PKCS#11 header, absent from the sources; the value is the one of PKCS#11 v2.20. -/
def CKA_ID : CK_ATTRIBUTE_TYPE := 0x102

/-- Modelled from the spec: `CKA_SENSITIVE` of the PKCS#11 header, absent from the sources; the value is the one of PKCS#11 v2.20. -/
def CKA_SENSITIVE : CK_ATTRIBUTE_TYPE := 0x103

/-- Modelled from the spec: `CKA_ENCRYPT` of the PKCS#11 header, absent from the sources; the value is the one of PKCS#11 v2.20. -/
def CKA_ENCRYPT : CK_ATTRIBUTE_TYPE := 0x104

/-- Modelled from the spec: `CKA_DECRYPT` of the PKCS#11 header, absent from the sources; the value is the one of PKCS#11 v2.20. -/
def CKA_DECRYPT : CK_ATTRIBUTE_TYPE := 0x105

/-- Modelled from the spec: `CKA_WRAP` of the PKCS#11 header, absent from the sources; the value is the one of PKCS#11 v2.20. -/
def CKA_WRAP : CK_ATTRIBUTE_TYPE := 0x106

/-- Modelled from the spec: `CKA_UNWRAP` of the PKCS#11 header, absent from the sources; the value is the one of PKCS#11 v2.20. -/
def CKA_UNWRAP : CK_ATTRIBUTE_TYPE := 0x107

/-- Modelled from the spec: `CKA_SIGN` of the PKCS#11 header, absent from the sources; the value is the one of PKCS#11 v2.20. -/
def CKA_SIGN : CK_ATTRIBUTE_TYPE := 0x108

/-- Modelled from the spec: `CKA_VERIFY` of the PKCS#11 header, absent from the sources; the value is the one of PKCS#11 v2.20. -/
def CKA_VERIFY : CK_ATTRIBUTE_TYPE := 0x10A

/-- Modelled from the spec: `CKA_DERIVE` of the PKCS#11 header, absent from the sources; the value is the one of PKCS#11 v2.20. -/
def CKA_DERIVE : CK_ATTRIBUTE_TYPE := 0x10C

/-- Modelled from the spec: `CKA_MODULUS_BITS` of the PKCS#11 header, absent from the sources; the value is the one of PKCS#11 v2.20. -/
def CKA_MODULUS_BITS : CK_ATTRIBUTE_TYPE := 0x121

/-- Modelled from the spec: `CKA_VALUE_LEN` of the PKCS#11 header, absent from the sources; the value is the one of PKCS#11 v2.20. -/
def CKA_VALUE_LEN : CK_ATTRIBUTE_TYPE := 0x161

/-- Modelled from the spec: `CKA_EXTRACTABLE` of the PKCS#11 header, absent from the sources; the value is the one of PKCS#11 v2.20. -/
def CKA_EXTRACTABLE : CK_ATTRIBUTE_TYPE := 0x162

/-- Modelled from the spec: `CKK_RSA` of the PKCS#11 header, absent from the sources; the value is the one of PKCS#11 v2.20. -/
def CKK_RSA : CK_KEY_TYPE := 0x0

/-- Modelled from the spec: `CKK_RC2` of the PKCS#11 header, absent from the sources; the value is the one of PKCS#11 v2.20. -/
def CKK_RC2 : CK_KEY_TYPE := 0x11

/-- Modelled from the spec: `CKK_RC4` of the PKCS#11 header, absent from the sources; the value is the one of PKCS#11 v2.20. -/
def CKK_RC4 : CK_KEY_TYPE := 0x12

/-- Modelled from the spec: `CKK_DES` of the PKCS#11 header, absent from the sources; the value is the one of PKCS#11 v2.20. -/
def CKK_DES : CK_KEY_TYPE := 0x13

/-- Modelled from the spec: `CKK_DES3` of the PKCS#11 header, absent from the sources; the value is the one of PKCS#11 v2.20. -/
def CKK_DES3 : CK_KEY_TYPE := 0x15

/-- Modelled from the spec: `CKK_AES` of the PKCS#11 header, absent from the sources; the value is the one of PKCS#11 v2.20. -/
def CKK_AES : CK_KEY_TYPE := 0x1F

/-- Modelled from the spec: `CKM_RSA_PKCS_KEY_PAIR_GEN` of the PKCS#11 header, absent from the sources; the value is the one of PKCS#11 v2.20. -/
def CKM_RSA_PKCS_KEY_PAIR_GEN : CK_MECHANISM_TYPE := 0x0

/-- Modelled from the spec: `CKM_RSA_PKCS` of the PKCS#11 header, absent from the sources; the value is the one of PKCS#11 v2.20. -/
def CKM_RSA_PKCS : CK_MECHANISM_TYPE := 0x1

/-- Modelled from the spec: `CKM_MD5_RSA_PKCS` of the PKCS#11 header, absent from the sources; the value is the one of PKCS#11 v2.20. -/
def CKM_MD5_RSA_PKCS : CK_MECHANISM_TYPE := 0x5

/-- Modelled from the spec: `CKM_SHA1_RSA_PKCS` of the PKCS#11 header, absent from the sources; the value is the one of PKCS#11 v2.20. -/
def CKM_SHA1_RSA_PKCS : CK_MECHANISM_TYPE := 0x6

/-- Modelled from the spec: `CKM_SHA256_RSA_PKCS` of the PKCS#11 header, absent from the sources; the value is the one of PKCS#11 v2.20. -/
def CKM_SHA256_RSA_PKCS : CK_MECHANISM_TYPE := 0x40

/-- Modelled from the spec: `CKM_SHA384_RSA_PKCS` of the PKCS#11 header, absent from the sources; the value is the one of PKCS#11 v2.20. -/
def CKM_SHA384_RSA_PKCS : CK_MECHANISM_TYPE := 0x41

/-- Modelled from the spec: `CKM_SHA512_RSA_PKCS` of the PKCS#11 header, absent from the sources; the value is the one of PKCS#11 v2.20. -/
def CKM_SHA512_RSA_PKCS : CK_MECHANISM_TYPE := 0x42

/-- Modelled from the spec: `CKM_SHA224_RSA_PKCS` of the PKCS#11 header, absent from the sources; the value is the one of PKCS#11 v2.20. -/
def CKM_SHA224_RSA_PKCS : CK_MECHANISM_TYPE := 0x46

/-- Modelled from the spec: `CKM_RC2_KEY_GEN` of the PKCS#11 header, absent from the sources; the value is the one of PKCS#11 v2.20. -/
def CKM_RC2_KEY_GEN : CK_MECHANISM_TYPE := 0x100

/-- Modelled from the spec: `CKM_RC2_ECB` of the PKCS#11 header, absent from the sources; the value is the one of PKCS#11 v2.20. -/
def CKM_RC2_ECB : CK_MECHANISM_TYPE := 0x101

/-- Modelled from the spec: `CKM_RC2_CBC` of the PKCS#11 header, absent from the sources; the value is the one of PKCS#11 v2.20. -/
def CKM_RC2_CBC : CK_MECHANISM_TYPE := 0x102

/-- Modelled from the spec: `CKM_RC2_CBC_PAD` of the PKCS#11 header, absent from the sources; the value is the one of PKCS#11 v2.20. -/
def CKM_RC2_CBC_PAD : CK_MECHANISM_TYPE := 0x105

/-- Modelled from the spec: `CKM_RC4_KEY_GEN` of the PKCS#11 header, absent from the sources; the value is the one of PKCS#11 v2.20. -/
def CKM_RC4_KEY_GEN : CK_MECHANISM_TYPE := 0x110

/-- Modelled from the spec: `CKM_RC4` of the PKCS#11 header, absent from the sources; the value is the one of PKCS#11 v2.20. -/
def CKM_RC4 : CK_MECHANISM_TYPE := 0x111

/-- Modelled from the spec: `CKM_DES_KEY_GEN` of the PKCS#11 header, absent from the sources; the value is the one of PKCS#11 v2.20. -/
def CKM_DES_KEY_GEN : CK_MECHANISM_TYPE := 0x120

/-- Modelled from the spec: `CKM_DES_ECB` of the PKCS#11 header, absent from the sources; the value is the one of PKCS#11 v2.20. -/
def CKM_DES_ECB : CK_MECHANISM_TYPE := 0x121

/-- Modelled from the spec: `CKM_DES_CBC` of the PKCS#11 header, absent from the sources; the value is the one of PKCS#11 v2.20. -/
def CKM_DES_CBC : CK_MECHANISM_TYPE := 0x122

/-- Modelled from the spec: `CKM_DES_CBC_PAD` of the PKCS#11 header, absent from the sources; the value is the one of PKCS#11 v2.20. -/
def CKM_DES_CBC_PAD : CK_MECHANISM_TYPE := 0x125

/-- Modelled from the spec: `CKM_DES3_KEY_GEN` of the PKCS#11 header, absent from the sources; the value is the one of PKCS#11 v2.20. -/
def CKM_DES3_KEY_GEN : CK_MECHANISM_TYPE := 0x131

/-- Modelled from the spec: `CKM_DES3_ECB` of the PKCS#11 header, absent from the sources; the value is the one of PKCS#11 v2.20. -/
def CKM_DES3_ECB : CK_MECHANISM_TYPE := 0x132

/-- Modelled from the spec: `CKM_DES3_CBC` of the PKCS#11 header, absent from the sources; the value is the one of PKCS#11 v2.20. -/
def CKM_DES3_CBC : CK_MECHANISM_TYPE := 0x133

/-- Modelled from the spec: `CKM_DES3_CBC_PAD` of the PKCS#11 header, absent from the sources; the value is the one of PKCS#11 v2.20. -/
def CKM_DES3_CBC_PAD : CK_MECHANISM_TYPE := 0x136

/-- Modelled from the spec: `CKM_AES_KEY_GEN` of the PKCS#11 header, absent from the sources; the value is the one of PKCS#11 v2.20. -/
def CKM_AES_KEY_GEN : CK_MECHANISM_TYPE := 0x1080

/-- Modelled from the spec: `CKM_AES_ECB` of the PKCS#11 header, absent from the sources; the value is the one of PKCS#11 v2.20. -/
def CKM_AES_ECB : CK_MECHANISM_TYPE := 0x1081

/-- Modelled from the spec: `CKM_AES_CBC` of the PKCS#11 header, absent from the sources; the value is the one of PKCS#11 v2.20. -/
def CKM_AES_CBC : CK_MECHANISM_TYPE := 0x1082

/-- Modelled from the spec: `CKM_AES_CBC_PAD` of the PKCS#11 header, absent from the sources; the value is the one of PKCS#11 v2.20. -/
def CKM_AES_CBC_PAD : CK_MECHANISM_TYPE := 0x1085

/-! ## `pkcs11_lib.h`: data structures -/

/-- The struct `CertificateInfo`; `label` is kept as the bytes the `std::string`
is built from. -/
structure CertificateInfo where
  handle : CK_OBJECT_HANDLE
  label : List CK_BYTE
  subject : List CK_BYTE
  id : List CK_BYTE
  value : List CK_BYTE
  type : CK_CERTIFICATE_TYPE
  deriving DecidableEq, Repr, Inhabited

/-- The struct `KeyInfo`; `label` is kept as bytes. A field the code leaves
unassigned reads as `0`, `[]` or `false` here. -/
structure KeyInfo where
  handle : CK_OBJECT_HANDLE
  label : List CK_BYTE
  keyType : CK_KEY_TYPE
  objectClass : CK_OBJECT_CLASS
  id : List CK_BYTE
  canEncrypt : Bool
  canDecrypt : Bool
  canSign : Bool
  canVerify : Bool
  canWrap : Bool
  canUnwrap : Bool
  canDerive : Bool
  isSensitive : Bool
  isExtractable : Bool
  deriving DecidableEq, Repr, Inhabited

/-- The struct `KeyPair`. -/
structure KeyPair where
  publicKey : KeyInfo
  privateKey : KeyInfo
  deriving DecidableEq, Repr, Inhabited

/-- The enumeration `HashAlgorithm`. -/
inductive HashAlgorithm where
  | SHA1 | SHA224 | SHA256 | SHA384 | SHA512 | MD5
  deriving DecidableEq, Repr

/-- The enumeration `SymmetricAlgorithm`. -/
inductive SymmetricAlgorithm where
  | DES | DES3 | RC2 | RC4 | AES
  deriving DecidableEq, Repr

/-- The enumeration `AsymmetricAlgorithm`. -/
inductive AsymmetricAlgorithm where
  | RSA | DSA | ECDSA
  deriving DecidableEq, Repr

/-- The enumeration `CipherMode`. -/
inductive CipherMode where
  | ECB | CBC | CBC_PAD
  deriving DecidableEq, Repr

/-! ## The external world: vendor module, dynamic loader, file stream -/

/-- The value of one `CK_ATTRIBUTE` of a template handed to the vendor. -/
inductive AttrValue where
  | ulong (n : Nat)
  | bool (b : Bool)
  | bytes (s : List CK_BYTE)
  deriving DecidableEq, Repr

/-- A `CK_MECHANISM` as the adapter fills it: the mechanism type and, when
`pParameter` is not null, the parameter bytes. -/
structure CK_MECHANISM where
  mechanism : CK_MECHANISM_TYPE
  pParameter : Option (List CK_BYTE)
  deriving DecidableEq, Repr

/-- Modelled from the spec: the table `AUX_FUNC_LIST` of `auxiliary.h`, absent from
the sources. Each field tells whether the entry `pFunc[EP_...]` the adapter reads
is a non-null function pointer. -/
structure AUX_FUNC_LIST where
  EP_GET_PIN_INFO : Bool
  EP_SET_TOKEN_LABEL : Bool
  EP_SET_TOKEN_TIMEOUT : Bool
  EP_GET_TOKEN_TIMEOUT : Bool
  EP_BLANK_TOKEN : Bool
  EP_WAITFORSLOTEVENT : Bool
  deriving DecidableEq, Repr, Inhabited

/-- One call the adapter makes outside itself, with the arguments it passes:
the dynamic loader, the entries of `CK_FUNCTION_LIST`, the auxiliary entries and
the output file stream. A buffer argument is `none` for a null pointer and
`some n` for a buffer of `n` elements. -/
inductive Call where
  | dlopen (path : String)
  | dlerror
  | dlsym (symbol : String)
  | dlclose
  | C_GetFunctionList
  | E_GetAuxFunctionList
  | C_Initialize
  | C_Finalize
  | C_GetSlotList (tokenPresent : Bool) (pSlotList : Option Nat)
  | C_GetSlotInfo (slotId : CK_SLOT_ID)
  | C_GetTokenInfo (slotId : CK_SLOT_ID)
  | C_OpenSession (slotId : CK_SLOT_ID) (flags : CK_FLAGS)
  | C_CloseSession (hSession : CK_SESSION_HANDLE)
  | C_Login (hSession : CK_SESSION_HANDLE) (userType : CK_USER_TYPE) (pin : String)
  | C_Logout (hSession : CK_SESSION_HANDLE)
  | C_SetPIN (hSession : CK_SESSION_HANDLE) (oldPin newPin : String)
  | C_InitPIN (hSession : CK_SESSION_HANDLE) (pin : String)
  | C_FindObjectsInit (hSession : CK_SESSION_HANDLE)
      (template_ : List (CK_ATTRIBUTE_TYPE × AttrValue))
  | C_FindObjects (hSession : CK_SESSION_HANDLE) (ulMaxObjectCount : Nat)
  | C_FindObjectsFinal (hSession : CK_SESSION_HANDLE)
  | C_GetAttributeValue (hSession : CK_SESSION_HANDLE) (hObject : CK_OBJECT_HANDLE)
      (type : CK_ATTRIBUTE_TYPE) (pValue : Option Nat)
  | C_GenerateKeyPair (hSession : CK_SESSION_HANDLE) (mechanism : CK_MECHANISM)
      (pubTemplate priTemplate : List (CK_ATTRIBUTE_TYPE × AttrValue))
  | C_GenerateKey (hSession : CK_SESSION_HANDLE) (mechanism : CK_MECHANISM)
      (keyTemplate : List (CK_ATTRIBUTE_TYPE × AttrValue))
  | C_SignInit (hSession : CK_SESSION_HANDLE) (mechanism : CK_MECHANISM)
      (hKey : CK_OBJECT_HANDLE)
  | C_Sign (hSession : CK_SESSION_HANDLE) (data : List CK_BYTE) (pSignature : Option Nat)
  | C_VerifyInit (hSession : CK_SESSION_HANDLE) (mechanism : CK_MECHANISM)
      (hKey : CK_OBJECT_HANDLE)
  | C_Verify (hSession : CK_SESSION_HANDLE) (data signature : List CK_BYTE)
  | C_EncryptInit (hSession : CK_SESSION_HANDLE) (mechanism : CK_MECHANISM)
      (hKey : CK_OBJECT_HANDLE)
  | C_Encrypt (hSession : CK_SESSION_HANDLE) (data : List CK_BYTE) (pOut : Option Nat)
  | C_DecryptInit (hSession : CK_SESSION_HANDLE) (mechanism : CK_MECHANISM)
      (hKey : CK_OBJECT_HANDLE)
  | C_Decrypt (hSession : CK_SESSION_HANDLE) (data : List CK_BYTE) (pOut : Option Nat)
  | C_DestroyObject (hSession : CK_SESSION_HANDLE) (hObject : CK_OBJECT_HANDLE)
  | EP_GetPinInfo (slotId : CK_SLOT_ID)
  | EP_SetTokenLabel (slotId : CK_SLOT_ID) (userType : CK_USER_TYPE) (label : String)
  | EP_SetTokenTimeout (slotId : CK_SLOT_ID) (timeoutMs : CK_ULONG)
  | EP_GetTokenTimeout (slotId : CK_SLOT_ID)
  | EP_BlankToken (slotId : CK_SLOT_ID) (soPin : String)
  | EP_WaitForSlotEvent (flags : CK_FLAGS)
  | ofstream_open (filename : String)
  | ofstream_write (bytes : List CK_BYTE)
  deriving DecidableEq, Repr

/-- What comes back from one external call: the return code and whatever the
callee wrote through the out-parameters of that call. `ptr` is a returned pointer
being non-null (for a stream: the stream being good); `handle`, `handle2` and
`count` are scalar out-parameters, `data` the content written to a buffer, `text`
a returned C string, `aux` the auxiliary table pointer written (`none` is null). -/
structure Reply where
  rv : CK_RV
  ptr : Bool
  handle : Nat
  handle2 : Nat
  count : Nat
  data : List Nat
  text : String
  aux : Option AUX_FUNC_LIST
  deriving DecidableEq, Repr, Inhabited

/-- The behaviour of everything outside the adapter: the reply to a call, given
the whole history of calls (latest first, the call being answered at the head).
Any sequence of replies is the behaviour of some `Vendor`; a callee that leaves
an out-parameter alone is one that writes back the value it held. -/
abbrev Vendor := List Call → Reply

/-- The size in bytes of `CK_ULONG` on the LP64 platforms the code is written for
(it includes `dlfcn.h`). -/
def sizeof_CK_ULONG : Nat := 8

/-- The size in bytes of `CK_BBOOL`. -/
def sizeof_CK_BBOOL : Nat := 1

/-- The number of values of a `CK_ULONG`. -/
def CK_ULONG_RANGE : Nat := 2 ^ 64

/-! ## `pkcs11_lib.h`: the state of `PKCS11Library` -/

/-- The private state of the class `PKCS11Library`. A pointer member is kept as
the flag "is not null" (`auxFunctionList_` as the table it points to), and `trace`
is the history of external calls made so far, latest first. -/
structure PKCS11Library where
  initialized_ : Bool
  sessionOpen_ : Bool
  loggedIn_ : Bool
  libraryHandle_ : Bool
  functionList_ : Bool
  auxFunctionList_ : Option AUX_FUNC_LIST
  session_ : CK_SESSION_HANDLE
  currentSlotId_ : CK_SLOT_ID
  trace : List Call
  deriving DecidableEq, Repr

/-- The constructor `PKCS11Library::PKCS11Library()`. -/
def PKCS11Library.ctor : PKCS11Library :=
  { initialized_ := false, sessionOpen_ := false, loggedIn_ := false,
    libraryHandle_ := false, functionList_ := false, auxFunctionList_ := none,
    session_ := 0, currentSlotId_ := 0, trace := [] }

/-- The accessor `isInitialized()`. -/
def PKCS11Library.isInitialized (w : PKCS11Library) : Bool := w.initialized_

/-- The accessor `isLoggedIn()`. -/
def PKCS11Library.isLoggedIn (w : PKCS11Library) : Bool := w.loggedIn_

/-- Make the external call `c`: it is put on the trace and the oracle answers it. -/
def call (v : Vendor) (w : PKCS11Library) (c : Call) : Reply × PKCS11Library :=
  (v (c :: w.trace), { w with trace := c :: w.trace })

/-- A call `functionList_->C_...(...)`. Through a null `functionList_` the
behaviour is undefined: there is no outcome (`none`). -/
def viaFunctionList (v : Vendor) (w : PKCS11Library) (c : Call) :
    Option (Reply × PKCS11Library) :=
  if w.functionList_ then some (call v w c) else none

/-- The content of a zero-initialised buffer of `n` elements after the callee wrote
`data` to it (what does not fit is not written). -/
def fillBuffer (n : Nat) (data : List Nat) : List Nat :=
  (data ++ List.replicate n 0).take n

/-- The call `vector::resize(n)`: truncate, or pad with zeros. -/
def resize (buf : List Nat) (n : Nat) : List Nat :=
  (buf ++ List.replicate n 0).take n

/-! ## `pkcs11_lib.cpp`: library management -/

/-- The method `PKCS11Library::loadLibrary`. -/
def PKCS11Library.loadLibrary (v : Vendor) (path : String) (w : PKCS11Library) :
    Result Unit × PKCS11Library :=
  let r1 := call v w (Call.dlopen path)
  let w1 := { r1.2 with libraryHandle_ := r1.1.ptr }
  if !w1.libraryHandle_ then
    let r2 := call v w1 Call.dlerror
    (Result.Error Status.ERROR_GENERAL ("Failed to load library: " ++ r2.1.text) 0, r2.2)
  else
    let r3 := call v w1 (Call.dlsym "C_GetFunctionList")
    if !r3.1.ptr then
      let r4 := call v r3.2 Call.dlclose
      (Result.Error Status.ERROR_GENERAL "Failed to get C_GetFunctionList" 0,
        { r4.2 with libraryHandle_ := false })
    else
      let r5 := call v r3.2 Call.C_GetFunctionList
      let w5 := { r5.2 with functionList_ := r5.1.ptr }
      if r5.1.rv != CKR_OK || !w5.functionList_ then
        let r6 := call v w5 Call.dlclose
        (Result.Error Status.ERROR_GENERAL "Failed to get function list" r5.1.rv,
          { r6.2 with libraryHandle_ := false })
      else
        (Result.Ok (), w5)

/-- The method `PKCS11Library::loadAuxFunctions`. -/
def PKCS11Library.loadAuxFunctions (v : Vendor) (w : PKCS11Library) :
    Result Unit × PKCS11Library :=
  if !w.libraryHandle_ then
    (Result.Error Status.ERROR_GENERAL "Library not loaded" 0, w)
  else
    let r1 := call v w (Call.dlsym "E_GetAuxFunctionList")
    if r1.1.ptr then
      let r2 := call v r1.2 Call.E_GetAuxFunctionList
      (Result.Ok (), { r2.2 with auxFunctionList_ := r2.1.aux })
    else
      (Result.Ok (), r1.2)

/-- The method `PKCS11Library::initialize`. -/
def PKCS11Library.initialize (v : Vendor) (libraryPath : String) (w : PKCS11Library) :
    Option (Result Unit × PKCS11Library) :=
  if w.initialized_ then some (Result.Ok (), w)
  else
    let path := if libraryPath.isEmpty then "libshuttle_p11v220.so.1.0.0" else libraryPath
    let result := PKCS11Library.loadLibrary v path w
    if !result.1.isOk then some result
    else
      match viaFunctionList v result.2 Call.C_Initialize with
      | none => none
      | some (r, w2) =>
        if r.rv != CKR_OK && r.rv != CKR_CRYPTOKI_ALREADY_INITIALIZED then
          some (Result.Error Status.ERROR_GENERAL "Failed to initialize PKCS#11" r.rv, w2)
        else
          let w3 := (PKCS11Library.loadAuxFunctions v w2).2
          some (Result.Ok (), { w3 with initialized_ := true })

/-! ## `pkcs11_lib.cpp`: sessions and authentication -/

/-- The method `PKCS11Library::logout`. -/
def PKCS11Library.logout (v : Vendor) (w : PKCS11Library) :
    Option (Result Unit × PKCS11Library) :=
  if !w.loggedIn_ then some (Result.Ok (), w)
  else
    match viaFunctionList v w (Call.C_Logout w.session_) with
    | none => none
    | some (r, w1) =>
      let w2 := { w1 with loggedIn_ := false }
      if r.rv != CKR_OK then
        some (Result.Error (convertPKCS11Error r.rv) "Failed to logout" r.rv, w2)
      else
        some (Result.Ok (), w2)

/-- The method `PKCS11Library::closeSession`; the result of the inner `logout()` is
dropped. -/
def PKCS11Library.closeSession (v : Vendor) (w : PKCS11Library) :
    Option (Result Unit × PKCS11Library) :=
  if !w.sessionOpen_ then some (Result.Ok (), w)
  else
    match (if w.loggedIn_ then (PKCS11Library.logout v w).map Prod.snd else some w) with
    | none => none
    | some w0 =>
      match viaFunctionList v w0 (Call.C_CloseSession w0.session_) with
      | none => none
      | some (r, w1) =>
        let w2 := { w1 with sessionOpen_ := false, session_ := 0 }
        if r.rv != CKR_OK then
          some (Result.Error (convertPKCS11Error r.rv) "Failed to close session" r.rv, w2)
        else
          some (Result.Ok (), w2)

/-- The method `PKCS11Library::openSession`; the result of the inner
`closeSession()` is dropped, and the vendor writes `session_` through the
out-parameter of `C_OpenSession`. -/
def PKCS11Library.openSession (v : Vendor) (slotId : CK_SLOT_ID) (readWrite : Bool)
    (w : PKCS11Library) : Option (Result Unit × PKCS11Library) :=
  if !w.initialized_ then
    some (Result.Error Status.ERROR_GENERAL "Library not initialized" 0, w)
  else
    match (if w.sessionOpen_ then (PKCS11Library.closeSession v w).map Prod.snd
           else some w) with
    | none => none
    | some w0 =>
      let flags := if readWrite then CKF_SERIAL_SESSION ||| CKF_RW_SESSION
                   else CKF_SERIAL_SESSION
      match viaFunctionList v w0 (Call.C_OpenSession slotId flags) with
      | none => none
      | some (r, w1) =>
        let w2 := { w1 with session_ := r.handle }
        if r.rv != CKR_OK then
          some (Result.Error (convertPKCS11Error r.rv) "Failed to open session" r.rv, w2)
        else
          some (Result.Ok (), { w2 with sessionOpen_ := true, currentSlotId_ := slotId })

/-- The method `PKCS11Library::login`. -/
def PKCS11Library.login (v : Vendor) (pin : String) (userType : CK_USER_TYPE)
    (w : PKCS11Library) : Option (Result Unit × PKCS11Library) :=
  if !w.sessionOpen_ then
    some (Result.Error Status.ERROR_GENERAL "No session open" 0, w)
  else
    match viaFunctionList v w (Call.C_Login w.session_ userType pin) with
    | none => none
    | some (r, w1) =>
      if r.rv != CKR_OK then
        some (Result.Error (convertPKCS11Error r.rv) "Failed to login" r.rv, w1)
      else
        some (Result.Ok (), { w1 with loggedIn_ := true })

/-- The method `PKCS11Library::finalize`; the result of the inner `closeSession()`
and the return code of `C_Finalize` are dropped. -/
def PKCS11Library.finalize (v : Vendor) (w : PKCS11Library) :
    Option (Result Unit × PKCS11Library) :=
  if !w.initialized_ then some (Result.Ok (), w)
  else
    match (if w.sessionOpen_ then (PKCS11Library.closeSession v w).map Prod.snd
           else some w) with
    | none => none
    | some w0 =>
      let w1 := if w0.functionList_ then
                  { (call v w0 Call.C_Finalize).2 with functionList_ := false }
                else w0
      let w2 := if w1.libraryHandle_ then
                  { (call v w1 Call.dlclose).2 with libraryHandle_ := false }
                else w1
      some (Result.Ok (), { w2 with auxFunctionList_ := none, initialized_ := false })

/-- The method `PKCS11Library::changePin`. -/
def PKCS11Library.changePin (v : Vendor) (oldPin newPin : String) (w : PKCS11Library) :
    Option (Result Unit × PKCS11Library) :=
  if !w.sessionOpen_ then
    some (Result.Error Status.ERROR_GENERAL "No session open" 0, w)
  else
    match viaFunctionList v w (Call.C_SetPIN w.session_ oldPin newPin) with
    | none => none
    | some (r, w1) =>
      if r.rv != CKR_OK then
        some (Result.Error (convertPKCS11Error r.rv) "Failed to change PIN" r.rv, w1)
      else
        some (Result.Ok (), w1)

/-- The method `PKCS11Library::initPin`. -/
def PKCS11Library.initPin (v : Vendor) (pin : String) (w : PKCS11Library) :
    Option (Result Unit × PKCS11Library) :=
  if !w.sessionOpen_ then
    some (Result.Error Status.ERROR_GENERAL "No session open" 0, w)
  else
    match viaFunctionList v w (Call.C_InitPIN w.session_ pin) with
    | none => none
    | some (r, w1) =>
      if r.rv != CKR_OK then
        some (Result.Error (convertPKCS11Error r.rv) "Failed to initialize PIN" r.rv, w1)
      else
        some (Result.Ok (), w1)

/-- The method `PKCS11Library::destroyObject`. -/
def PKCS11Library.destroyObject (v : Vendor) (objectHandle : CK_OBJECT_HANDLE)
    (w : PKCS11Library) : Option (Result Unit × PKCS11Library) :=
  if !w.sessionOpen_ then
    some (Result.Error Status.ERROR_GENERAL "No session open" 0, w)
  else
    match viaFunctionList v w (Call.C_DestroyObject w.session_ objectHandle) with
    | none => none
    | some (r, w1) =>
      if r.rv != CKR_OK then
        some (Result.Error (convertPKCS11Error r.rv) "Failed to destroy object" r.rv, w1)
      else
        some (Result.Ok (), w1)

/-! ## `pkcs11_lib.cpp`: slots, tokens and the auxiliary functions

For `getSlotInfo`, `getTokenInfo` and `getPinInfo` the value carried on success is
the structure the vendor filled, kept as the `Reply`; the field-by-field copy and
`trimString` are not modelled. -/

/-- The method `PKCS11Library::getSlotList`. -/
def PKCS11Library.getSlotList (v : Vendor) (tokenPresent : Bool) (w : PKCS11Library) :
    Option (Result (List CK_SLOT_ID) × PKCS11Library) :=
  if !w.initialized_ then
    some (Result.Error Status.ERROR_GENERAL "Library not initialized" 0, w)
  else
    match viaFunctionList v w (Call.C_GetSlotList tokenPresent none) with
    | none => none
    | some (r, w1) =>
      if r.rv != CKR_OK then
        some (Result.Error (convertPKCS11Error r.rv) "Failed to get slot count" r.rv, w1)
      else if r.count == 0 then
        some (Result.Ok [], w1)
      else
        match viaFunctionList v w1 (Call.C_GetSlotList tokenPresent (some r.count)) with
        | none => none
        | some (r2, w2) =>
          if r2.rv != CKR_OK then
            some (Result.Error (convertPKCS11Error r2.rv) "Failed to get slot list" r2.rv, w2)
          else
            some (Result.Ok (resize (fillBuffer r.count r2.data) r2.count), w2)

/-- The method `PKCS11Library::getSlotInfo`. -/
def PKCS11Library.getSlotInfo (v : Vendor) (slotId : CK_SLOT_ID) (w : PKCS11Library) :
    Option (Result Reply × PKCS11Library) :=
  if !w.initialized_ then
    some (Result.Error Status.ERROR_GENERAL "Library not initialized" 0, w)
  else
    match viaFunctionList v w (Call.C_GetSlotInfo slotId) with
    | none => none
    | some (r, w1) =>
      if r.rv != CKR_OK then
        some (Result.Error (convertPKCS11Error r.rv) "Failed to get slot info" r.rv, w1)
      else
        some (Result.Ok r, w1)

/-- The method `PKCS11Library::getTokenInfo`. -/
def PKCS11Library.getTokenInfo (v : Vendor) (slotId : CK_SLOT_ID) (w : PKCS11Library) :
    Option (Result Reply × PKCS11Library) :=
  if !w.initialized_ then
    some (Result.Error Status.ERROR_GENERAL "Library not initialized" 0, w)
  else
    match viaFunctionList v w (Call.C_GetTokenInfo slotId) with
    | none => none
    | some (r, w1) =>
      if r.rv != CKR_OK then
        some (Result.Error (convertPKCS11Error r.rv) "Failed to get token info" r.rv, w1)
      else
        some (Result.Ok r, w1)

/-- The shape shared by the operations on the auxiliary table: the guard
`!sessionOpen_ || !auxFunctionList_`, the test of the entry `pFunc[...]`, the call
through it, and the translation of its return code. `entry` picks the table entry,
`c` is the call made, `ok` builds the value returned on `CKR_OK`. -/
def PKCS11Library.viaAux {α : Type} [Inhabited α] (v : Vendor) (w : PKCS11Library)
    (entry : AUX_FUNC_LIST → Bool) (missing failed : String) (c : Call)
    (ok : Reply → α) : Result α × PKCS11Library :=
  match w.sessionOpen_, w.auxFunctionList_ with
  | true, some aux =>
    if !entry aux then
      (Result.Error Status.ERROR_FUNCTION_FAILED missing 0, w)
    else
      let r := call v w c
      if r.1.rv != CKR_OK then
        (Result.Error (convertPKCS11Error r.1.rv) failed r.1.rv, r.2)
      else
        (Result.Ok (ok r.1), r.2)
  | _, _ =>
    (Result.Error Status.ERROR_GENERAL "Session not open or aux functions not available" 0, w)

/-- The method `PKCS11Library::getPinInfo`. -/
def PKCS11Library.getPinInfo (v : Vendor) (w : PKCS11Library) :
    Result Reply × PKCS11Library :=
  PKCS11Library.viaAux v w AUX_FUNC_LIST.EP_GET_PIN_INFO
    "GetPinInfo function not available" "Failed to get PIN info"
    (Call.EP_GetPinInfo w.currentSlotId_) id

/-- The method `PKCS11Library::setTokenLabel`. -/
def PKCS11Library.setTokenLabel (v : Vendor) (label : String) (w : PKCS11Library) :
    Result Unit × PKCS11Library :=
  PKCS11Library.viaAux v w AUX_FUNC_LIST.EP_SET_TOKEN_LABEL
    "SetTokenLabel function not available" "Failed to set token label"
    (Call.EP_SetTokenLabel w.currentSlotId_ CKU_USER label) (fun _ => ())

/-- The method `PKCS11Library::setTokenTimeout`; the product is taken in
`CK_ULONG` arithmetic. -/
def PKCS11Library.setTokenTimeout (v : Vendor) (timeoutSeconds : CK_ULONG)
    (w : PKCS11Library) : Result Unit × PKCS11Library :=
  PKCS11Library.viaAux v w AUX_FUNC_LIST.EP_SET_TOKEN_TIMEOUT
    "SetTokenTimeout function not available" "Failed to set token timeout"
    (Call.EP_SetTokenTimeout w.currentSlotId_ (timeoutSeconds * 1000 % CK_ULONG_RANGE))
    (fun _ => ())

/-- The method `PKCS11Library::getTokenTimeout`. -/
def PKCS11Library.getTokenTimeout (v : Vendor) (w : PKCS11Library) :
    Result CK_ULONG × PKCS11Library :=
  PKCS11Library.viaAux v w AUX_FUNC_LIST.EP_GET_TOKEN_TIMEOUT
    "GetTokenTimeout function not available" "Failed to get token timeout"
    (Call.EP_GetTokenTimeout w.currentSlotId_) (fun r => r.count / 1000)

/-- The method `PKCS11Library::blankToken`. -/
def PKCS11Library.blankToken (v : Vendor) (soPin : String) (w : PKCS11Library) :
    Result Unit × PKCS11Library :=
  PKCS11Library.viaAux v w AUX_FUNC_LIST.EP_BLANK_TOKEN
    "BlankToken function not available" "Failed to blank token"
    (Call.EP_BlankToken w.currentSlotId_ soPin) (fun _ => ())

/-- The method `PKCS11Library::waitForSlotEvent`. -/
def PKCS11Library.waitForSlotEvent (v : Vendor) (blocking : Bool) (w : PKCS11Library) :
    Result (CK_SLOT_ID × CK_ULONG) × PKCS11Library :=
  PKCS11Library.viaAux v w AUX_FUNC_LIST.EP_WAITFORSLOTEVENT
    "WaitForSlotEvent function not available" "Failed to wait for slot event"
    (Call.EP_WaitForSlotEvent (if blocking then 0 else CKF_DONT_BLOCK))
    (fun r => (r.handle, r.handle2))

/-! ## `pkcs11_lib.cpp`: attributes -/

/-- The method template `PKCS11Library::getAttribute<T>`, `size` being `sizeof(T)`;
the value is the scalar the vendor wrote. It tests neither `sessionOpen_` nor
`functionList_`. -/
def PKCS11Library.getAttribute (v : Vendor) (size : Nat) (handle : CK_OBJECT_HANDLE)
    (type : CK_ATTRIBUTE_TYPE) (w : PKCS11Library) : Option (Result Nat × PKCS11Library) :=
  match viaFunctionList v w (Call.C_GetAttributeValue w.session_ handle type (some size)) with
  | none => none
  | some (r, w1) =>
    if r.rv != CKR_OK then
      some (Result.Error (convertPKCS11Error r.rv) "Failed to get attribute" r.rv, w1)
    else
      some (Result.Ok r.handle, w1)

/-- The method `PKCS11Library::getAttributeBytes`: one call for the length, one for
the value. It tests neither `sessionOpen_` nor `functionList_`. -/
def PKCS11Library.getAttributeBytes (v : Vendor) (handle : CK_OBJECT_HANDLE)
    (type : CK_ATTRIBUTE_TYPE) (w : PKCS11Library) :
    Option (Result (List CK_BYTE) × PKCS11Library) :=
  match viaFunctionList v w (Call.C_GetAttributeValue w.session_ handle type none) with
  | none => none
  | some (r, w1) =>
    if r.rv != CKR_OK then
      some (Result.Error (convertPKCS11Error r.rv) "Failed to get attribute length" r.rv, w1)
    else if r.count == 0 then
      some (Result.Ok [], w1)
    else
      match viaFunctionList v w1
          (Call.C_GetAttributeValue w1.session_ handle type (some r.count)) with
      | none => none
      | some (r2, w2) =>
        if r2.rv != CKR_OK then
          some (Result.Error (convertPKCS11Error r2.rv) "Failed to get attribute value" r2.rv,
            w2)
        else
          some (Result.Ok (fillBuffer r.count r2.data), w2)

/-- The method `PKCS11Library::exportCertificate`. -/
def PKCS11Library.exportCertificate (v : Vendor) (certHandle : CK_OBJECT_HANDLE)
    (w : PKCS11Library) : Option (Result (List CK_BYTE) × PKCS11Library) :=
  PKCS11Library.getAttributeBytes v certHandle CKA_VALUE w

/-- The method `PKCS11Library::getObjectAttribute`. -/
def PKCS11Library.getObjectAttribute (v : Vendor) (objectHandle : CK_OBJECT_HANDLE)
    (attrType : CK_ATTRIBUTE_TYPE) (w : PKCS11Library) :
    Option (Result (List CK_BYTE) × PKCS11Library) :=
  PKCS11Library.getAttributeBytes v objectHandle attrType w

/-- The method `PKCS11Library::exportCertificateToFile`; opening the stream and
writing to it are external calls, the reply telling whether the stream is good. -/
def PKCS11Library.exportCertificateToFile (v : Vendor) (certHandle : CK_OBJECT_HANDLE)
    (filename : String) (w : PKCS11Library) : Option (Result Unit × PKCS11Library) :=
  match PKCS11Library.exportCertificate v certHandle w with
  | none => none
  | some (certData, w1) =>
    if !certData.isOk then
      some (Result.Error certData.errorCode certData.errorMessage certData.pkcs11Error, w1)
    else
      let f := call v w1 (Call.ofstream_open filename)
      if !f.1.ptr then
        some (Result.Error Status.ERROR_GENERAL "Failed to open file for writing" 0, f.2)
      else
        let g := call v f.2 (Call.ofstream_write certData.value)
        if !g.1.ptr then
          some (Result.Error Status.ERROR_GENERAL "Failed to write certificate data" 0, g.2)
        else
          some (Result.Ok (), g.2)

/-! ## `pkcs11_lib.cpp`: object enumeration

The loops `while (true)` of the three enumerations run until the vendor reports an
error or no further object; they are given a bound `fuel` on the number of
iterations and have no outcome (`none`) when it is used up. -/

/-- The loop of `findDataObjects`: one `C_FindObjects` call per iteration, leaving
the loop on `rv != CKR_OK || count == 0`. Returns the handles collected. -/
def PKCS11Library.findDataObjectsLoop (v : Vendor) :
    Nat → PKCS11Library → List CK_OBJECT_HANDLE →
      Option (List CK_OBJECT_HANDLE × PKCS11Library)
  | 0, _, _ => none
  | fuel + 1, w, objects =>
    match viaFunctionList v w (Call.C_FindObjects w.session_ 1) with
    | none => none
    | some (r, w1) =>
      if r.rv != CKR_OK || r.count == 0 then some (objects, w1)
      else PKCS11Library.findDataObjectsLoop v fuel w1 (objects ++ [r.handle])

/-- The method `PKCS11Library::findDataObjects`; the return code of
`C_FindObjectsFinal` is dropped. -/
def PKCS11Library.findDataObjects (v : Vendor) (fuel : Nat) (w : PKCS11Library) :
    Option (Result (List CK_OBJECT_HANDLE) × PKCS11Library) :=
  if !w.sessionOpen_ then
    some (Result.Error Status.ERROR_GENERAL "No session open" 0, w)
  else
    match viaFunctionList v w (Call.C_FindObjectsInit w.session_
        [(CKA_CLASS, AttrValue.ulong CKO_DATA), (CKA_TOKEN, AttrValue.bool true)]) with
    | none => none
    | some (r, w1) =>
      if r.rv != CKR_OK then
        some (Result.Error (convertPKCS11Error r.rv) "Failed to init data object search" r.rv,
          w1)
      else
        match PKCS11Library.findDataObjectsLoop v fuel w1 [] with
        | none => none
        | some (objects, w2) =>
          match viaFunctionList v w2 (Call.C_FindObjectsFinal w2.session_) with
          | none => none
          | some (_, w3) => some (Result.Ok objects, w3)

/-- The body of the loop of `findCertificates` for one handle: the five attribute
reads, each kept only when it succeeded. -/
def PKCS11Library.readCertificate (v : Vendor) (handle : CK_OBJECT_HANDLE)
    (w : PKCS11Library) : Option (CertificateInfo × PKCS11Library) :=
  match PKCS11Library.getAttributeBytes v handle CKA_LABEL w with
  | none => none
  | some (labelBytes, w1) =>
  match PKCS11Library.getAttributeBytes v handle CKA_SUBJECT w1 with
  | none => none
  | some (subject, w2) =>
  match PKCS11Library.getAttributeBytes v handle CKA_ID w2 with
  | none => none
  | some (id, w3) =>
  match PKCS11Library.getAttributeBytes v handle CKA_VALUE w3 with
  | none => none
  | some (value, w4) =>
  match PKCS11Library.getAttribute v sizeof_CK_ULONG handle CKA_CERTIFICATE_TYPE w4 with
  | none => none
  | some (type, w5) =>
    some ({ handle := handle,
            label := if labelBytes.isOk then labelBytes.value else [],
            subject := if subject.isOk then subject.value else [],
            id := if id.isOk then id.value else [],
            value := if value.isOk then value.value else [],
            type := if type.isOk then type.value else 0 }, w5)

/-- The loop of `findCertificates`. -/
def PKCS11Library.findCertificatesLoop (v : Vendor) :
    Nat → PKCS11Library → List CertificateInfo →
      Option (List CertificateInfo × PKCS11Library)
  | 0, _, _ => none
  | fuel + 1, w, certificates =>
    match viaFunctionList v w (Call.C_FindObjects w.session_ 1) with
    | none => none
    | some (r, w1) =>
      if r.rv != CKR_OK || r.count == 0 then some (certificates, w1)
      else
        match PKCS11Library.readCertificate v r.handle w1 with
        | none => none
        | some (cert, w2) =>
          PKCS11Library.findCertificatesLoop v fuel w2 (certificates ++ [cert])

/-- The method `PKCS11Library::findCertificates`. -/
def PKCS11Library.findCertificates (v : Vendor) (fuel : Nat) (w : PKCS11Library) :
    Option (Result (List CertificateInfo) × PKCS11Library) :=
  if !w.sessionOpen_ then
    some (Result.Error Status.ERROR_GENERAL "No session open" 0, w)
  else
    match viaFunctionList v w (Call.C_FindObjectsInit w.session_
        [(CKA_CLASS, AttrValue.ulong CKO_CERTIFICATE), (CKA_TOKEN, AttrValue.bool true)]) with
    | none => none
    | some (r, w1) =>
      if r.rv != CKR_OK then
        some (Result.Error (convertPKCS11Error r.rv) "Failed to init certificate search" r.rv,
          w1)
      else
        match PKCS11Library.findCertificatesLoop v fuel w1 [] with
        | none => none
        | some (certificates, w2) =>
          match viaFunctionList v w2 (Call.C_FindObjectsFinal w2.session_) with
          | none => none
          | some (_, w3) => some (Result.Ok certificates, w3)

/-- One capability flag of `findKeys`: `getAttribute<CK_BBOOL>` and then
`flag.isOk() && flag.value`. -/
def PKCS11Library.readFlag (v : Vendor) (handle : CK_OBJECT_HANDLE)
    (type : CK_ATTRIBUTE_TYPE) (w : PKCS11Library) : Option (Bool × PKCS11Library) :=
  match PKCS11Library.getAttribute v sizeof_CK_BBOOL handle type w with
  | none => none
  | some (flag, w1) => some (flag.isOk && flag.value != 0, w1)

/-- The body of the loop of `findKeys` for one handle. -/
def PKCS11Library.readKey (v : Vendor) (keyClass : CK_OBJECT_CLASS)
    (handle : CK_OBJECT_HANDLE) (w : PKCS11Library) : Option (KeyInfo × PKCS11Library) :=
  match PKCS11Library.getAttributeBytes v handle CKA_LABEL w with
  | none => none
  | some (labelBytes, w1) =>
  match PKCS11Library.getAttribute v sizeof_CK_ULONG handle CKA_KEY_TYPE w1 with
  | none => none
  | some (keyType, w2) =>
  match PKCS11Library.getAttributeBytes v handle CKA_ID w2 with
  | none => none
  | some (id, w3) =>
  match PKCS11Library.readFlag v handle CKA_ENCRYPT w3 with
  | none => none
  | some (canEncrypt, w4) =>
  match PKCS11Library.readFlag v handle CKA_DECRYPT w4 with
  | none => none
  | some (canDecrypt, w5) =>
  match PKCS11Library.readFlag v handle CKA_SIGN w5 with
  | none => none
  | some (canSign, w6) =>
  match PKCS11Library.readFlag v handle CKA_VERIFY w6 with
  | none => none
  | some (canVerify, w7) =>
  match PKCS11Library.readFlag v handle CKA_WRAP w7 with
  | none => none
  | some (canWrap, w8) =>
  match PKCS11Library.readFlag v handle CKA_UNWRAP w8 with
  | none => none
  | some (canUnwrap, w9) =>
  match PKCS11Library.readFlag v handle CKA_DERIVE w9 with
  | none => none
  | some (canDerive, w10) =>
  match PKCS11Library.readFlag v handle CKA_SENSITIVE w10 with
  | none => none
  | some (isSensitive, w11) =>
  match PKCS11Library.readFlag v handle CKA_EXTRACTABLE w11 with
  | none => none
  | some (isExtractable, w12) =>
    some ({ handle := handle,
            label := if labelBytes.isOk then labelBytes.value else [],
            keyType := if keyType.isOk then keyType.value else 0,
            objectClass := keyClass,
            id := if id.isOk then id.value else [],
            canEncrypt := canEncrypt, canDecrypt := canDecrypt, canSign := canSign,
            canVerify := canVerify, canWrap := canWrap, canUnwrap := canUnwrap,
            canDerive := canDerive, isSensitive := isSensitive,
            isExtractable := isExtractable }, w12)

/-- The loop of `findKeys`. -/
def PKCS11Library.findKeysLoop (v : Vendor) (keyClass : CK_OBJECT_CLASS) :
    Nat → PKCS11Library → List KeyInfo → Option (List KeyInfo × PKCS11Library)
  | 0, _, _ => none
  | fuel + 1, w, keys =>
    match viaFunctionList v w (Call.C_FindObjects w.session_ 1) with
    | none => none
    | some (r, w1) =>
      if r.rv != CKR_OK || r.count == 0 then some (keys, w1)
      else
        match PKCS11Library.readKey v keyClass r.handle w1 with
        | none => none
        | some (key, w2) => PKCS11Library.findKeysLoop v keyClass fuel w2 (keys ++ [key])

/-- The method `PKCS11Library::findKeys`. -/
def PKCS11Library.findKeys (v : Vendor) (fuel : Nat) (keyClass : CK_OBJECT_CLASS)
    (w : PKCS11Library) : Option (Result (List KeyInfo) × PKCS11Library) :=
  if !w.sessionOpen_ then
    some (Result.Error Status.ERROR_GENERAL "No session open" 0, w)
  else
    match viaFunctionList v w (Call.C_FindObjectsInit w.session_
        [(CKA_CLASS, AttrValue.ulong keyClass), (CKA_TOKEN, AttrValue.bool true)]) with
    | none => none
    | some (r, w1) =>
      if r.rv != CKR_OK then
        some (Result.Error (convertPKCS11Error r.rv) "Failed to init key search" r.rv, w1)
      else
        match PKCS11Library.findKeysLoop v keyClass fuel w1 [] with
        | none => none
        | some (keys, w2) =>
          match viaFunctionList v w2 (Call.C_FindObjectsFinal w2.session_) with
          | none => none
          | some (_, w3) => some (Result.Ok keys, w3)

/-! ## `pkcs11_lib.cpp`: mechanisms, key generation and cryptographic operations -/

/-- The method `PKCS11Library::createMechanism`. -/
def PKCS11Library.createMechanism (algorithm : SymmetricAlgorithm) (mode : CipherMode)
    (iv : List CK_BYTE) : CK_MECHANISM :=
  let mechanism : CK_MECHANISM_TYPE :=
    match algorithm, mode with
    | SymmetricAlgorithm.DES, CipherMode.ECB => CKM_DES_ECB
    | SymmetricAlgorithm.DES, CipherMode.CBC => CKM_DES_CBC
    | SymmetricAlgorithm.DES, CipherMode.CBC_PAD => CKM_DES_CBC_PAD
    | SymmetricAlgorithm.DES3, CipherMode.ECB => CKM_DES3_ECB
    | SymmetricAlgorithm.DES3, CipherMode.CBC => CKM_DES3_CBC
    | SymmetricAlgorithm.DES3, CipherMode.CBC_PAD => CKM_DES3_CBC_PAD
    | SymmetricAlgorithm.RC2, CipherMode.ECB => CKM_RC2_ECB
    | SymmetricAlgorithm.RC2, CipherMode.CBC => CKM_RC2_CBC
    | SymmetricAlgorithm.RC2, CipherMode.CBC_PAD => CKM_RC2_CBC_PAD
    | SymmetricAlgorithm.RC4, _ => CKM_RC4
    | SymmetricAlgorithm.AES, CipherMode.ECB => CKM_AES_ECB
    | SymmetricAlgorithm.AES, CipherMode.CBC => CKM_AES_CBC
    | SymmetricAlgorithm.AES, CipherMode.CBC_PAD => CKM_AES_CBC_PAD
  { mechanism := mechanism,
    pParameter := if mode = CipherMode.CBC ∨ mode = CipherMode.CBC_PAD then some iv
                  else none }

/-- The method `PKCS11Library::createHashMechanism`; for an algorithm other than RSA
the code leaves `mechanism.mechanism` unassigned, read as `0` here. -/
def PKCS11Library.createHashMechanism (hashAlg : HashAlgorithm)
    (asymAlg : AsymmetricAlgorithm) : CK_MECHANISM :=
  let mechanism : CK_MECHANISM_TYPE :=
    if asymAlg = AsymmetricAlgorithm.RSA then
      match hashAlg with
      | HashAlgorithm.SHA1 => CKM_SHA1_RSA_PKCS
      | HashAlgorithm.SHA224 => CKM_SHA224_RSA_PKCS
      | HashAlgorithm.SHA256 => CKM_SHA256_RSA_PKCS
      | HashAlgorithm.SHA384 => CKM_SHA384_RSA_PKCS
      | HashAlgorithm.SHA512 => CKM_SHA512_RSA_PKCS
      | HashAlgorithm.MD5 => CKM_MD5_RSA_PKCS
    else 0
  { mechanism := mechanism, pParameter := none }

/-- The method `PKCS11Library::generateRSAKeyPair`. -/
def PKCS11Library.generateRSAKeyPair (v : Vendor) (modulusBits : CK_ULONG)
    (label : List CK_BYTE) (w : PKCS11Library) : Option (Result KeyPair × PKCS11Library) :=
  if !w.sessionOpen_ then
    some (Result.Error Status.ERROR_GENERAL "No session open" 0, w)
  else
    let pubTemplate : List (CK_ATTRIBUTE_TYPE × AttrValue) :=
      [(CKA_CLASS, AttrValue.ulong CKO_PUBLIC_KEY), (CKA_KEY_TYPE, AttrValue.ulong CKK_RSA),
       (CKA_LABEL, AttrValue.bytes label), (CKA_MODULUS_BITS, AttrValue.ulong modulusBits),
       (CKA_ENCRYPT, AttrValue.bool true), (CKA_VERIFY, AttrValue.bool true),
       (CKA_WRAP, AttrValue.bool true), (CKA_TOKEN, AttrValue.bool true)]
    let priTemplate : List (CK_ATTRIBUTE_TYPE × AttrValue) :=
      [(CKA_CLASS, AttrValue.ulong CKO_PRIVATE_KEY), (CKA_KEY_TYPE, AttrValue.ulong CKK_RSA),
       (CKA_LABEL, AttrValue.bytes label), (CKA_DECRYPT, AttrValue.bool true),
       (CKA_SIGN, AttrValue.bool true), (CKA_UNWRAP, AttrValue.bool true),
       (CKA_PRIVATE, AttrValue.bool true), (CKA_SENSITIVE, AttrValue.bool true),
       (CKA_TOKEN, AttrValue.bool true), (CKA_EXTRACTABLE, AttrValue.bool true)]
    match viaFunctionList v w (Call.C_GenerateKeyPair w.session_
        { mechanism := CKM_RSA_PKCS_KEY_PAIR_GEN, pParameter := none }
        pubTemplate priTemplate) with
    | none => none
    | some (r, w1) =>
      if r.rv != CKR_OK then
        some (Result.Error (convertPKCS11Error r.rv) "Failed to generate RSA key pair" r.rv,
          w1)
      else
        let publicKey : KeyInfo :=
          { (default : KeyInfo) with
            handle := r.handle, label := label, keyType := CKK_RSA,
            objectClass := CKO_PUBLIC_KEY, canEncrypt := true, canVerify := true,
            canWrap := true }
        let privateKey : KeyInfo :=
          { (default : KeyInfo) with
            handle := r.handle2, label := label, keyType := CKK_RSA,
            objectClass := CKO_PRIVATE_KEY, canDecrypt := true, canSign := true,
            canUnwrap := true, isSensitive := true, isExtractable := true }
        some (Result.Ok { publicKey := publicKey, privateKey := privateKey }, w1)

/-- The method `PKCS11Library::generateSymmetricKey`; the `default` label of its
`switch` is not reachable with a value of the enumeration. -/
def PKCS11Library.generateSymmetricKey (v : Vendor) (algorithm : SymmetricAlgorithm)
    (keyLength : CK_ULONG) (label : List CK_BYTE) (w : PKCS11Library) :
    Option (Result KeyInfo × PKCS11Library) :=
  if !w.sessionOpen_ then
    some (Result.Error Status.ERROR_GENERAL "No session open" 0, w)
  else
    let sel : CK_MECHANISM_TYPE × CK_KEY_TYPE × CK_ULONG :=
      match algorithm with
      | SymmetricAlgorithm.DES => (CKM_DES_KEY_GEN, CKK_DES, 8)
      | SymmetricAlgorithm.DES3 => (CKM_DES3_KEY_GEN, CKK_DES3, 24)
      | SymmetricAlgorithm.RC2 => (CKM_RC2_KEY_GEN, CKK_RC2, keyLength)
      | SymmetricAlgorithm.RC4 => (CKM_RC4_KEY_GEN, CKK_RC4, keyLength)
      | SymmetricAlgorithm.AES => (CKM_AES_KEY_GEN, CKK_AES, keyLength)
    let keyTemplate : List (CK_ATTRIBUTE_TYPE × AttrValue) :=
      [(CKA_CLASS, AttrValue.ulong CKO_SECRET_KEY), (CKA_KEY_TYPE, AttrValue.ulong sel.2.1),
       (CKA_LABEL, AttrValue.bytes label), (CKA_TOKEN, AttrValue.bool false),
       (CKA_PRIVATE, AttrValue.bool true), (CKA_ENCRYPT, AttrValue.bool true),
       (CKA_DECRYPT, AttrValue.bool true), (CKA_VALUE_LEN, AttrValue.ulong sel.2.2)]
    match viaFunctionList v w (Call.C_GenerateKey w.session_
        { mechanism := sel.1, pParameter := none } keyTemplate) with
    | none => none
    | some (r, w1) =>
      if r.rv != CKR_OK then
        some (Result.Error (convertPKCS11Error r.rv) "Failed to generate symmetric key" r.rv,
          w1)
      else
        some (Result.Ok { (default : KeyInfo) with
                handle := r.handle, label := label, keyType := sel.2.1,
                objectClass := CKO_SECRET_KEY, canEncrypt := true, canDecrypt := true }, w1)

/-- The shape shared by `sign`, `encrypt`, `decrypt`, `encryptRSA` and `decryptRSA`:
the guard on `sessionOpen_`, the `...Init` call, a call with a null buffer for the
length, a call with a buffer of that length, and `resize` to the length reported
last. `init` is the `...Init` call and `op` the second call, given its buffer. -/
def PKCS11Library.twoPass (v : Vendor) (w : PKCS11Library) (init : Call)
    (op : Option Nat → Call) (msgInit msgLen msgOp : String) :
    Option (Result (List CK_BYTE) × PKCS11Library) :=
  if !w.sessionOpen_ then
    some (Result.Error Status.ERROR_GENERAL "No session open" 0, w)
  else
    match viaFunctionList v w init with
    | none => none
    | some (r, w1) =>
      if r.rv != CKR_OK then
        some (Result.Error (convertPKCS11Error r.rv) msgInit r.rv, w1)
      else
        match viaFunctionList v w1 (op none) with
        | none => none
        | some (r2, w2) =>
          if r2.rv != CKR_OK then
            some (Result.Error (convertPKCS11Error r2.rv) msgLen r2.rv, w2)
          else
            match viaFunctionList v w2 (op (some r2.count)) with
            | none => none
            | some (r3, w3) =>
              if r3.rv != CKR_OK then
                some (Result.Error (convertPKCS11Error r3.rv) msgOp r3.rv, w3)
              else
                some (Result.Ok (resize (fillBuffer r2.count r3.data) r3.count), w3)

/-- The method `PKCS11Library::sign`. -/
def PKCS11Library.sign (v : Vendor) (privateKeyHandle : CK_OBJECT_HANDLE)
    (data : List CK_BYTE) (hashAlg : HashAlgorithm) (w : PKCS11Library) :
    Option (Result (List CK_BYTE) × PKCS11Library) :=
  PKCS11Library.twoPass v w
    (Call.C_SignInit w.session_
      (PKCS11Library.createHashMechanism hashAlg AsymmetricAlgorithm.RSA) privateKeyHandle)
    (Call.C_Sign w.session_ data)
    "Failed to initialize signing" "Failed to get signature length" "Failed to sign data"

/-- The method `PKCS11Library::verify`. -/
def PKCS11Library.verify (v : Vendor) (publicKeyHandle : CK_OBJECT_HANDLE)
    (data signature : List CK_BYTE) (hashAlg : HashAlgorithm) (w : PKCS11Library) :
    Option (Result Unit × PKCS11Library) :=
  if !w.sessionOpen_ then
    some (Result.Error Status.ERROR_GENERAL "No session open" 0, w)
  else
    match viaFunctionList v w (Call.C_VerifyInit w.session_
        (PKCS11Library.createHashMechanism hashAlg AsymmetricAlgorithm.RSA)
        publicKeyHandle) with
    | none => none
    | some (r, w1) =>
      if r.rv != CKR_OK then
        some (Result.Error (convertPKCS11Error r.rv) "Failed to initialize verification" r.rv,
          w1)
      else
        match viaFunctionList v w1 (Call.C_Verify w1.session_ data signature) with
        | none => none
        | some (r2, w2) =>
          if r2.rv != CKR_OK then
            some (Result.Error (convertPKCS11Error r2.rv) "Verification failed" r2.rv, w2)
          else
            some (Result.Ok (), w2)

/-- The method `PKCS11Library::encrypt`. -/
def PKCS11Library.encrypt (v : Vendor) (keyHandle : CK_OBJECT_HANDLE)
    (plaintext : List CK_BYTE) (algorithm : SymmetricAlgorithm) (mode : CipherMode)
    (iv : List CK_BYTE) (w : PKCS11Library) :
    Option (Result (List CK_BYTE) × PKCS11Library) :=
  PKCS11Library.twoPass v w
    (Call.C_EncryptInit w.session_ (PKCS11Library.createMechanism algorithm mode iv) keyHandle)
    (Call.C_Encrypt w.session_ plaintext)
    "Failed to initialize encryption" "Failed to get ciphertext length"
    "Failed to encrypt data"

/-- The method `PKCS11Library::decrypt`. -/
def PKCS11Library.decrypt (v : Vendor) (keyHandle : CK_OBJECT_HANDLE)
    (ciphertext : List CK_BYTE) (algorithm : SymmetricAlgorithm) (mode : CipherMode)
    (iv : List CK_BYTE) (w : PKCS11Library) :
    Option (Result (List CK_BYTE) × PKCS11Library) :=
  PKCS11Library.twoPass v w
    (Call.C_DecryptInit w.session_ (PKCS11Library.createMechanism algorithm mode iv) keyHandle)
    (Call.C_Decrypt w.session_ ciphertext)
    "Failed to initialize decryption" "Failed to get plaintext length"
    "Failed to decrypt data"

/-- The method `PKCS11Library::encryptRSA`. -/
def PKCS11Library.encryptRSA (v : Vendor) (publicKeyHandle : CK_OBJECT_HANDLE)
    (plaintext : List CK_BYTE) (w : PKCS11Library) :
    Option (Result (List CK_BYTE) × PKCS11Library) :=
  PKCS11Library.twoPass v w
    (Call.C_EncryptInit w.session_ { mechanism := CKM_RSA_PKCS, pParameter := none }
      publicKeyHandle)
    (Call.C_Encrypt w.session_ plaintext)
    "Failed to initialize RSA encryption" "Failed to get RSA ciphertext length"
    "Failed to encrypt with RSA"

/-- The method `PKCS11Library::decryptRSA`. -/
def PKCS11Library.decryptRSA (v : Vendor) (privateKeyHandle : CK_OBJECT_HANDLE)
    (ciphertext : List CK_BYTE) (w : PKCS11Library) :
    Option (Result (List CK_BYTE) × PKCS11Library) :=
  PKCS11Library.twoPass v w
    (Call.C_DecryptInit w.session_ { mechanism := CKM_RSA_PKCS, pParameter := none }
      privateKeyHandle)
    (Call.C_Decrypt w.session_ ciphertext)
    "Failed to initialize RSA decryption" "Failed to get RSA plaintext length"
    "Failed to decrypt with RSA"

/-! ## `pkcs11_lib.h`: the RAII helper `SessionGuard` -/

/-- The class `SessionGuard`: the reference `lib_` is the library state threaded
through its constructor and destructor. -/
structure SessionGuard where
  success_ : Bool
  deriving DecidableEq, Repr

/-- The constructor `SessionGuard(lib, slotId, pin)`; `openSession` and `login` are
called with their default arguments `readWrite = true` and `userType = CKU_USER`. -/
def SessionGuard.ctor (v : Vendor) (slotId : CK_SLOT_ID) (pin : String)
    (w : PKCS11Library) : Option (SessionGuard × PKCS11Library) :=
  match PKCS11Library.openSession v slotId true w with
  | none => none
  | some (opened, w1) =>
    if opened.isOk then
      if !pin.isEmpty then
        match PKCS11Library.login v pin CKU_USER w1 with
        | none => none
        | some (logged, w2) => some ({ success_ := logged.isOk }, w2)
      else
        some ({ success_ := true }, w1)
    else
      some ({ success_ := false }, w1)

/-- The destructor `~SessionGuard()`. -/
def SessionGuard.dtor (v : Vendor) (g : SessionGuard) (w : PKCS11Library) :
    Option PKCS11Library :=
  if g.success_ then
    match (if w.isLoggedIn then (PKCS11Library.logout v w).map Prod.snd else some w) with
    | none => none
    | some w1 => (PKCS11Library.closeSession v w1).map Prod.snd
  else
    some w

/-- The accessor `SessionGuard::isValid()`. -/
def SessionGuard.isValid (g : SessionGuard) : Bool := g.success_

/-! ## Runs of public operations -/

/-- A public operation of `PKCS11Library` that reads or writes the state or calls
outside, with its arguments. (`isInitialized`, `isLoggedIn`, `getErrorString`,
`bytesToHex` and `hexToBytes` do neither.) -/
inductive Op where
  | initialize_ (libraryPath : String)
  | finalize
  | getSlotList (tokenPresent : Bool)
  | getSlotInfo (slotId : CK_SLOT_ID)
  | getTokenInfo (slotId : CK_SLOT_ID)
  | openSession (slotId : CK_SLOT_ID) (readWrite : Bool)
  | closeSession
  | login (pin : String) (userType : CK_USER_TYPE)
  | logout
  | getPinInfo
  | changePin (oldPin newPin : String)
  | initPin (pin : String)
  | setTokenLabel (label : String)
  | setTokenTimeout (timeoutSeconds : CK_ULONG)
  | getTokenTimeout
  | blankToken (soPin : String)
  | findCertificates
  | findKeys (keyClass : CK_OBJECT_CLASS)
  | findDataObjects
  | exportCertificate (certHandle : CK_OBJECT_HANDLE)
  | exportCertificateToFile (certHandle : CK_OBJECT_HANDLE) (filename : String)
  | generateRSAKeyPair (modulusBits : CK_ULONG) (label : List CK_BYTE)
  | generateSymmetricKey (algorithm : SymmetricAlgorithm) (keyLength : CK_ULONG)
      (label : List CK_BYTE)
  | sign (privateKeyHandle : CK_OBJECT_HANDLE) (data : List CK_BYTE) (hashAlg : HashAlgorithm)
  | verify (publicKeyHandle : CK_OBJECT_HANDLE) (data signature : List CK_BYTE)
      (hashAlg : HashAlgorithm)
  | encrypt (keyHandle : CK_OBJECT_HANDLE) (plaintext : List CK_BYTE)
      (algorithm : SymmetricAlgorithm) (mode : CipherMode) (iv : List CK_BYTE)
  | decrypt (keyHandle : CK_OBJECT_HANDLE) (ciphertext : List CK_BYTE)
      (algorithm : SymmetricAlgorithm) (mode : CipherMode) (iv : List CK_BYTE)
  | encryptRSA (publicKeyHandle : CK_OBJECT_HANDLE) (plaintext : List CK_BYTE)
  | decryptRSA (privateKeyHandle : CK_OBJECT_HANDLE) (ciphertext : List CK_BYTE)
  | destroyObject (objectHandle : CK_OBJECT_HANDLE)
  | getObjectAttribute (objectHandle : CK_OBJECT_HANDLE) (attrType : CK_ATTRIBUTE_TYPE)
  | waitForSlotEvent (blocking : Bool)
  deriving DecidableEq, Repr

/-- The state after one public operation, its result dropped; `none` when the
operation has no outcome (a call through a null table, or an enumeration longer
than `fuel`). -/
def step (v : Vendor) (fuel : Nat) (op : Op) (w : PKCS11Library) : Option PKCS11Library :=
  match op with
  | Op.initialize_ p => ( PKCS11Library.initialize v p w).map Prod.snd
  | Op.finalize => (PKCS11Library.finalize v w).map Prod.snd
  | Op.getSlotList tp => (PKCS11Library.getSlotList v tp w).map Prod.snd
  | Op.getSlotInfo s => (PKCS11Library.getSlotInfo v s w).map Prod.snd
  | Op.getTokenInfo s => (PKCS11Library.getTokenInfo v s w).map Prod.snd
  | Op.openSession s rw => (PKCS11Library.openSession v s rw w).map Prod.snd
  | Op.closeSession => (PKCS11Library.closeSession v w).map Prod.snd
  | Op.login pin ut => (PKCS11Library.login v pin ut w).map Prod.snd
  | Op.logout => (PKCS11Library.logout v w).map Prod.snd
  | Op.getPinInfo => some (PKCS11Library.getPinInfo v w).2
  | Op.changePin o n => (PKCS11Library.changePin v o n w).map Prod.snd
  | Op.initPin pin => (PKCS11Library.initPin v pin w).map Prod.snd
  | Op.setTokenLabel l => some (PKCS11Library.setTokenLabel v l w).2
  | Op.setTokenTimeout s => some (PKCS11Library.setTokenTimeout v s w).2
  | Op.getTokenTimeout => some (PKCS11Library.getTokenTimeout v w).2
  | Op.blankToken p => some (PKCS11Library.blankToken v p w).2
  | Op.findCertificates => (PKCS11Library.findCertificates v fuel w).map Prod.snd
  | Op.findKeys c => (PKCS11Library.findKeys v fuel c w).map Prod.snd
  | Op.findDataObjects => (PKCS11Library.findDataObjects v fuel w).map Prod.snd
  | Op.exportCertificate h => (PKCS11Library.exportCertificate v h w).map Prod.snd
  | Op.exportCertificateToFile h f =>
    (PKCS11Library.exportCertificateToFile v h f w).map Prod.snd
  | Op.generateRSAKeyPair b l => (PKCS11Library.generateRSAKeyPair v b l w).map Prod.snd
  | Op.generateSymmetricKey a n l =>
    (PKCS11Library.generateSymmetricKey v a n l w).map Prod.snd
  | Op.sign h d a => (PKCS11Library.sign v h d a w).map Prod.snd
  | Op.verify h d s a => (PKCS11Library.verify v h d s a w).map Prod.snd
  | Op.encrypt h d a m iv => (PKCS11Library.encrypt v h d a m iv w).map Prod.snd
  | Op.decrypt h d a m iv => (PKCS11Library.decrypt v h d a m iv w).map Prod.snd
  | Op.encryptRSA h d => (PKCS11Library.encryptRSA v h d w).map Prod.snd
  | Op.decryptRSA h d => (PKCS11Library.decryptRSA v h d w).map Prod.snd
  | Op.destroyObject h => (PKCS11Library.destroyObject v h w).map Prod.snd
  | Op.getObjectAttribute h t => (PKCS11Library.getObjectAttribute v h t w).map Prod.snd
  | Op.waitForSlotEvent b => some (PKCS11Library.waitForSlotEvent v b w).2

/-- The state after a sequence of public operations. -/
def run (v : Vendor) (fuel : Nat) : List Op → PKCS11Library → Option PKCS11Library
  | [], w => some w
  | op :: ops, w =>
    match step v fuel op w with
    | none => none
    | some w1 => run v fuel ops w1

/-- A state some sequence of public operations reaches from a freshly constructed
library, against the vendor `v`. -/
def Reachable (v : Vendor) (w : PKCS11Library) : Prop :=
  ∃ fuel ops, run v fuel ops PKCS11Library.ctor = some w

/-! ## Sessions in the trace -/

/-- The session handle a history of calls leaves open at the vendor, as far as the
history tells: a `C_OpenSession` answered `CKR_OK` opens the handle written back,
a `C_CloseSession` on the open handle closes it. -/
def held (v : Vendor) : List Call → Option CK_SESSION_HANDLE
  | [] => none
  | Call.C_OpenSession s f :: t =>
    if (v (Call.C_OpenSession s f :: t)).rv = CKR_OK then
      some (v (Call.C_OpenSession s f :: t)).handle
    else held v t
  | Call.C_CloseSession h :: t => if held v t = some h then none else held v t
  | _ :: t => held v t

/-- Every `C_OpenSession` of the history that was answered `CKR_OK` was made while
no handle was open. -/
def bracketed (v : Vendor) : List Call → Prop
  | [] => True
  | Call.C_OpenSession s f :: t =>
    ((v (Call.C_OpenSession s f :: t)).rv = CKR_OK → held v t = none) ∧ bracketed v t
  | _ :: t => bracketed v t

/-- Whether a call is `C_OpenSession` or `C_CloseSession`. -/
def Call.isSession : Call → Bool
  | Call.C_OpenSession _ _ => true
  | Call.C_CloseSession _ => true
  | _ => false

/-- The invariant of the reachable states: the flags are nested, an initialized
library has its tables loaded, and the session the adapter holds is the one the
trace leaves open. -/
structure Inv (v : Vendor) (w : PKCS11Library) : Prop where
  logged : w.loggedIn_ = true → w.sessionOpen_ = true
  opened : w.sessionOpen_ = true → w.initialized_ = true
  loaded : w.initialized_ = true → w.functionList_ = true ∧ w.libraryHandle_ = true
  holds : held v w.trace = if w.sessionOpen_ then some w.session_ else none
  nested : bracketed v w.trace

/-! ## Predicates used by the proofs -/

/-- Between `w` and `w'` external calls were made, none of them `C_OpenSession` or
`C_CloseSession`, and no member of the class changed. -/
def Frame (v : Vendor) (w w' : PKCS11Library) : Prop :=
  w'.initialized_ = w.initialized_ ∧ w'.sessionOpen_ = w.sessionOpen_ ∧
    w'.loggedIn_ = w.loggedIn_ ∧ w'.libraryHandle_ = w.libraryHandle_ ∧
    w'.functionList_ = w.functionList_ ∧ w'.auxFunctionList_ = w.auxFunctionList_ ∧
    w'.session_ = w.session_ ∧ w'.currentSlotId_ = w.currentSlotId_ ∧
    held v w'.trace = held v w.trace ∧ (bracketed v w'.trace ↔ bracketed v w.trace)

/-- What `loadLibrary` and `loadAuxFunctions` leave alone: the flags, the session
handle and the sessions of the trace. -/
def SFrame (v : Vendor) (w w' : PKCS11Library) : Prop :=
  w'.initialized_ = w.initialized_ ∧ w'.sessionOpen_ = w.sessionOpen_ ∧
    w'.loggedIn_ = w.loggedIn_ ∧ w'.session_ = w.session_ ∧
    held v w'.trace = held v w.trace ∧ (bracketed v w'.trace ↔ bracketed v w.trace)

/-- The result `r` passes the vendor return code `rv` on: an error result carrying
`rv` and its translation when `rv` is not `CKR_OK`, and `Result<void>::Ok()` when
it is. -/
def passesOn (r : Result Unit) (rv : CK_RV) : Prop :=
  (rv ≠ CKR_OK →
    r.isError = true ∧ r.pkcs11Error = rv ∧ r.errorCode = convertPKCS11Error rv) ∧
  (rv = CKR_OK → r = Result.Ok ())

/-! ## Concrete vendors and states for evaluation -/

/-- A reply with return code `rv`, a non-null pointer, the handle `7`, and nothing
else written. -/
def replyWith (rv : CK_RV) : Reply :=
  { rv := rv, ptr := true, handle := 7, handle2 := 8, count := 0, data := [], text := "",
    aux := none }

/-- A vendor that answers `CKR_OK` to every call. -/
def vendorOk : Vendor := fun _ => replyWith CKR_OK

/-- A vendor that answers `rv` to `C_Login` and `CKR_OK` to every other call. -/
def vendorLogin (rv : CK_RV) : Vendor := fun t =>
  match t with
  | Call.C_Login _ _ _ :: _ => replyWith rv
  | _ => replyWith CKR_OK

/-- A vendor that answers `rv` to `C_FindObjects` and `CKR_OK` to every other call. -/
def vendorFind (rv : CK_RV) : Vendor := fun t =>
  match t with
  | Call.C_FindObjects _ _ :: _ => replyWith rv
  | _ => replyWith CKR_OK

/-- The trace of a successful `initialize("")`, latest call first. -/
def loadedTrace : List Call :=
  [Call.E_GetAuxFunctionList, Call.dlsym "E_GetAuxFunctionList", Call.C_Initialize,
   Call.C_GetFunctionList, Call.dlsym "C_GetFunctionList",
   Call.dlopen "libshuttle_p11v220.so.1.0.0"]

/-- The state after a successful `initialize("")` on a fresh library, when the
auxiliary table comes back null. -/
def loadedState : PKCS11Library :=
  { initialized_ := true, sessionOpen_ := false, loggedIn_ := false,
    libraryHandle_ := true, functionList_ := true, auxFunctionList_ := none,
    session_ := 0, currentSlotId_ := 0,
    trace := loadedTrace }

/-- The state after `initialize("")` and a successful `openSession(1)` that
returned the handle `7`. -/
def openedState : PKCS11Library :=
  { loadedState with
    sessionOpen_ := true, session_ := 7, currentSlotId_ := 1,
    trace := Call.C_OpenSession 1 (CKF_SERIAL_SESSION ||| CKF_RW_SESSION) :: loadedTrace }

/-- The state after `initialize("")`, `openSession(1)` and `openSession(2)` against
`vendorOk`, which returns the handle `7` both times. -/
def reopenedState : PKCS11Library :=
  { openedState with
    currentSlotId_ := 2,
    trace := Call.C_OpenSession 2 (CKF_SERIAL_SESSION ||| CKF_RW_SESSION) ::
      Call.C_CloseSession 7 ::
      Call.C_OpenSession 1 (CKF_SERIAL_SESSION ||| CKF_RW_SESSION) :: loadedTrace }

/-! ## Predicates and concrete inputs for the claims on the library life cycle -/

/-- The library path `initialize` hands to `loadLibrary`: the default library when
the argument is empty. -/
def libraryPathOf (libraryPath : String) : String :=
  if libraryPath.isEmpty then "libshuttle_p11v220.so.1.0.0" else libraryPath

/-- The history at the call `getFunctionList(&functionList_)` of `loadLibrary`, when
the calls before it succeeded, `t` being the history before `loadLibrary`. -/
def getFunctionListHistory (path : String) (t : List Call) : List Call :=
  Call.C_GetFunctionList :: Call.dlsym "C_GetFunctionList" :: Call.dlopen path :: t

/-- The library loads with a non-null function list: `dlopen` and `dlsym` return
non-null pointers, and `C_GetFunctionList` returns `CKR_OK` and writes a non-null
table. -/
def loads (v : Vendor) (path : String) (t : List Call) : Prop :=
  (v (Call.dlopen path :: t)).ptr = true ∧
  (v (Call.dlsym "C_GetFunctionList" :: Call.dlopen path :: t)).ptr = true ∧
  (v (getFunctionListHistory path t)).rv = CKR_OK ∧
  (v (getFunctionListHistory path t)).ptr = true

/-- Two vendors that differ at most in what they answer to the two calls of
`loadAuxFunctions`, that is, in whether the auxiliary function list is available. -/
def agreeOffAux (v v' : Vendor) : Prop :=
  ∀ t : List Call, t.head? ≠ some (Call.dlsym "E_GetAuxFunctionList") →
    t.head? ≠ some Call.E_GetAuxFunctionList → v t = v' t

/-- The pair `(isOk(), errorCode)` of the result a public operation returns, when
it has an outcome. -/
def opResult (v : Vendor) (fuel : Nat) (op : Op) (w : PKCS11Library) :
    Option (Bool × Status) :=
  match op with
  | Op.initialize_ p =>
    ( PKCS11Library.initialize v p w).map fun x => (x.1.isOk, x.1.errorCode)
  | Op.finalize => (PKCS11Library.finalize v w).map fun x => (x.1.isOk, x.1.errorCode)
  | Op.getSlotList tp =>
    (PKCS11Library.getSlotList v tp w).map fun x => (x.1.isOk, x.1.errorCode)
  | Op.getSlotInfo s =>
    (PKCS11Library.getSlotInfo v s w).map fun x => (x.1.isOk, x.1.errorCode)
  | Op.getTokenInfo s =>
    (PKCS11Library.getTokenInfo v s w).map fun x => (x.1.isOk, x.1.errorCode)
  | Op.openSession s rw =>
    (PKCS11Library.openSession v s rw w).map fun x => (x.1.isOk, x.1.errorCode)
  | Op.closeSession => (PKCS11Library.closeSession v w).map fun x => (x.1.isOk, x.1.errorCode)
  | Op.login pin ut =>
    (PKCS11Library.login v pin ut w).map fun x => (x.1.isOk, x.1.errorCode)
  | Op.logout => (PKCS11Library.logout v w).map fun x => (x.1.isOk, x.1.errorCode)
  | Op.getPinInfo =>
    some ((PKCS11Library.getPinInfo v w).1.isOk, (PKCS11Library.getPinInfo v w).1.errorCode)
  | Op.changePin o n =>
    (PKCS11Library.changePin v o n w).map fun x => (x.1.isOk, x.1.errorCode)
  | Op.initPin pin => (PKCS11Library.initPin v pin w).map fun x => (x.1.isOk, x.1.errorCode)
  | Op.setTokenLabel l =>
    some ((PKCS11Library.setTokenLabel v l w).1.isOk,
      (PKCS11Library.setTokenLabel v l w).1.errorCode)
  | Op.setTokenTimeout s =>
    some ((PKCS11Library.setTokenTimeout v s w).1.isOk,
      (PKCS11Library.setTokenTimeout v s w).1.errorCode)
  | Op.getTokenTimeout =>
    some ((PKCS11Library.getTokenTimeout v w).1.isOk,
      (PKCS11Library.getTokenTimeout v w).1.errorCode)
  | Op.blankToken p =>
    some ((PKCS11Library.blankToken v p w).1.isOk, (PKCS11Library.blankToken v p w).1.errorCode)
  | Op.findCertificates =>
    (PKCS11Library.findCertificates v fuel w).map fun x => (x.1.isOk, x.1.errorCode)
  | Op.findKeys c =>
    (PKCS11Library.findKeys v fuel c w).map fun x => (x.1.isOk, x.1.errorCode)
  | Op.findDataObjects =>
    (PKCS11Library.findDataObjects v fuel w).map fun x => (x.1.isOk, x.1.errorCode)
  | Op.exportCertificate h =>
    (PKCS11Library.exportCertificate v h w).map fun x => (x.1.isOk, x.1.errorCode)
  | Op.exportCertificateToFile h f =>
    (PKCS11Library.exportCertificateToFile v h f w).map fun x => (x.1.isOk, x.1.errorCode)
  | Op.generateRSAKeyPair b l =>
    (PKCS11Library.generateRSAKeyPair v b l w).map fun x => (x.1.isOk, x.1.errorCode)
  | Op.generateSymmetricKey a n l =>
    (PKCS11Library.generateSymmetricKey v a n l w).map fun x => (x.1.isOk, x.1.errorCode)
  | Op.sign h d a => (PKCS11Library.sign v h d a w).map fun x => (x.1.isOk, x.1.errorCode)
  | Op.verify h d s a =>
    (PKCS11Library.verify v h d s a w).map fun x => (x.1.isOk, x.1.errorCode)
  | Op.encrypt h d a m iv =>
    (PKCS11Library.encrypt v h d a m iv w).map fun x => (x.1.isOk, x.1.errorCode)
  | Op.decrypt h d a m iv =>
    (PKCS11Library.decrypt v h d a m iv w).map fun x => (x.1.isOk, x.1.errorCode)
  | Op.encryptRSA h d =>
    (PKCS11Library.encryptRSA v h d w).map fun x => (x.1.isOk, x.1.errorCode)
  | Op.decryptRSA h d =>
    (PKCS11Library.decryptRSA v h d w).map fun x => (x.1.isOk, x.1.errorCode)
  | Op.destroyObject h =>
    (PKCS11Library.destroyObject v h w).map fun x => (x.1.isOk, x.1.errorCode)
  | Op.getObjectAttribute h t =>
    (PKCS11Library.getObjectAttribute v h t w).map fun x => (x.1.isOk, x.1.errorCode)
  | Op.waitForSlotEvent b =>
    some ((PKCS11Library.waitForSlotEvent v b w).1.isOk,
      (PKCS11Library.waitForSlotEvent v b w).1.errorCode)

/-- The public operations that test `initialized_` or `sessionOpen_` before their
first call through `functionList_`: all but `initialize` (which loads the table
itself) and `exportCertificate`, `exportCertificateToFile` and
`getObjectAttribute` (which test nothing). -/
def Op.checksFlag : Op → Bool
  | Op.initialize_ _ => false
  | Op.exportCertificate _ => false
  | Op.exportCertificateToFile _ _ => false
  | Op.getObjectAttribute _ _ => false
  | _ => true

/-- The three enumerations, whose loops are bounded by `fuel` in the model. -/
def Op.isEnumeration : Op → Bool
  | Op.findCertificates => true
  | Op.findKeys _ => true
  | Op.findDataObjects => true
  | _ => false

/-- A vendor that answers `rv` to `C_Initialize` and `CKR_OK` to every other call. -/
def vendorInit (rv : CK_RV) : Vendor := fun t =>
  match t with
  | Call.C_Initialize :: _ => replyWith rv
  | _ => replyWith CKR_OK

/-- An auxiliary table with every entry the adapter reads set. -/
def auxAll : AUX_FUNC_LIST :=
  { EP_GET_PIN_INFO := true, EP_SET_TOKEN_LABEL := true, EP_SET_TOKEN_TIMEOUT := true,
    EP_GET_TOKEN_TIMEOUT := true, EP_BLANK_TOKEN := true, EP_WAITFORSLOTEVENT := true }

/-- A vendor that answers `CKR_OK` to every call and hands out the table `auxAll`. -/
def vendorAux : Vendor := fun _ => { replyWith CKR_OK with aux := some auxAll }

/-- The state after `initialize("")` and `openSession(1)` against `vendorAux`. -/
def openedAuxState : PKCS11Library :=
  { openedState with auxFunctionList_ := some auxAll }

/-- A result whose success flag and status agree: `isOk()` holds exactly when
`errorCode` is `Status::OK`. -/
def Result.consistent {α : Type} (r : Result α) : Prop :=
  r.isOk = true ↔ r.errorCode = Status.OK

/-! ## Predicates and concrete inputs for the claims on the timeout and on the export to a file -/

/-- The vendor returns from `GetTokenTimeout` the value it received in
`SetTokenTimeout`: after the history `t`, a `GetTokenTimeout` that follows a
`SetTokenTimeout` for the same slot answers `CKR_OK` and writes the value that
call passed. -/
def returnsTimeoutReceived (v : Vendor) (t : List Call) : Prop :=
  ∀ (slot : CK_SLOT_ID) (ms : CK_ULONG),
    (v (Call.EP_GetTokenTimeout slot :: Call.EP_SetTokenTimeout slot ms :: t)).rv = CKR_OK ∧
    (v (Call.EP_GetTokenTimeout slot :: Call.EP_SetTokenTimeout slot ms :: t)).count = ms

/-- A vendor as `vendorAux` whose `GetTokenTimeout`, right after a `SetTokenTimeout`,
writes the value that call passed. -/
def vendorTimeout : Vendor := fun t =>
  match t with
  | Call.EP_GetTokenTimeout _ :: Call.EP_SetTokenTimeout _ ms :: _ =>
    { replyWith CKR_OK with count := ms, aux := some auxAll }
  | _ => { replyWith CKR_OK with aux := some auxAll }

/-- A vendor as `vendorAux` whose `GetTokenTimeout` always writes `ms`. -/
def vendorTimeoutMs (ms : CK_ULONG) : Vendor := fun t =>
  match t with
  | Call.EP_GetTokenTimeout _ :: _ => { replyWith CKR_OK with count := ms, aux := some auxAll }
  | _ => { replyWith CKR_OK with aux := some auxAll }

/-- A call on the output file stream. -/
def Call.isFile : Call → Bool
  | Call.ofstream_open _ => true
  | Call.ofstream_write _ => true
  | _ => false

/-- A vendor that answers `rv` to `C_GetAttributeValue`, reporting a value of three
bytes and writing `[48, 130, 1]`, and `CKR_OK` to every other call. -/
def vendorCert (rv : CK_RV) : Vendor := fun t =>
  match t with
  | Call.C_GetAttributeValue _ _ _ _ :: _ =>
    { replyWith rv with count := 3, data := [48, 130, 1] }
  | _ => replyWith CKR_OK

/-- The state after `exportCertificate(5)` on `openedState` against
`vendorCert CKR_OK`. -/
def certReadState : PKCS11Library :=
  { openedState with
    trace := Call.C_GetAttributeValue 7 5 CKA_VALUE (some 3) ::
      Call.C_GetAttributeValue 7 5 CKA_VALUE none :: openedState.trace }

/-- The state after `exportCertificate(5)` on `openedState` against
`vendorCert CKR_OBJECT_HANDLE_INVALID`. -/
def certFailedState : PKCS11Library :=
  { openedState with
    trace := Call.C_GetAttributeValue 7 5 CKA_VALUE none :: openedState.trace }

/-! ## Predicates and concrete inputs for the claim on the enumerations -/

/-- The number of `C_FindObjects` calls of a history since its last
`C_FindObjectsInit`: the objects the enumeration under way has asked for. -/
def findObjectsSinceInit : List Call → Nat
  | [] => 0
  | Call.C_FindObjectsInit _ _ :: _ => 0
  | Call.C_FindObjects _ _ :: t => findObjectsSinceInit t + 1
  | _ :: t => findObjectsSinceInit t

/-- The vendor ends every enumeration within `n` objects: a `C_FindObjects` call made
after `n` or more such calls since the last `C_FindObjectsInit` reports an error or
no object, which is the condition on which the loops of the enumerations stop. -/
def endsWithin (v : Vendor) (n : Nat) : Prop :=
  ∀ (s : CK_SESSION_HANDLE) (m : Nat) (t : List Call), n ≤ findObjectsSinceInit t →
    (v (Call.C_FindObjects s m :: t)).rv ≠ CKR_OK ∨ (v (Call.C_FindObjects s m :: t)).count = 0

/-- The vendor `v` cut off at the `k`-th call: it answers as `v`, but reports no
object to a `C_FindObjects` call that is the `k`-th call of the history or a later
one. -/
def cutOff (v : Vendor) (k : Nat) : Vendor := fun t =>
  match t with
  | Call.C_FindObjects _ _ :: _ => if k ≤ t.length then { v t with count := 0 } else v t
  | _ => v t

/-- A vendor that answers `CKR_OK` to every call and reports one object, with the
handle `7`, to each of the first `n` calls `C_FindObjects` of an enumeration, and no
object after that. -/
def vendorObjects (n : Nat) : Vendor := fun t =>
  match t with
  | Call.C_FindObjects _ _ :: t0 =>
    if findObjectsSinceInit t0 < n then { replyWith CKR_OK with count := 1 }
    else replyWith CKR_OK
  | _ => replyWith CKR_OK

/-! ## Lemmas: calls that leave the session state alone -/

theorem held_cons (v : Vendor) (c : Call) (t : List Call) (hc : c.isSession = false) :
    held v (c :: t) = held v t := by
  cases c <;> simp_all [held, Call.isSession]

theorem bracketed_cons (v : Vendor) (c : Call) (t : List Call) (hc : c.isSession = false) :
    bracketed v (c :: t) ↔ bracketed v t := by
  cases c <;> simp_all [bracketed, Call.isSession]

theorem Frame.refl (v : Vendor) (w : PKCS11Library) : Frame v w w := by
  simp [Frame]

theorem Frame.trans {v : Vendor} {w1 w2 w3 : PKCS11Library} (h12 : Frame v w1 w2)
    (h23 : Frame v w2 w3) : Frame v w1 w3 := by
  simp only [Frame] at *
  simp_all

theorem viaFunctionList_eq_some (v : Vendor) (w w' : PKCS11Library) (c : Call) (r : Reply) :
    viaFunctionList v w c = some (r, w') ↔
      w.functionList_ = true ∧ r = v (c :: w.trace) ∧ w' = { w with trace := c :: w.trace } := by
  unfold viaFunctionList call
  split
  · rename_i h
    simp only [Option.some.injEq, Prod.mk.injEq, h, true_and]
    constructor <;> (rintro ⟨a, b⟩; exact ⟨a.symm, b.symm⟩)
  · simp_all

theorem Frame.getAttribute {v : Vendor} {w w' : PKCS11Library} {size : Nat}
    {handle : CK_OBJECT_HANDLE} {type : CK_ATTRIBUTE_TYPE} {r : Result Nat}
    (h : PKCS11Library.getAttribute v size handle type w = some (r, w')) : Frame v w w' := by
  unfold PKCS11Library.getAttribute at h
  repeat' split at h
  all_goals simp only [viaFunctionList_eq_some, Option.some.injEq, Prod.mk.injEq,
    reduceCtorEq] at *
  all_goals casesm* _ ∧ _
  all_goals subst_vars
  all_goals simp_all [Frame, held, bracketed]

theorem Frame.getAttributeBytes {v : Vendor} {w w' : PKCS11Library}
    {handle : CK_OBJECT_HANDLE} {type : CK_ATTRIBUTE_TYPE} {r : Result (List CK_BYTE)}
    (h : PKCS11Library.getAttributeBytes v handle type w = some (r, w')) : Frame v w w' := by
  unfold PKCS11Library.getAttributeBytes at h
  repeat' split at h
  all_goals simp only [viaFunctionList_eq_some, Option.some.injEq, Prod.mk.injEq,
    reduceCtorEq] at *
  all_goals casesm* _ ∧ _
  all_goals subst_vars
  all_goals simp_all [Frame, held, bracketed]

theorem Frame.viaAux {α : Type} [Inhabited α] (v : Vendor) (w : PKCS11Library)
    (entry : AUX_FUNC_LIST → Bool) (missing failed : String) (c : Call) (ok : Reply → α)
    (hc : c.isSession = false) :
    Frame v w (PKCS11Library.viaAux v w entry missing failed c ok).2 := by
  unfold PKCS11Library.viaAux call
  split
  · split
    · simp [Frame]
    · dsimp only
      split <;> simp [Frame, held_cons, bracketed_cons, hc]
  · simp [Frame]

theorem Frame.twoPass {v : Vendor} {w w' : PKCS11Library} {init : Call}
    {op : Option Nat → Call} {m1 m2 m3 : String} {r : Result (List CK_BYTE)}
    (hi : init.isSession = false) (ho : ∀ b, (op b).isSession = false)
    (h : PKCS11Library.twoPass v w init op m1 m2 m3 = some (r, w')) : Frame v w w' := by
  unfold PKCS11Library.twoPass at h
  repeat' split at h
  all_goals simp only [viaFunctionList_eq_some, Option.some.injEq, Prod.mk.injEq,
    reduceCtorEq] at *
  all_goals casesm* _ ∧ _
  all_goals subst_vars
  all_goals simp_all [Frame, held_cons, bracketed_cons]

theorem Frame.getSlotList {v : Vendor} {w w' : PKCS11Library} {tp : Bool}
    {r : Result (List CK_SLOT_ID)}
    (h : PKCS11Library.getSlotList v tp w = some (r, w')) : Frame v w w' := by
  unfold PKCS11Library.getSlotList at h
  repeat' split at h
  all_goals simp only [viaFunctionList_eq_some, Option.some.injEq, Prod.mk.injEq,
    reduceCtorEq] at *
  all_goals casesm* _ ∧ _
  all_goals subst_vars
  all_goals simp_all [Frame, held, bracketed]

theorem Frame.getSlotInfo {v : Vendor} {w w' : PKCS11Library} {s : CK_SLOT_ID}
    {r : Result Reply}
    (h : PKCS11Library.getSlotInfo v s w = some (r, w')) : Frame v w w' := by
  unfold PKCS11Library.getSlotInfo at h
  repeat' split at h
  all_goals simp only [viaFunctionList_eq_some, Option.some.injEq, Prod.mk.injEq,
    reduceCtorEq] at *
  all_goals casesm* _ ∧ _
  all_goals subst_vars
  all_goals simp_all [Frame, held, bracketed]

theorem Frame.getTokenInfo {v : Vendor} {w w' : PKCS11Library} {s : CK_SLOT_ID}
    {r : Result Reply}
    (h : PKCS11Library.getTokenInfo v s w = some (r, w')) : Frame v w w' := by
  unfold PKCS11Library.getTokenInfo at h
  repeat' split at h
  all_goals simp only [viaFunctionList_eq_some, Option.some.injEq, Prod.mk.injEq,
    reduceCtorEq] at *
  all_goals casesm* _ ∧ _
  all_goals subst_vars
  all_goals simp_all [Frame, held, bracketed]

theorem Frame.changePin {v : Vendor} {w w' : PKCS11Library} {o n : String}
    {r : Result Unit}
    (h : PKCS11Library.changePin v o n w = some (r, w')) : Frame v w w' := by
  unfold PKCS11Library.changePin at h
  repeat' split at h
  all_goals simp only [viaFunctionList_eq_some, Option.some.injEq, Prod.mk.injEq,
    reduceCtorEq] at *
  all_goals casesm* _ ∧ _
  all_goals subst_vars
  all_goals simp_all [Frame, held, bracketed]

theorem Frame.initPin {v : Vendor} {w w' : PKCS11Library} {p : String}
    {r : Result Unit}
    (h : PKCS11Library.initPin v p w = some (r, w')) : Frame v w w' := by
  unfold PKCS11Library.initPin at h
  repeat' split at h
  all_goals simp only [viaFunctionList_eq_some, Option.some.injEq, Prod.mk.injEq,
    reduceCtorEq] at *
  all_goals casesm* _ ∧ _
  all_goals subst_vars
  all_goals simp_all [Frame, held, bracketed]

theorem Frame.destroyObject {v : Vendor} {w w' : PKCS11Library} {o : CK_OBJECT_HANDLE}
    {r : Result Unit}
    (h : PKCS11Library.destroyObject v o w = some (r, w')) : Frame v w w' := by
  unfold PKCS11Library.destroyObject at h
  repeat' split at h
  all_goals simp only [viaFunctionList_eq_some, Option.some.injEq, Prod.mk.injEq,
    reduceCtorEq] at *
  all_goals casesm* _ ∧ _
  all_goals subst_vars
  all_goals simp_all [Frame, held, bracketed]

theorem Frame.generateRSAKeyPair {v : Vendor} {w w' : PKCS11Library} {b : CK_ULONG}
    {l : List CK_BYTE} {r : Result KeyPair}
    (h : PKCS11Library.generateRSAKeyPair v b l w = some (r, w')) : Frame v w w' := by
  unfold PKCS11Library.generateRSAKeyPair at h
  split at h
  · simp only [Option.some.injEq, Prod.mk.injEq] at h
    rw [← h.2]; exact Frame.refl v w
  · simp only at h
    split at h
    · cases h
    · rename_i r1 w1 h1
      simp only [viaFunctionList_eq_some] at h1
      obtain ⟨-, -, rfl⟩ := h1
      split at h <;> simp only [Option.some.injEq, Prod.mk.injEq] at h <;>
        (rw [← h.2]; simp [Frame, held, bracketed])

theorem Frame.generateSymmetricKey {v : Vendor} {w w' : PKCS11Library}
    {a : SymmetricAlgorithm} {n : CK_ULONG} {l : List CK_BYTE} {r : Result KeyInfo}
    (h : PKCS11Library.generateSymmetricKey v a n l w = some (r, w')) : Frame v w w' := by
  unfold PKCS11Library.generateSymmetricKey at h
  split at h
  · simp only [Option.some.injEq, Prod.mk.injEq] at h
    rw [← h.2]; exact Frame.refl v w
  · simp only at h
    split at h
    · cases h
    · rename_i r1 w1 h1
      simp only [viaFunctionList_eq_some] at h1
      obtain ⟨-, -, rfl⟩ := h1
      split at h <;> simp only [Option.some.injEq, Prod.mk.injEq] at h <;>
        (rw [← h.2]; simp [Frame, held, bracketed])

theorem Frame.verify {v : Vendor} {w w' : PKCS11Library} {k : CK_OBJECT_HANDLE}
    {d s : List CK_BYTE} {a : HashAlgorithm} {r : Result Unit}
    (h : PKCS11Library.verify v k d s a w = some (r, w')) : Frame v w w' := by
  unfold PKCS11Library.verify at h
  repeat' split at h
  all_goals simp only [viaFunctionList_eq_some, Option.some.injEq, Prod.mk.injEq,
    reduceCtorEq] at *
  all_goals casesm* _ ∧ _
  all_goals subst_vars
  all_goals simp_all [Frame, held, bracketed]

theorem Frame.exportCertificateToFile {v : Vendor} {w w' : PKCS11Library}
    {c : CK_OBJECT_HANDLE} {f : String} {r : Result Unit}
    (h : PKCS11Library.exportCertificateToFile v c f w = some (r, w')) : Frame v w w' := by
  unfold PKCS11Library.exportCertificateToFile PKCS11Library.exportCertificate at h
  split at h
  · cases h
  · rename_i cd w1 h1
    have f1 := Frame.getAttributeBytes h1
    simp only [call] at h
    repeat' split at h
    all_goals simp only [Option.some.injEq, Prod.mk.injEq] at h
    all_goals obtain ⟨-, rfl⟩ := h
    · exact f1
    all_goals refine f1.trans ?_
    all_goals simp [Frame, held, bracketed]

theorem Frame.readFlag {v : Vendor} {w w' : PKCS11Library} {o : CK_OBJECT_HANDLE}
    {t : CK_ATTRIBUTE_TYPE} {b : Bool}
    (h : PKCS11Library.readFlag v o t w = some (b, w')) : Frame v w w' := by
  unfold PKCS11Library.readFlag at h
  split at h
  · cases h
  · rename_i r1 w1 h1
    simp only [Option.some.injEq, Prod.mk.injEq] at h
    rw [← h.2]; exact Frame.getAttribute h1

theorem Frame.readCertificate {v : Vendor} {w w' : PKCS11Library} {o : CK_OBJECT_HANDLE}
    {c : CertificateInfo}
    (h : PKCS11Library.readCertificate v o w = some (c, w')) : Frame v w w' := by
  unfold PKCS11Library.readCertificate at h
  split at h; · cases h
  rename_i a1 w1 h1
  split at h; · cases h
  rename_i a2 w2 h2
  split at h; · cases h
  rename_i a3 w3 h3
  split at h; · cases h
  rename_i a4 w4 h4
  split at h; · cases h
  rename_i a5 w5 h5
  simp only [Option.some.injEq, Prod.mk.injEq] at h
  rw [← h.2]
  exact (Frame.getAttributeBytes h1).trans ((Frame.getAttributeBytes h2).trans
    ((Frame.getAttributeBytes h3).trans ((Frame.getAttributeBytes h4).trans
      (Frame.getAttribute h5))))

theorem Frame.readKey {v : Vendor} {w w' : PKCS11Library} {kc : CK_OBJECT_CLASS}
    {o : CK_OBJECT_HANDLE} {k : KeyInfo}
    (h : PKCS11Library.readKey v kc o w = some (k, w')) : Frame v w w' := by
  unfold PKCS11Library.readKey at h
  split at h; · cases h
  rename_i a1 w1 h1
  split at h; · cases h
  rename_i a2 w2 h2
  split at h; · cases h
  rename_i a3 w3 h3
  split at h; · cases h
  rename_i a4 w4 h4
  split at h; · cases h
  rename_i a5 w5 h5
  split at h; · cases h
  rename_i a6 w6 h6
  split at h; · cases h
  rename_i a7 w7 h7
  split at h; · cases h
  rename_i a8 w8 h8
  split at h; · cases h
  rename_i a9 w9 h9
  split at h; · cases h
  rename_i a10 w10 h10
  split at h; · cases h
  rename_i a11 w11 h11
  split at h; · cases h
  rename_i a12 w12 h12
  simp only [Option.some.injEq, Prod.mk.injEq] at h
  rw [← h.2]
  exact (Frame.getAttributeBytes h1).trans ((Frame.getAttribute h2).trans
    ((Frame.getAttributeBytes h3).trans ((Frame.readFlag h4).trans
      ((Frame.readFlag h5).trans ((Frame.readFlag h6).trans ((Frame.readFlag h7).trans
        ((Frame.readFlag h8).trans ((Frame.readFlag h9).trans ((Frame.readFlag h10).trans
          ((Frame.readFlag h11).trans (Frame.readFlag h12)))))))))))

theorem Frame.viaCall {v : Vendor} {w w' : PKCS11Library} {c : Call} {r : Reply}
    (hc : c.isSession = false) (h : viaFunctionList v w c = some (r, w')) : Frame v w w' := by
  simp only [viaFunctionList_eq_some] at h
  obtain ⟨-, -, rfl⟩ := h
  simp [Frame, held_cons, bracketed_cons, hc]

theorem Frame.findDataObjectsLoop {v : Vendor} :
    ∀ (fuel : Nat) (w w' : PKCS11Library) (acc out : List CK_OBJECT_HANDLE),
      PKCS11Library.findDataObjectsLoop v fuel w acc = some (out, w') → Frame v w w'
  | 0, _, _, _, _, h => by simp [PKCS11Library.findDataObjectsLoop] at h
  | fuel + 1, w, w', acc, out, h => by
    unfold PKCS11Library.findDataObjectsLoop at h
    split at h; · cases h
    rename_i r1 w1 h1
    have f1 := Frame.viaCall (by rfl) h1
    split at h
    · simp only [Option.some.injEq, Prod.mk.injEq] at h
      rw [← h.2]; exact f1
    · exact f1.trans (Frame.findDataObjectsLoop fuel _ _ _ _ h)

theorem Frame.findCertificatesLoop {v : Vendor} :
    ∀ (fuel : Nat) (w w' : PKCS11Library) (acc out : List CertificateInfo),
      PKCS11Library.findCertificatesLoop v fuel w acc = some (out, w') → Frame v w w'
  | 0, _, _, _, _, h => by simp [PKCS11Library.findCertificatesLoop] at h
  | fuel + 1, w, w', acc, out, h => by
    unfold PKCS11Library.findCertificatesLoop at h
    split at h; · cases h
    rename_i r1 w1 h1
    have f1 := Frame.viaCall (by rfl) h1
    split at h
    · simp only [Option.some.injEq, Prod.mk.injEq] at h
      rw [← h.2]; exact f1
    · split at h; · cases h
      rename_i c2 w2 h2
      exact f1.trans ((Frame.readCertificate h2).trans
        (Frame.findCertificatesLoop fuel _ _ _ _ h))

theorem Frame.findKeysLoop {v : Vendor} {kc : CK_OBJECT_CLASS} :
    ∀ (fuel : Nat) (w w' : PKCS11Library) (acc out : List KeyInfo),
      PKCS11Library.findKeysLoop v kc fuel w acc = some (out, w') → Frame v w w'
  | 0, _, _, _, _, h => by simp [PKCS11Library.findKeysLoop] at h
  | fuel + 1, w, w', acc, out, h => by
    unfold PKCS11Library.findKeysLoop at h
    split at h; · cases h
    rename_i r1 w1 h1
    have f1 := Frame.viaCall (by rfl) h1
    split at h
    · simp only [Option.some.injEq, Prod.mk.injEq] at h
      rw [← h.2]; exact f1
    · split at h; · cases h
      rename_i c2 w2 h2
      exact f1.trans ((Frame.readKey h2).trans (Frame.findKeysLoop fuel _ _ _ _ h))

theorem Frame.findDataObjects {v : Vendor} {w w' : PKCS11Library} {fuel : Nat}
    {r : Result (List CK_OBJECT_HANDLE)}
    (h : PKCS11Library.findDataObjects v fuel w = some (r, w')) : Frame v w w' := by
  unfold PKCS11Library.findDataObjects at h
  split at h
  · simp only [Option.some.injEq, Prod.mk.injEq] at h
    rw [← h.2]; exact Frame.refl v w
  split at h; · cases h
  rename_i r1 w1 h1
  have f1 := Frame.viaCall (by rfl) h1
  split at h
  · simp only [Option.some.injEq, Prod.mk.injEq] at h
    rw [← h.2]; exact f1
  split at h; · cases h
  rename_i o2 w2 h2
  split at h; · cases h
  rename_i r3 w3 h3
  simp only [Option.some.injEq, Prod.mk.injEq] at h
  rw [← h.2]
  exact f1.trans ((Frame.findDataObjectsLoop _ _ _ _ _ h2).trans (Frame.viaCall (by rfl) h3))

theorem Frame.findCertificates {v : Vendor} {w w' : PKCS11Library} {fuel : Nat}
    {r : Result (List CertificateInfo)}
    (h : PKCS11Library.findCertificates v fuel w = some (r, w')) : Frame v w w' := by
  unfold PKCS11Library.findCertificates at h
  split at h
  · simp only [Option.some.injEq, Prod.mk.injEq] at h
    rw [← h.2]; exact Frame.refl v w
  split at h; · cases h
  rename_i r1 w1 h1
  have f1 := Frame.viaCall (by rfl) h1
  split at h
  · simp only [Option.some.injEq, Prod.mk.injEq] at h
    rw [← h.2]; exact f1
  split at h; · cases h
  rename_i o2 w2 h2
  split at h; · cases h
  rename_i r3 w3 h3
  simp only [Option.some.injEq, Prod.mk.injEq] at h
  rw [← h.2]
  exact f1.trans ((Frame.findCertificatesLoop _ _ _ _ _ h2).trans (Frame.viaCall (by rfl) h3))

theorem Frame.findKeys {v : Vendor} {w w' : PKCS11Library} {fuel : Nat}
    {kc : CK_OBJECT_CLASS} {r : Result (List KeyInfo)}
    (h : PKCS11Library.findKeys v fuel kc w = some (r, w')) : Frame v w w' := by
  unfold PKCS11Library.findKeys at h
  split at h
  · simp only [Option.some.injEq, Prod.mk.injEq] at h
    rw [← h.2]; exact Frame.refl v w
  split at h; · cases h
  rename_i r1 w1 h1
  have f1 := Frame.viaCall (by rfl) h1
  split at h
  · simp only [Option.some.injEq, Prod.mk.injEq] at h
    rw [← h.2]; exact f1
  split at h; · cases h
  rename_i o2 w2 h2
  split at h; · cases h
  rename_i r3 w3 h3
  simp only [Option.some.injEq, Prod.mk.injEq] at h
  rw [← h.2]
  exact f1.trans ((Frame.findKeysLoop _ _ _ _ _ h2).trans (Frame.viaCall (by rfl) h3))

theorem Frame.inv {v : Vendor} {w w' : PKCS11Library} (hi : Inv v w) (h : Frame v w w') :
    Inv v w' := by
  obtain ⟨i1, i2, i3, i4, i5⟩ := hi
  obtain ⟨f1, f2, f3, f4, f5, f6, f7, f8, f9, f10⟩ := h
  constructor
  · rw [f3, f2]; exact i1
  · rw [f2, f1]; exact i2
  · rw [f1, f5, f4]; exact i3
  · rw [f9, f2, f7]; exact i4
  · exact f10.mpr i5

/-- With its function table loaded, `logout` has an outcome, and the state after it
is the one written here. -/
theorem logout_snd (v : Vendor) (w : PKCS11Library) (hf : w.functionList_ = true) :
    (PKCS11Library.logout v w).map Prod.snd =
      some (if w.loggedIn_ then
              { w with loggedIn_ := false, trace := Call.C_Logout w.session_ :: w.trace }
            else w) := by
  unfold PKCS11Library.logout viaFunctionList call
  cases hl : w.loggedIn_ <;> simp [hf]
  split <;> simp

/-- With its function table loaded, `closeSession` has an outcome, and the state
after it is the one written here. -/
theorem closeSession_snd (v : Vendor) (w : PKCS11Library) (hf : w.functionList_ = true) :
    (PKCS11Library.closeSession v w).map Prod.snd =
      some (if w.sessionOpen_ then
              { w with
                loggedIn_ := false, sessionOpen_ := false, session_ := 0,
                trace := Call.C_CloseSession w.session_ ::
                  (if w.loggedIn_ then Call.C_Logout w.session_ :: w.trace else w.trace) }
            else w) := by
  unfold PKCS11Library.closeSession
  cases ho : w.sessionOpen_
  · simp
  · cases hl : w.loggedIn_
    · simp [viaFunctionList, call, hf, hl]
      split <;> simp
    · simp [logout_snd v w hf, viaFunctionList, call, hf, hl]
      split <;> simp

/-! ## Lemmas: the invariant of the reachable states -/

theorem Inv.ctor (v : Vendor) : Inv v PKCS11Library.ctor := by
  constructor <;> simp [PKCS11Library.ctor, held, bracketed]

theorem Inv.logout {v : Vendor} {w w' : PKCS11Library} {r : Result Unit} (hi : Inv v w)
    (h : PKCS11Library.logout v w = some (r, w')) : Inv v w' := by
  cases hl : w.loggedIn_
  · simp [PKCS11Library.logout, hl] at h
    rw [← h.2]; exact hi
  · have hf := (hi.loaded (hi.opened (hi.logged hl))).1
    have hs := logout_snd v w hf
    rw [h] at hs
    simp only [Option.map_some', Option.some.injEq, hl, if_true] at hs
    obtain ⟨i1, i2, i3, i4, i5⟩ := hi
    subst hs
    constructor <;> simp_all [held, bracketed]

theorem Inv.closeSession {v : Vendor} {w w' : PKCS11Library} {r : Result Unit}
    (hi : Inv v w) (h : PKCS11Library.closeSession v w = some (r, w')) :
    Inv v w' ∧ w'.sessionOpen_ = false ∧ w'.initialized_ = w.initialized_ ∧
      w'.functionList_ = w.functionList_ := by
  cases ho : w.sessionOpen_
  · simp [PKCS11Library.closeSession, ho] at h
    rw [← h.2]; exact ⟨hi, ho, rfl, rfl⟩
  · have hf := (hi.loaded (hi.opened ho)).1
    have hs := closeSession_snd v w hf
    rw [h] at hs
    simp only [Option.map_some', Option.some.injEq, ho, if_true] at hs
    obtain ⟨i1, i2, i3, i4, i5⟩ := hi
    subst hs
    refine ⟨?_, rfl, rfl, rfl⟩
    constructor
    · simp
    · simp
    · simpa using i3
    · cases hl : w.loggedIn_ <;> simp_all [held]
    · cases hl : w.loggedIn_ <;> simp_all [bracketed]

theorem Inv.login {v : Vendor} {w w' : PKCS11Library} {r : Result Unit} {pin : String}
    {ut : CK_USER_TYPE} (hi : Inv v w)
    (h : PKCS11Library.login v pin ut w = some (r, w')) : Inv v w' := by
  obtain ⟨i1, i2, i3, i4, i5⟩ := hi
  unfold PKCS11Library.login at h
  repeat' split at h
  all_goals simp only [viaFunctionList_eq_some, Option.some.injEq, Prod.mk.injEq,
    reduceCtorEq] at *
  all_goals casesm* _ ∧ _
  all_goals subst_vars
  all_goals constructor <;> simp_all [held, bracketed]

theorem Inv.openSession {v : Vendor} {w w' : PKCS11Library} {r : Result Unit}
    {s : CK_SLOT_ID} {rw : Bool} (hi : Inv v w)
    (h : PKCS11Library.openSession v s rw w = some (r, w')) : Inv v w' := by
  unfold PKCS11Library.openSession at h
  split at h
  · simp only [Option.some.injEq, Prod.mk.injEq] at h
    rw [← h.2]; exact hi
  rename_i hinit
  split at h; · cases h
  rename_i w0 h0
  have hw0 : Inv v w0 ∧ w0.sessionOpen_ = false ∧ w0.initialized_ = true := by
    split at h0
    · cases hc : PKCS11Library.closeSession v w with
      | none => simp [hc] at h0
      | some p =>
        obtain ⟨r1, w1⟩ := p
        simp only [hc, Option.map_some', Option.some.injEq] at h0
        subst h0
        refine ⟨(Inv.closeSession hi hc).1, (Inv.closeSession hi hc).2.1, ?_⟩
        rw [(Inv.closeSession hi hc).2.2.1]; simpa using hinit
    · simp only [Option.some.injEq] at h0
      subst h0
      exact ⟨hi, by simp_all, by simpa using hinit⟩
  obtain ⟨⟨i1, i2, i3, i4, i5⟩, hso, hin0⟩ := hw0
  simp only at h
  generalize (if rw = true then CKF_SERIAL_SESSION ||| CKF_RW_SESSION
    else CKF_SERIAL_SESSION) = flags at h
  split at h; · cases h
  rename_i r1 w1 h1
  simp only [viaFunctionList_eq_some] at h1
  obtain ⟨hf, rfl, rfl⟩ := h1
  split at h <;> simp only [Option.some.injEq, Prod.mk.injEq] at h <;> obtain ⟨-, rfl⟩ := h <;>
    constructor <;> simp_all [held, bracketed]

theorem Inv.finalize {v : Vendor} {w w' : PKCS11Library} {r : Result Unit} (hi : Inv v w)
    (h : PKCS11Library.finalize v w = some (r, w')) : Inv v w' := by
  unfold PKCS11Library.finalize at h
  split at h
  · simp only [Option.some.injEq, Prod.mk.injEq] at h
    rw [← h.2]; exact hi
  rename_i hinit
  split at h; · cases h
  rename_i w0 h0
  have hw0 : Inv v w0 ∧ w0.sessionOpen_ = false := by
    split at h0
    · cases hc : PKCS11Library.closeSession v w with
      | none => simp [hc] at h0
      | some p =>
        obtain ⟨r1, w1⟩ := p
        simp only [hc, Option.map_some', Option.some.injEq] at h0
        subst h0
        exact ⟨(Inv.closeSession hi hc).1, (Inv.closeSession hi hc).2.1⟩
    · simp only [Option.some.injEq] at h0
      subst h0
      exact ⟨hi, by simp_all⟩
  obtain ⟨⟨i1, i2, i3, i4, i5⟩, hso⟩ := hw0
  simp only [Option.some.injEq, Prod.mk.injEq, call] at h
  obtain ⟨-, rfl⟩ := h
  have hlg : w0.loggedIn_ = false := by
    cases hl : w0.loggedIn_
    · rfl
    · rw [i1 hl] at hso; cases hso
  constructor
  · intro hl
    split at hl <;> split at hl <;> simp_all
  · intro ho
    split at ho <;> split at ho <;> simp_all
  · simp
  · simp only
    split <;> split <;> simp_all [held]
  · simp only
    split <;> split <;> simp_all [bracketed]

theorem SFrame.loadLibrary (v : Vendor) (path : String) (w : PKCS11Library) :
    SFrame v w (PKCS11Library.loadLibrary v path w).2 ∧
      ((PKCS11Library.loadLibrary v path w).1.isOk = true →
        (PKCS11Library.loadLibrary v path w).2.functionList_ = true ∧
        (PKCS11Library.loadLibrary v path w).2.libraryHandle_ = true) := by
  unfold PKCS11Library.loadLibrary call
  simp only
  split
  · simp [SFrame, held, bracketed, Result.isOk, Result.Error]
  · split
    · simp [SFrame, held, bracketed, Result.isOk, Result.Error]
    · split
      · simp [SFrame, held, bracketed, Result.isOk, Result.Error]
      · simp_all [SFrame, held, bracketed, Result.isOk, Result.Ok]

theorem SFrame.loadAuxFunctions (v : Vendor) (w : PKCS11Library) :
    SFrame v w (PKCS11Library.loadAuxFunctions v w).2 ∧
      (PKCS11Library.loadAuxFunctions v w).2.functionList_ = w.functionList_ ∧
      (PKCS11Library.loadAuxFunctions v w).2.libraryHandle_ = w.libraryHandle_ := by
  unfold PKCS11Library.loadAuxFunctions call
  simp only
  split
  · simp [SFrame]
  · split <;> simp [SFrame, held, bracketed]

theorem Inv.initialize {v : Vendor} {w w' : PKCS11Library} {r : Result Unit} {p : String}
    (hi : Inv v w) (h : PKCS11Library.initialize v p w = some (r, w')) : Inv v w' := by
  have hso : w.initialized_ = false → w.sessionOpen_ = false ∧ w.loggedIn_ = false := by
    intro h0
    have h1 : w.sessionOpen_ = false := by
      cases hs : w.sessionOpen_
      · rfl
      · rw [hi.opened hs] at h0; cases h0
    refine ⟨h1, ?_⟩
    cases hl : w.loggedIn_
    · rfl
    · rw [hi.logged hl] at h1; cases h1
  obtain ⟨i1, i2, i3, i4, i5⟩ := hi
  unfold PKCS11Library.initialize at h
  split at h
  · simp only [Option.some.injEq, Prod.mk.injEq] at h
    rw [← h.2]; exact ⟨i1, i2, i3, i4, i5⟩
  rename_i hinit
  simp only [Bool.not_eq_true] at hinit
  obtain ⟨hs, hl⟩ := hso hinit
  simp only at h
  generalize (if p.isEmpty = true then "libshuttle_p11v220.so.1.0.0" else p) = path at h
  obtain ⟨⟨a1, a2, a3, a4, a5, a6⟩, a7⟩ := SFrame.loadLibrary v path w
  generalize PKCS11Library.loadLibrary v path w = res at h a1 a2 a3 a4 a5 a6 a7
  obtain ⟨res1, w1⟩ := res
  simp only at h a1 a2 a3 a4 a5 a6 a7
  split at h
  · simp only [Option.some.injEq, Prod.mk.injEq] at h
    obtain ⟨-, rfl⟩ := h
    constructor <;> simp_all
  rename_i hok
  simp only [Bool.not_eq_true, Bool.not_eq_false'] at hok
  obtain ⟨a8, a9⟩ := a7 (by simpa using hok)
  split at h; · cases h
  rename_i r2 w2 h2
  simp only [viaFunctionList_eq_some] at h2
  obtain ⟨-, rfl, rfl⟩ := h2
  split at h
  · simp only [Option.some.injEq, Prod.mk.injEq] at h
    obtain ⟨-, rfl⟩ := h
    constructor <;> simp_all [held, bracketed]
  · simp only [Option.some.injEq, Prod.mk.injEq] at h
    obtain ⟨-, rfl⟩ := h
    obtain ⟨⟨b1, b2, b3, b4, b5, b6⟩, b7, b8⟩ := SFrame.loadAuxFunctions v
      { w1 with trace := Call.C_Initialize :: w1.trace }
    generalize (PKCS11Library.loadAuxFunctions v
      { w1 with trace := Call.C_Initialize :: w1.trace }).2 = w3 at b1 b2 b3 b4 b5 b6 b7 b8 ⊢
    simp only at b1 b2 b3 b4 b5 b6 b7 b8
    constructor <;> simp_all [held, bracketed]

theorem map_snd_eq_some {α σ : Type} {x : Option (α × σ)} {s : σ}
    (h : x.map Prod.snd = some s) : ∃ a, x = some (a, s) := by
  cases x with
  | none => cases h
  | some p =>
    obtain ⟨a, t⟩ := p
    simp only [Option.map_some', Option.some.injEq] at h
    exact ⟨a, by rw [h]⟩

theorem inv_step {v : Vendor} {fuel : Nat} {op : Op} {w w' : PKCS11Library} (hi : Inv v w)
    (h : step v fuel op w = some w') : Inv v w' := by
  cases op <;> dsimp only [step] at h
  case initialize_ p => obtain ⟨r, hr⟩ := map_snd_eq_some h; exact Inv.initialize hi hr
  case finalize => obtain ⟨r, hr⟩ := map_snd_eq_some h; exact Inv.finalize hi hr
  case getSlotList tp => obtain ⟨r, hr⟩ := map_snd_eq_some h; exact (Frame.getSlotList hr).inv hi
  case getSlotInfo s => obtain ⟨r, hr⟩ := map_snd_eq_some h; exact (Frame.getSlotInfo hr).inv hi
  case getTokenInfo s =>
    obtain ⟨r, hr⟩ := map_snd_eq_some h; exact (Frame.getTokenInfo hr).inv hi
  case openSession s rw => obtain ⟨r, hr⟩ := map_snd_eq_some h; exact Inv.openSession hi hr
  case closeSession => obtain ⟨r, hr⟩ := map_snd_eq_some h; exact (Inv.closeSession hi hr).1
  case login pin ut => obtain ⟨r, hr⟩ := map_snd_eq_some h; exact Inv.login hi hr
  case logout => obtain ⟨r, hr⟩ := map_snd_eq_some h; exact Inv.logout hi hr
  case getPinInfo =>
    simp only [Option.some.injEq] at h
    rw [← h]; exact (Frame.viaAux v w _ _ _ _ _ (by rfl)).inv hi
  case changePin o n => obtain ⟨r, hr⟩ := map_snd_eq_some h; exact (Frame.changePin hr).inv hi
  case initPin p => obtain ⟨r, hr⟩ := map_snd_eq_some h; exact (Frame.initPin hr).inv hi
  case setTokenLabel l =>
    simp only [Option.some.injEq] at h
    rw [← h]; exact (Frame.viaAux v w _ _ _ _ _ (by rfl)).inv hi
  case setTokenTimeout s =>
    simp only [Option.some.injEq] at h
    rw [← h]; exact (Frame.viaAux v w _ _ _ _ _ (by rfl)).inv hi
  case getTokenTimeout =>
    simp only [Option.some.injEq] at h
    rw [← h]; exact (Frame.viaAux v w _ _ _ _ _ (by rfl)).inv hi
  case blankToken p =>
    simp only [Option.some.injEq] at h
    rw [← h]; exact (Frame.viaAux v w _ _ _ _ _ (by rfl)).inv hi
  case findCertificates =>
    obtain ⟨r, hr⟩ := map_snd_eq_some h; exact (Frame.findCertificates hr).inv hi
  case findKeys c => obtain ⟨r, hr⟩ := map_snd_eq_some h; exact (Frame.findKeys hr).inv hi
  case findDataObjects =>
    obtain ⟨r, hr⟩ := map_snd_eq_some h; exact (Frame.findDataObjects hr).inv hi
  case exportCertificate c =>
    obtain ⟨r, hr⟩ := map_snd_eq_some h; exact (Frame.getAttributeBytes hr).inv hi
  case exportCertificateToFile c f =>
    obtain ⟨r, hr⟩ := map_snd_eq_some h; exact (Frame.exportCertificateToFile hr).inv hi
  case generateRSAKeyPair b l =>
    obtain ⟨r, hr⟩ := map_snd_eq_some h; exact (Frame.generateRSAKeyPair hr).inv hi
  case generateSymmetricKey a n l =>
    obtain ⟨r, hr⟩ := map_snd_eq_some h; exact (Frame.generateSymmetricKey hr).inv hi
  case sign k d a =>
    obtain ⟨r, hr⟩ := map_snd_eq_some h
    exact (Frame.twoPass (by rfl) (fun _ => by rfl) hr).inv hi
  case verify k d s a => obtain ⟨r, hr⟩ := map_snd_eq_some h; exact (Frame.verify hr).inv hi
  case encrypt k d a m iv =>
    obtain ⟨r, hr⟩ := map_snd_eq_some h
    exact (Frame.twoPass (by rfl) (fun _ => by rfl) hr).inv hi
  case decrypt k d a m iv =>
    obtain ⟨r, hr⟩ := map_snd_eq_some h
    exact (Frame.twoPass (by rfl) (fun _ => by rfl) hr).inv hi
  case encryptRSA k d =>
    obtain ⟨r, hr⟩ := map_snd_eq_some h
    exact (Frame.twoPass (by rfl) (fun _ => by rfl) hr).inv hi
  case decryptRSA k d =>
    obtain ⟨r, hr⟩ := map_snd_eq_some h
    exact (Frame.twoPass (by rfl) (fun _ => by rfl) hr).inv hi
  case destroyObject o =>
    obtain ⟨r, hr⟩ := map_snd_eq_some h; exact (Frame.destroyObject hr).inv hi
  case getObjectAttribute o t =>
    obtain ⟨r, hr⟩ := map_snd_eq_some h; exact (Frame.getAttributeBytes hr).inv hi
  case waitForSlotEvent b =>
    simp only [Option.some.injEq] at h
    rw [← h]; exact (Frame.viaAux v w _ _ _ _ _ (by rfl)).inv hi

theorem inv_run {v : Vendor} {fuel : Nat} :
    ∀ (ops : List Op) (w w' : PKCS11Library), Inv v w → run v fuel ops w = some w' → Inv v w'
  | [], w, w', hi, h => by
    simp only [PKCS11Lib.run, Option.some.injEq] at h
    rw [← h]; exact hi
  | op :: ops, w, w', hi, h => by
    simp only [PKCS11Lib.run] at h
    split at h
    · cases h
    · rename_i w1 h1
      exact inv_run ops w1 w' (inv_step hi h1) h

/-- Every reachable state satisfies the invariant. -/
theorem inv_reachable {v : Vendor} {w : PKCS11Library} (h : Reachable v w) : Inv v w := by
  obtain ⟨fuel, ops, hr⟩ := h
  exact inv_run ops _ _ (Inv.ctor v) hr

theorem held_open (v : Vendor) (s : CK_SLOT_ID) (f : CK_FLAGS) (t : List Call) :
    held v (Call.C_OpenSession s f :: t) =
      if (v (Call.C_OpenSession s f :: t)).rv = CKR_OK then
        some (v (Call.C_OpenSession s f :: t)).handle
      else held v t := rfl

theorem held_close (v : Vendor) (h : CK_SESSION_HANDLE) (t : List Call) :
    held v (Call.C_CloseSession h :: t) = if held v t = some h then none else held v t := rfl

theorem bracketed_open (v : Vendor) (s : CK_SLOT_ID) (f : CK_FLAGS) (t : List Call) :
    bracketed v (Call.C_OpenSession s f :: t) ↔
      ((v (Call.C_OpenSession s f :: t)).rv = CKR_OK → held v t = none) ∧ bracketed v t :=
  Iff.rfl

theorem bracketed_tail (v : Vendor) (x : Call) (t : List Call) (h : bracketed v (x :: t)) :
    bracketed v t := by
  cases x
  case C_OpenSession s f => exact ((bracketed_open v s f t).mp h).2
  all_goals exact h

theorem bracketed_suffix (v : Vendor) :
    ∀ (c t : List Call), bracketed v (c ++ t) → bracketed v t
  | [], _, h => h
  | x :: c, t, h => bracketed_suffix v c t (bracketed_tail v x (c ++ t) h)

theorem held_of_no_close (v : Vendor) (s : CK_SLOT_ID) (f : CK_FLAGS) (a : List Call)
    (hok : (v (Call.C_OpenSession s f :: a)).rv = CKR_OK) :
    ∀ b : List Call, bracketed v (b ++ Call.C_OpenSession s f :: a) →
      Call.C_CloseSession (v (Call.C_OpenSession s f :: a)).handle ∉ b →
      held v (b ++ Call.C_OpenSession s f :: a) = some (v (Call.C_OpenSession s f :: a)).handle
  | [], _, _ => by simp [held_open, hok]
  | x :: b, hb, hn => by
    have hb' : bracketed v (b ++ Call.C_OpenSession s f :: a) := bracketed_tail v x _ hb
    have hn' : Call.C_CloseSession (v (Call.C_OpenSession s f :: a)).handle ∉ b := by
      intro hm; exact hn (List.mem_cons_of_mem _ hm)
    have ih := held_of_no_close v s f a hok b hb' hn'
    cases x
    case C_OpenSession s2 f2 =>
      rw [List.cons_append] at hb
      rw [List.cons_append, held_open]
      have h0 := ((bracketed_open v s2 f2 _).mp hb).1
      split
      · rename_i h2
        rw [h0 h2] at ih; cases ih
      · exact ih
    case C_CloseSession h2 =>
      rw [List.cons_append, held_close, ih]
      split
      · rename_i he
        simp only [Option.some.injEq] at he
        exact absurd (by rw [he]; exact List.mem_cons_self _ _) hn
      · rfl
    all_goals (rw [List.cons_append, held_cons v _ _ (by rfl)]; exact ih)

/-- In a well-bracketed history, between two `C_OpenSession` calls answered
`CKR_OK` there is a `C_CloseSession` call on the handle the first one returned. -/
theorem bracketed_close_between (v : Vendor) (t a b c : List Call) (s1 s2 : CK_SLOT_ID)
    (f1 f2 : CK_FLAGS) (hb : bracketed v t)
    (ht : t = c ++ Call.C_OpenSession s2 f2 :: (b ++ Call.C_OpenSession s1 f1 :: a))
    (h1 : (v (Call.C_OpenSession s1 f1 :: a)).rv = CKR_OK)
    (h2 : (v (Call.C_OpenSession s2 f2 :: (b ++ Call.C_OpenSession s1 f1 :: a))).rv = CKR_OK) :
    Call.C_CloseSession (v (Call.C_OpenSession s1 f1 :: a)).handle ∈ b := by
  subst ht
  have hb2 := (bracketed_open v s2 f2 _).mp (bracketed_suffix v c _ hb)
  by_contra hn
  have := held_of_no_close v s1 f1 a h1 b hb2.2 hn
  rw [hb2.1 h2] at this
  cases this


/-- On an initialized library with its function table loaded, `openSession` has an
outcome: it closes the session held, if any, then calls `C_OpenSession`, and passes
the return code of that call on. -/
theorem openSession_spec (v : Vendor) (w : PKCS11Library) (s : CK_SLOT_ID) (rw : Bool)
    (hf : w.functionList_ = true) (hi : w.initialized_ = true) :
    ∃ r w', PKCS11Library.openSession v s rw w = some (r, w') ∧
      w'.trace = Call.C_OpenSession s
          (if rw then CKF_SERIAL_SESSION ||| CKF_RW_SESSION else CKF_SERIAL_SESSION) ::
        (if w.sessionOpen_ then
          Call.C_CloseSession w.session_ ::
            (if w.loggedIn_ then Call.C_Logout w.session_ :: w.trace else w.trace)
         else w.trace) ∧
      passesOn r (v w'.trace).rv := by
  unfold PKCS11Library.openSession
  simp only [hi, Bool.not_true, Bool.false_eq_true, if_false]
  generalize (if rw = true then CKF_SERIAL_SESSION ||| CKF_RW_SESSION
    else CKF_SERIAL_SESSION) = flags
  rw [closeSession_snd v w hf]
  cases ho : w.sessionOpen_ <;> cases hl : w.loggedIn_ <;>
    simp only [Bool.false_eq_true, if_false, if_true, viaFunctionList, call, hf] <;>
    split <;> refine ⟨_, _, rfl, ?_, ?_⟩ <;>
    simp_all [passesOn, Result.Error, Result.Ok, Result.isError]


/-! ## The claims -/

/-- C1 (evaluation of the code). The claim says `convertPKCS11Error(CKR_X)` is
`ERROR_X` whenever `Status` has the like-named enumerator. The code sends
`CKR_PIN_INCORRECT` to `ERROR_PIN_INVALID`, `CKR_SESSION_HANDLE_INVALID` to
`ERROR_GENERAL`, `CKR_HOST_MEMORY` to `ERROR_MEMORY` and `CKR_OBJECT_HANDLE_INVALID`
to `ERROR_OBJECT_NOT_FOUND`; of the 84 like-named pairs the adapter names, the
translation agrees with the name on exactly four. -/
theorem convertPKCS11Error_like_named_divergence :
    convertPKCS11Error CKR_PIN_INCORRECT = Status.ERROR_PIN_INVALID ∧
    convertPKCS11Error CKR_SESSION_HANDLE_INVALID = Status.ERROR_GENERAL ∧
    convertPKCS11Error CKR_HOST_MEMORY = Status.ERROR_MEMORY ∧
    convertPKCS11Error CKR_OBJECT_HANDLE_INVALID = Status.ERROR_OBJECT_NOT_FOUND ∧
    likeNamed.length = 84 ∧
    likeNamed.filter (fun p => convertPKCS11Error p.1 = p.2) =
      [(CKR_TOKEN_NOT_PRESENT, Status.ERROR_TOKEN_NOT_PRESENT),
       (CKR_PIN_INVALID, Status.ERROR_PIN_INVALID),
       (CKR_PIN_LOCKED, Status.ERROR_PIN_LOCKED),
       (CKR_FUNCTION_FAILED, Status.ERROR_FUNCTION_FAILED)] := by
  decide

/-- C2. For `openSession` on an initialized library, and for `login`, `changePin`,
`initPin` and `destroyObject` with a session open, in every reachable state and for
every vendor: the operation has an outcome, its last external call is the vendor
call of the operation, and the result passes the return code `rv` of that call on:
an error result with `pkcs11Error = rv` and `errorCode = convertPKCS11Error rv`
when `rv` is not `CKR_OK`, and `Ok` when it is. -/
theorem vendor_code_passed_on (v : Vendor) (w : PKCS11Library) (hr : Reachable v w) :
    (w.initialized_ = true → ∀ (slotId : CK_SLOT_ID) (readWrite : Bool), ∃ r w' t,
      PKCS11Library.openSession v slotId readWrite w = some (r, w') ∧
      w'.trace = Call.C_OpenSession slotId
        (if readWrite then CKF_SERIAL_SESSION ||| CKF_RW_SESSION
         else CKF_SERIAL_SESSION) :: t ∧
      passesOn r (v w'.trace).rv) ∧
    (w.sessionOpen_ = true →
      (∀ (pin : String) (userType : CK_USER_TYPE), ∃ r w',
        PKCS11Library.login v pin userType w = some (r, w') ∧
        w'.trace = Call.C_Login w.session_ userType pin :: w.trace ∧
        passesOn r (v w'.trace).rv) ∧
      (∀ (oldPin newPin : String), ∃ r w',
        PKCS11Library.changePin v oldPin newPin w = some (r, w') ∧
        w'.trace = Call.C_SetPIN w.session_ oldPin newPin :: w.trace ∧
        passesOn r (v w'.trace).rv) ∧
      (∀ (pin : String), ∃ r w',
        PKCS11Library.initPin v pin w = some (r, w') ∧
        w'.trace = Call.C_InitPIN w.session_ pin :: w.trace ∧
        passesOn r (v w'.trace).rv) ∧
      (∀ (objectHandle : CK_OBJECT_HANDLE), ∃ r w',
        PKCS11Library.destroyObject v objectHandle w = some (r, w') ∧
        w'.trace = Call.C_DestroyObject w.session_ objectHandle :: w.trace ∧
        passesOn r (v w'.trace).rv)) := by
  have hi := inv_reachable hr
  constructor
  · intro hinit s rw
    obtain ⟨r, w', h1, h2, h3⟩ := openSession_spec v w s rw (hi.loaded hinit).1 hinit
    exact ⟨r, w', _, h1, h2, h3⟩
  · intro ho
    have hf := (hi.loaded (hi.opened ho)).1
    refine ⟨?_, ?_, ?_, ?_⟩
    · intro pin ut
      unfold PKCS11Library.login
      simp only [ho, Bool.not_true, Bool.false_eq_true, if_false, viaFunctionList, call, hf,
        if_true]
      split <;> refine ⟨_, _, rfl, rfl, ?_⟩ <;>
        simp_all [passesOn, Result.Error, Result.Ok, Result.isError]
    · intro o n
      unfold PKCS11Library.changePin
      simp only [ho, Bool.not_true, Bool.false_eq_true, if_false, viaFunctionList, call, hf,
        if_true]
      split <;> refine ⟨_, _, rfl, rfl, ?_⟩ <;>
        simp_all [passesOn, Result.Error, Result.Ok, Result.isError]
    · intro pin
      unfold PKCS11Library.initPin
      simp only [ho, Bool.not_true, Bool.false_eq_true, if_false, viaFunctionList, call, hf,
        if_true]
      split <;> refine ⟨_, _, rfl, rfl, ?_⟩ <;>
        simp_all [passesOn, Result.Error, Result.Ok, Result.isError]
    · intro o
      unfold PKCS11Library.destroyObject
      simp only [ho, Bool.not_true, Bool.false_eq_true, if_false, viaFunctionList, call, hf,
        if_true]
      split <;> refine ⟨_, _, rfl, rfl, ?_⟩ <;>
        simp_all [passesOn, Result.Error, Result.Ok, Result.isError]

/-- C2 at a concrete input: the state reached by `initialize("")` and
`openSession(1)` against a vendor answering `CKR_PIN_LOCKED` to `C_Login`; there the
theorem gives an outcome of `login("1234")` that passes the vendor code on. -/
theorem vendor_code_passed_on_witness :
    Reachable (vendorLogin CKR_PIN_LOCKED) openedState ∧
    openedState.sessionOpen_ = true ∧
    ∃ r w', PKCS11Library.login (vendorLogin CKR_PIN_LOCKED) "1234" CKU_USER openedState =
        some (r, w') ∧
      w'.trace = Call.C_Login openedState.session_ CKU_USER "1234" :: openedState.trace ∧
      passesOn r (vendorLogin CKR_PIN_LOCKED w'.trace).rv :=
  ⟨⟨0, [Op.initialize_ "", Op.openSession 1 true], by decide⟩, rfl,
    ((vendor_code_passed_on (vendorLogin CKR_PIN_LOCKED) openedState
      ⟨0, [Op.initialize_ "", Op.openSession 1 true], by decide⟩).2 rfl).1 "1234" CKU_USER⟩

/-- C3. For every vendor return code `rv`, `convertPKCS11Error rv` is `Status.OK`
if and only if `rv` is `CKR_OK`. -/
theorem convertPKCS11Error_eq_OK_iff (rv : CK_RV) :
    convertPKCS11Error rv = Status.OK ↔ rv = CKR_OK := by
  unfold convertPKCS11Error
  constructor
  · intro h
    by_contra hne
    rw [if_neg hne] at h
    repeat' split at h
    all_goals cases h
  · intro h
    rw [if_pos h]

/-- C4 (evaluation of the code). The claim says the error result built from `rv`
satisfies `isPinError()` exactly for the four PIN codes. On the code it does so for
`CKR_PIN_INCORRECT`, `CKR_PIN_INVALID` and `CKR_PIN_LOCKED` only: a `C_Login`
answered `CKR_PIN_EXPIRED` gives a result with `errorCode = ERROR_GENERAL`, for
which `isPinError()` is false. -/
theorem isPinError_misses_PIN_EXPIRED :
    (PKCS11Library.login (vendorLogin CKR_PIN_EXPIRED) "1234" CKU_USER openedState).map
        (fun p => (p.1.isPinError, p.1.errorCode, p.1.pkcs11Error)) =
      some (false, Status.ERROR_GENERAL, CKR_PIN_EXPIRED) ∧
    (∀ (rv : CK_RV) (msg : String),
      (Result.Error (convertPKCS11Error rv) msg rv : Result Unit).isPinError =
        decide (rv = CKR_PIN_INCORRECT ∨ rv = CKR_PIN_INVALID ∨ rv = CKR_PIN_LOCKED)) := by
  refine ⟨by decide, ?_⟩
  intro rv msg
  simp only [Result.isPinError, Result.Error, convertPKCS11Error]
  by_cases h1 : rv = CKR_PIN_INCORRECT
  · subst h1; decide
  by_cases h2 : rv = CKR_PIN_INVALID
  · subst h2; decide
  by_cases h3 : rv = CKR_PIN_LOCKED
  · subst h3; decide
  simp only [h1, h2, h3, or_self, decide_False, if_false]
  repeat' split
  all_goals rfl

/-- C5 (evaluation of the code). The claim says the error result built from `rv`
satisfies `isSessionError()` exactly for `CKR_SESSION_CLOSED`,
`CKR_SESSION_HANDLE_INVALID` and `CKR_SESSION_READ_ONLY`. On the code no return code
at all gives a result for which `isSessionError()` is true: the three session codes
are translated to `ERROR_GENERAL`. -/
theorem isSessionError_never_holds :
    convertPKCS11Error CKR_SESSION_CLOSED = Status.ERROR_GENERAL ∧
    convertPKCS11Error CKR_SESSION_HANDLE_INVALID = Status.ERROR_GENERAL ∧
    convertPKCS11Error CKR_SESSION_READ_ONLY = Status.ERROR_GENERAL ∧
    (∀ (rv : CK_RV) (msg : String),
      (Result.Error (convertPKCS11Error rv) msg rv : Result Unit).isSessionError = false) := by
  refine ⟨by decide, by decide, by decide, ?_⟩
  intro rv msg
  simp only [Result.isSessionError, Result.Error, convertPKCS11Error]
  repeat' split
  all_goals rfl

/-- C6. For every vendor return code `rv` other than `CKR_OK`, and every message,
the error result built from it (`errorCode = convertPKCS11Error rv`) satisfies
`isTokenNotPresent()` if and only if `rv` is `CKR_TOKEN_NOT_PRESENT`. -/
theorem isTokenNotPresent_iff (rv : CK_RV) (msg : String) (hrv : rv ≠ CKR_OK) :
    (Result.Error (convertPKCS11Error rv) msg rv : Result Unit).isTokenNotPresent = true ↔
      rv = CKR_TOKEN_NOT_PRESENT := by
  simp only [Result.isTokenNotPresent, Result.Error, convertPKCS11Error, if_neg hrv]
  by_cases h : rv = CKR_TOKEN_NOT_PRESENT
  · simp [h]
  · simp only [h, if_false, iff_false]
    repeat' split
    all_goals decide

/-- C6 at a concrete input: the code `CKR_TOKEN_NOT_PRESENT` itself. -/
theorem isTokenNotPresent_iff_witness :
    CKR_TOKEN_NOT_PRESENT ≠ CKR_OK ∧
    ((Result.Error (convertPKCS11Error CKR_TOKEN_NOT_PRESENT) "Failed to open session"
        CKR_TOKEN_NOT_PRESENT : Result Unit).isTokenNotPresent = true ↔
      CKR_TOKEN_NOT_PRESENT = CKR_TOKEN_NOT_PRESENT) :=
  ⟨by decide, isTokenNotPresent_iff CKR_TOKEN_NOT_PRESENT "Failed to open session" (by decide)⟩


/-- C7. In every run of public operations from a freshly constructed library,
against any vendor: between two `C_OpenSession` calls of the trace that were
answered `CKR_OK` there is a `C_CloseSession` call on the handle the first one
returned; and when a session is open, `openSession` calls `C_CloseSession` on the
held handle (after `C_Logout` when logged in) right before it calls
`C_OpenSession`, the held handle being the one the trace leaves open. -/
theorem single_session (v : Vendor) (fuel : Nat) (ops : List Op) (w : PKCS11Library)
    (hr : run v fuel ops PKCS11Library.ctor = some w) :
    (∀ (a b c : List Call) (s1 s2 : CK_SLOT_ID) (f1 f2 : CK_FLAGS),
      w.trace = c ++ Call.C_OpenSession s2 f2 :: (b ++ Call.C_OpenSession s1 f1 :: a) →
      (v (Call.C_OpenSession s1 f1 :: a)).rv = CKR_OK →
      (v (Call.C_OpenSession s2 f2 :: (b ++ Call.C_OpenSession s1 f1 :: a))).rv = CKR_OK →
      Call.C_CloseSession (v (Call.C_OpenSession s1 f1 :: a)).handle ∈ b) ∧
    (w.sessionOpen_ = true → held v w.trace = some w.session_ ∧
      ∀ (slotId : CK_SLOT_ID) (readWrite : Bool), ∃ r w' t,
        PKCS11Library.openSession v slotId readWrite w = some (r, w') ∧
        w'.trace = Call.C_OpenSession slotId
          (if readWrite then CKF_SERIAL_SESSION ||| CKF_RW_SESSION
           else CKF_SERIAL_SESSION) :: Call.C_CloseSession w.session_ :: t ∧
        (t = w.trace ∨ t = Call.C_Logout w.session_ :: w.trace)) := by
  have hi : Inv v w := inv_reachable ⟨fuel, ops, hr⟩
  constructor
  · intro a b c s1 s2 f1 f2 ht h1 h2
    exact bracketed_close_between v w.trace a b c s1 s2 f1 f2 hi.nested ht h1 h2
  · intro ho
    refine ⟨by rw [hi.holds, ho]; rfl, ?_⟩
    intro s rw
    have hinit := hi.opened ho
    obtain ⟨r, w', h1, h2, -⟩ := openSession_spec v w s rw (hi.loaded hinit).1 hinit
    rw [ho] at h2
    refine ⟨r, w', _, h1, h2, ?_⟩
    cases w.loggedIn_
    · exact Or.inl rfl
    · exact Or.inr rfl

/-- C7 at a concrete input: `initialize`, `openSession(1)`, `openSession(2)` against
`vendorOk`; the `C_CloseSession` on the handle `7` stands between the two
`C_OpenSession` calls. -/
theorem single_session_witness :
    run vendorOk 0 [Op.initialize_ "", Op.openSession 1 true, Op.openSession 2 true]
        PKCS11Library.ctor = some reopenedState ∧
    Call.C_CloseSession 7 ∈ [Call.C_CloseSession 7] :=
  ⟨by decide,
    (single_session vendorOk 0 [Op.initialize_ "", Op.openSession 1 true, Op.openSession 2 true]
      reopenedState (by decide)).1 loadedTrace [Call.C_CloseSession 7] [] 1 2
      (CKF_SERIAL_SESSION ||| CKF_RW_SESSION) (CKF_SERIAL_SESSION ||| CKF_RW_SESSION)
      rfl (by decide) (by decide)⟩

/-- C8 (evaluation of the code). The claim says that after a `SessionGuard` is
constructed and destroyed no session is open. On an initialized library, against a
vendor that answers `CKR_PIN_INCORRECT` to `C_Login` and `CKR_OK` to everything
else, `SessionGuard(lib, 1, "1234")` opens the session `7`, fails to log in, is not
valid, and its destructor then makes no call: `sessionOpen_` is still true, the
handle `7` is still held and `C_Login` is the last call of the trace. -/
theorem sessionGuard_leaves_session_open :
    Reachable (vendorLogin CKR_PIN_INCORRECT) loadedState ∧
    ((SessionGuard.ctor (vendorLogin CKR_PIN_INCORRECT) 1 "1234" loadedState).bind fun p =>
      (SessionGuard.dtor (vendorLogin CKR_PIN_INCORRECT) p.1 p.2).map fun w =>
        (p.1.isValid, w.sessionOpen_, w.loggedIn_, w.session_, w.trace.head?)) =
      some (false, true, false, 7, some (Call.C_Login 7 CKU_USER "1234")) :=
  ⟨⟨0, [Op.initialize_ ""], by decide⟩, by decide⟩

/-- C9 (evaluation of the code). The claim says `exportCertificate` and
`getObjectAttribute` return an error and make no vendor call when no session is
open. On a library that was never initialized both call through the null
`functionList_` (no outcome); on an initialized library with no session open both
call `C_GetAttributeValue` with the session handle `0` and return what the vendor
answers, where `destroyObject` returns `ERROR_GENERAL` and calls nothing. -/
theorem exportCertificate_unguarded :
    (∀ (v : Vendor) (h : CK_OBJECT_HANDLE),
      PKCS11Library.exportCertificate v h PKCS11Library.ctor = none) ∧
    (∀ (v : Vendor) (h : CK_OBJECT_HANDLE) (t : CK_ATTRIBUTE_TYPE),
      PKCS11Library.getObjectAttribute v h t PKCS11Library.ctor = none) ∧
    Reachable vendorOk loadedState ∧ loadedState.sessionOpen_ = false ∧
    (PKCS11Library.exportCertificate vendorOk 5 loadedState).map
        (fun p => (p.1.isOk, p.2.trace)) =
      some (true, Call.C_GetAttributeValue 0 5 CKA_VALUE none :: loadedTrace) ∧
    (PKCS11Library.getObjectAttribute vendorOk 5 CKA_LABEL loadedState).map
        (fun p => (p.1.isOk, p.2.trace)) =
      some (true, Call.C_GetAttributeValue 0 5 CKA_LABEL none :: loadedTrace) ∧
    PKCS11Library.destroyObject vendorOk 5 loadedState =
      some (Result.Error Status.ERROR_GENERAL "No session open" 0, loadedState) :=
  ⟨fun _ _ => rfl, fun _ _ _ => rfl, ⟨0, [Op.initialize_ ""], by decide⟩, rfl, by decide,
    by decide, by decide⟩

/-- C10 (evaluation of the code). The claim says an enumeration returns an error
result when a `C_FindObjects` call fails. With a session open, against a vendor
that answers `CKR_DEVICE_ERROR` to `C_FindObjects` and `CKR_OK` to everything else,
`findDataObjects`, `findCertificates` and `findKeys` each return `Ok` with an empty
list: the loop is left on the failure and the code is dropped. -/
theorem enumeration_failure_returned_as_Ok :
    Reachable (vendorFind CKR_DEVICE_ERROR) openedState ∧
    (PKCS11Library.findDataObjects (vendorFind CKR_DEVICE_ERROR) 1 openedState).map Prod.fst =
      some (Result.Ok []) ∧
    (PKCS11Library.findCertificates (vendorFind CKR_DEVICE_ERROR) 1 openedState).map Prod.fst =
      some (Result.Ok []) ∧
    (PKCS11Library.findKeys (vendorFind CKR_DEVICE_ERROR) 1 CKO_PUBLIC_KEY openedState).map
      Prod.fst = some (Result.Ok []) :=
  ⟨⟨0, [Op.initialize_ "", Op.openSession 1 true], by decide⟩, by decide, by decide, by decide⟩

/-- C11. `Result<T>::Ok(v)` has `isOk() = true`, `errorCode = Status::OK`,
`pkcs11Error = 0`, an empty `errorMessage` and `value = v`; `Result<T>::Error(c, m, e)`
and `Result<void>::Error(c, m, e)` have `isOk() = false`, `errorCode = c`,
`errorMessage = m` and `pkcs11Error = e`; and `isError()` is the negation of `isOk()`
for every `Result`. -/
theorem Result_Ok_Error_fields :
    (∀ (α : Type) (x : α),
      (Result.Ok x).isOk = true ∧ (Result.Ok x).errorCode = Status.OK ∧
      (Result.Ok x).pkcs11Error = 0 ∧ (Result.Ok x).errorMessage = "" ∧
      (Result.Ok x).value = x) ∧
    (∀ (α : Type) [Inhabited α] (c : Status) (m : String) (e : Nat),
      (Result.Error c m e : Result α).isOk = false ∧
      (Result.Error c m e : Result α).errorCode = c ∧
      (Result.Error c m e : Result α).errorMessage = m ∧
      (Result.Error c m e : Result α).pkcs11Error = e) ∧
    (∀ (c : Status) (m : String) (e : Nat),
      (Result.Error c m e : Result Unit).isOk = false ∧
      (Result.Error c m e : Result Unit).errorCode = c ∧
      (Result.Error c m e : Result Unit).errorMessage = m ∧
      (Result.Error c m e : Result Unit).pkcs11Error = e) ∧
    (∀ (α : Type) (r : Result α), r.isError = !r.isOk) :=
  ⟨fun _ _ => ⟨rfl, rfl, rfl, rfl, rfl⟩, fun _ _ _ _ _ => ⟨rfl, rfl, rfl, rfl⟩,
    fun _ _ _ => ⟨rfl, rfl, rfl, rfl⟩, fun _ _ => rfl⟩

/-- C15. In every reachable state and against any vendor: `closeSession` called
with a session open has an outcome with `sessionOpen_ = false`, `loggedIn_ = false`
and `session_ = 0`, its last call is `C_CloseSession` on the held handle (after
`C_Logout` when logged in), and its result is an error exactly when that
`C_CloseSession` returned a code other than `CKR_OK`, whatever `C_Logout` returned;
called with no session open it returns `Ok`, calls nothing and changes nothing. -/
theorem closeSession_outcome (v : Vendor) (w : PKCS11Library) (hr : Reachable v w) :
    (w.sessionOpen_ = true → ∃ r w' t,
      PKCS11Library.closeSession v w = some (r, w') ∧
      w'.sessionOpen_ = false ∧ w'.loggedIn_ = false ∧ w'.session_ = 0 ∧
      w'.trace = Call.C_CloseSession w.session_ :: t ∧
      (t = w.trace ∨ t = Call.C_Logout w.session_ :: w.trace) ∧
      (r.isError = true ↔ (v w'.trace).rv ≠ CKR_OK) ∧
      passesOn r (v w'.trace).rv) ∧
    (w.sessionOpen_ = false → PKCS11Library.closeSession v w = some (Result.Ok (), w)) := by
  have hi := inv_reachable hr
  constructor
  · intro ho
    have hf := (hi.loaded (hi.opened ho)).1
    unfold PKCS11Library.closeSession
    simp only [ho, Bool.not_true, Bool.false_eq_true, if_false]
    rw [logout_snd v w hf]
    cases hl : w.loggedIn_ <;>
      simp only [Bool.false_eq_true, if_false, if_true, viaFunctionList, call, hf] <;>
      split <;> refine ⟨_, _, _, rfl, rfl, ?_, rfl, rfl, ?_, ?_, ?_⟩ <;>
      simp_all [passesOn, Result.Error, Result.Ok, Result.isError]
  · intro ho
    simp [PKCS11Library.closeSession, ho]

/-- C15 at a concrete input: the state after `initialize("")` and `openSession(1)`
against `vendorOk`. -/
theorem closeSession_outcome_witness :
    Reachable vendorOk openedState ∧ openedState.sessionOpen_ = true ∧
    ∃ r w' t, PKCS11Library.closeSession vendorOk openedState = some (r, w') ∧
      w'.sessionOpen_ = false ∧ w'.loggedIn_ = false ∧ w'.session_ = 0 ∧
      w'.trace = Call.C_CloseSession openedState.session_ :: t ∧
      (t = openedState.trace ∨ t = Call.C_Logout openedState.session_ :: openedState.trace) ∧
      (r.isError = true ↔ (vendorOk w'.trace).rv ≠ CKR_OK) ∧
      passesOn r (vendorOk w'.trace).rv :=
  ⟨⟨0, [Op.initialize_ "", Op.openSession 1 true], by decide⟩, rfl,
    (closeSession_outcome vendorOk openedState
      ⟨0, [Op.initialize_ "", Op.openSession 1 true], by decide⟩).1 rfl⟩

/-- C17. When no session is open, each of `login`, `changePin`, `initPin`,
`findCertificates`, `findKeys`, `findDataObjects`, `generateRSAKeyPair`,
`generateSymmetricKey`, `sign`, `verify`, `encrypt`, `decrypt`, `encryptRSA`,
`decryptRSA` and `destroyObject` returns, for every argument and vendor, the error
result `Error(ERROR_GENERAL, "No session open", 0)` together with the very state it
was called in: no call is added to the trace and no member changes. -/
theorem no_session_no_call (v : Vendor) (w : PKCS11Library) (ho : w.sessionOpen_ = false) :
    (∀ pin ut, PKCS11Library.login v pin ut w =
      some (Result.Error Status.ERROR_GENERAL "No session open" 0, w)) ∧
    (∀ o n, PKCS11Library.changePin v o n w =
      some (Result.Error Status.ERROR_GENERAL "No session open" 0, w)) ∧
    (∀ pin, PKCS11Library.initPin v pin w =
      some (Result.Error Status.ERROR_GENERAL "No session open" 0, w)) ∧
    (∀ fuel, PKCS11Library.findCertificates v fuel w =
      some (Result.Error Status.ERROR_GENERAL "No session open" 0, w)) ∧
    (∀ fuel c, PKCS11Library.findKeys v fuel c w =
      some (Result.Error Status.ERROR_GENERAL "No session open" 0, w)) ∧
    (∀ fuel, PKCS11Library.findDataObjects v fuel w =
      some (Result.Error Status.ERROR_GENERAL "No session open" 0, w)) ∧
    (∀ b l, PKCS11Library.generateRSAKeyPair v b l w =
      some (Result.Error Status.ERROR_GENERAL "No session open" 0, w)) ∧
    (∀ a n l, PKCS11Library.generateSymmetricKey v a n l w =
      some (Result.Error Status.ERROR_GENERAL "No session open" 0, w)) ∧
    (∀ k d a, PKCS11Library.sign v k d a w =
      some (Result.Error Status.ERROR_GENERAL "No session open" 0, w)) ∧
    (∀ k d s a, PKCS11Library.verify v k d s a w =
      some (Result.Error Status.ERROR_GENERAL "No session open" 0, w)) ∧
    (∀ k d a m iv, PKCS11Library.encrypt v k d a m iv w =
      some (Result.Error Status.ERROR_GENERAL "No session open" 0, w)) ∧
    (∀ k d a m iv, PKCS11Library.decrypt v k d a m iv w =
      some (Result.Error Status.ERROR_GENERAL "No session open" 0, w)) ∧
    (∀ k d, PKCS11Library.encryptRSA v k d w =
      some (Result.Error Status.ERROR_GENERAL "No session open" 0, w)) ∧
    (∀ k d, PKCS11Library.decryptRSA v k d w =
      some (Result.Error Status.ERROR_GENERAL "No session open" 0, w)) ∧
    (∀ o, PKCS11Library.destroyObject v o w =
      some (Result.Error Status.ERROR_GENERAL "No session open" 0, w)) := by
  refine ⟨?_, ?_, ?_, ?_, ?_, ?_, ?_, ?_, ?_, ?_, ?_, ?_, ?_, ?_, ?_⟩
  · intros; simp [PKCS11Library.login, ho]
  · intros; simp [PKCS11Library.changePin, ho]
  · intros; simp [PKCS11Library.initPin, ho]
  · intros; simp [PKCS11Library.findCertificates, ho]
  · intros; simp [PKCS11Library.findKeys, ho]
  · intros; simp [PKCS11Library.findDataObjects, ho]
  · intros; simp [PKCS11Library.generateRSAKeyPair, ho]
  · intros; simp [PKCS11Library.generateSymmetricKey, ho]
  · intros; simp [PKCS11Library.sign, PKCS11Library.twoPass, ho]
  · intros; simp [PKCS11Library.verify, ho]
  · intros; simp [PKCS11Library.encrypt, PKCS11Library.twoPass, ho]
  · intros; simp [PKCS11Library.decrypt, PKCS11Library.twoPass, ho]
  · intros; simp [PKCS11Library.encryptRSA, PKCS11Library.twoPass, ho]
  · intros; simp [PKCS11Library.decryptRSA, PKCS11Library.twoPass, ho]
  · intros; simp [PKCS11Library.destroyObject, ho]

/-- C17 at a concrete input: an initialized library with no session open; `sign`
returns the error and the state is the same. -/
theorem no_session_no_call_witness :
    loadedState.sessionOpen_ = false ∧
    PKCS11Library.sign vendorOk 5 [1, 2, 3] HashAlgorithm.SHA256 loadedState =
      some (Result.Error Status.ERROR_GENERAL "No session open" 0, loadedState) :=
  ⟨rfl, (no_session_no_call vendorOk loadedState rfl).2.2.2.2.2.2.2.2.1 5 [1, 2, 3]
    HashAlgorithm.SHA256⟩

/-- When the library loads, `loadLibrary` returns `Ok` with the handle and the
function table set, after three calls. -/
theorem loadLibrary_of_loads (v : Vendor) (path : String) (w : PKCS11Library)
    (hl : loads v path w.trace) :
    PKCS11Library.loadLibrary v path w =
      (Result.Ok (), { w with libraryHandle_ := true, functionList_ := true,
                              trace := getFunctionListHistory path w.trace }) := by
  obtain ⟨h1, h2, h3, h4⟩ := hl
  simp only [getFunctionListHistory] at h3 h4
  simp [PKCS11Library.loadLibrary, call, h1, h2, h3, h4, getFunctionListHistory]

/-- When the library does not load, `loadLibrary` returns an error and leaves
`initialized_` alone. -/
theorem loadLibrary_of_not_loads (v : Vendor) (path : String) (w : PKCS11Library)
    (hl : ¬ loads v path w.trace) :
    (PKCS11Library.loadLibrary v path w).1.isOk = false ∧
      (PKCS11Library.loadLibrary v path w).2.initialized_ = w.initialized_ := by
  simp only [loads, getFunctionListHistory] at hl
  unfold PKCS11Library.loadLibrary call
  simp only
  split
  · simp [Result.isOk, Result.Error]
  · split
    · simp [Result.isOk, Result.Error]
    · split
      · simp [Result.isOk, Result.Error]
      · simp_all

/-- Vendors that agree off the auxiliary calls make `loadLibrary` do the same. -/
theorem loadLibrary_congr (v v' : Vendor) (path : String) (w : PKCS11Library)
    (ha : agreeOffAux v v') :
    PKCS11Library.loadLibrary v path w = PKCS11Library.loadLibrary v' path w := by
  have hd : ∀ q t, v (Call.dlopen q :: t) = v' (Call.dlopen q :: t) :=
    fun q t => ha _ (by simp) (by simp)
  have he : ∀ t, v (Call.dlerror :: t) = v' (Call.dlerror :: t) :=
    fun t => ha _ (by simp) (by simp)
  have hs : ∀ t, v (Call.dlsym "C_GetFunctionList" :: t) =
      v' (Call.dlsym "C_GetFunctionList" :: t) :=
    fun t => ha _ (by simp) (by simp)
  have hc : ∀ t, v (Call.dlclose :: t) = v' (Call.dlclose :: t) :=
    fun t => ha _ (by simp) (by simp)
  have hg : ∀ t, v (Call.C_GetFunctionList :: t) = v' (Call.C_GetFunctionList :: t) :=
    fun t => ha _ (by simp) (by simp)
  simp only [PKCS11Library.loadLibrary, call, hd, he, hs, hc, hg]

/-- C13. For every vendor, path and state: `initialize` on an uninitialized library
has an outcome, and it returns `Ok` (then exactly `Result::Ok()`) and leaves
`isInitialized()` true exactly when the library loads with a non-null function list
and `C_Initialize` returns `CKR_OK` or `CKR_CRYPTOKI_ALREADY_INITIALIZED`; two
vendors that differ only in their answers to the calls of `loadAuxFunctions` give
the same result and the same `initialized_` flag; and on an initialized library
`initialize` returns `Ok` with the state it was called in. -/
theorem initialize_outcome (v : Vendor) (p : String) (w : PKCS11Library) :
    (w.initialized_ = false → ∃ r w',
      PKCS11Library.initialize v p w = some (r, w') ∧
      (r.isOk = true ↔ loads v (libraryPathOf p) w.trace ∧
        ((v (Call.C_Initialize :: getFunctionListHistory (libraryPathOf p) w.trace)).rv = CKR_OK ∨
         (v (Call.C_Initialize :: getFunctionListHistory (libraryPathOf p) w.trace)).rv =
            CKR_CRYPTOKI_ALREADY_INITIALIZED)) ∧
      (w'.isInitialized = true ↔ loads v (libraryPathOf p) w.trace ∧
        ((v (Call.C_Initialize :: getFunctionListHistory (libraryPathOf p) w.trace)).rv = CKR_OK ∨
         (v (Call.C_Initialize :: getFunctionListHistory (libraryPathOf p) w.trace)).rv =
            CKR_CRYPTOKI_ALREADY_INITIALIZED)) ∧
      (r.isOk = true → r = Result.Ok ())) ∧
    (w.initialized_ = false → ∀ v' : Vendor, agreeOffAux v v' →
      ( PKCS11Library.initialize v p w).map (fun x => (x.1, x.2.initialized_)) =
      ( PKCS11Library.initialize v' p w).map (fun x => (x.1, x.2.initialized_))) ∧
    (w.initialized_ = true → PKCS11Library.initialize v p w = some (Result.Ok (), w)) := by
  refine ⟨?_, ?_, ?_⟩
  · intro hn
    have hp : (if p.isEmpty = true then "libshuttle_p11v220.so.1.0.0" else p) =
        libraryPathOf p := rfl
    unfold PKCS11Library.initialize
    simp only [hn, Bool.false_eq_true, if_false, hp]
    by_cases hl : loads v (libraryPathOf p) w.trace
    · rw [loadLibrary_of_loads v _ w hl]
      simp only [Result.isOk, Result.Ok, Bool.not_true, Bool.false_eq_true, if_false,
        viaFunctionList, call, if_true]
      by_cases hrv : ((v (Call.C_Initialize ::
          getFunctionListHistory (libraryPathOf p) w.trace)).rv != CKR_OK &&
          (v (Call.C_Initialize :: getFunctionListHistory (libraryPathOf p) w.trace)).rv !=
            CKR_CRYPTOKI_ALREADY_INITIALIZED) = true
      · rw [if_pos hrv]
        refine ⟨_, _, rfl, ?_, ?_, ?_⟩ <;>
          simp_all [Result.Error, PKCS11Library.isInitialized]
      · rw [if_neg hrv]
        have hor : (v (Call.C_Initialize ::
              getFunctionListHistory (libraryPathOf p) w.trace)).rv = CKR_OK ∨
            (v (Call.C_Initialize :: getFunctionListHistory (libraryPathOf p) w.trace)).rv =
              CKR_CRYPTOKI_ALREADY_INITIALIZED := by
          simp only [bne_iff_ne, ne_eq, Bool.and_eq_true, decide_eq_true_eq, not_and,
            Decidable.not_not] at hrv
          by_cases h0 : (v (Call.C_Initialize ::
              getFunctionListHistory (libraryPathOf p) w.trace)).rv = CKR_OK
          · exact Or.inl h0
          · exact Or.inr (hrv h0)
        refine ⟨_, _, rfl, ?_, ?_, ?_⟩
        · exact ⟨fun _ => ⟨hl, hor⟩, fun _ => rfl⟩
        · exact ⟨fun _ => ⟨hl, hor⟩, fun _ => rfl⟩
        · intro _; rfl
    · obtain ⟨h1, h2⟩ := loadLibrary_of_not_loads v (libraryPathOf p) w hl
      generalize PKCS11Library.loadLibrary v (libraryPathOf p) w = res at h1 h2
      obtain ⟨r1, w1⟩ := res
      simp only at h1 h2
      simp only [h1, Bool.not_false, if_true]
      refine ⟨_, _, rfl, ?_, ?_, ?_⟩
      · simp [h1, hl]
      · simp [PKCS11Library.isInitialized, h2, hn, hl]
      · simp [h1]
  · intro hn v' ha
    have hi : ∀ t, v (Call.C_Initialize :: t) = v' (Call.C_Initialize :: t) :=
      fun t => ha _ (by simp) (by simp)
    unfold PKCS11Library.initialize
    simp only [hn, Bool.false_eq_true, if_false]
    rw [loadLibrary_congr v v' _ w ha]
    generalize PKCS11Library.loadLibrary v'
      (if p.isEmpty = true then "libshuttle_p11v220.so.1.0.0" else p) w = res
    obtain ⟨r1, w1⟩ := res
    simp only
    cases hok : r1.isOk
    · simp
    · cases hf : w1.functionList_
      · simp [viaFunctionList, hf]
      · simp only [Bool.not_true, Bool.false_eq_true, if_false, viaFunctionList, call, hi, hf,
          if_true]
        generalize ((v' (Call.C_Initialize :: w1.trace)).rv != CKR_OK &&
          (v' (Call.C_Initialize :: w1.trace)).rv != CKR_CRYPTOKI_ALREADY_INITIALIZED) = c
        cases c <;> simp
  · intro hy
    simp [ PKCS11Library.initialize, hy]


/-- C13 at a concrete input: a fresh library against `vendorOk` is uninitialized and
`initialize("")` on it has the outcome described; on the state it leaves,
`initialize("")` returns `Ok` with the state unchanged. -/
theorem initialize_outcome_witness :
    PKCS11Library.ctor.initialized_ = false ∧
    (∃ r w', PKCS11Library.initialize vendorOk "" PKCS11Library.ctor = some (r, w') ∧
      (r.isOk = true ↔ loads vendorOk (libraryPathOf "") PKCS11Library.ctor.trace ∧
        ((vendorOk (Call.C_Initialize ::
            getFunctionListHistory (libraryPathOf "") PKCS11Library.ctor.trace)).rv = CKR_OK ∨
         (vendorOk (Call.C_Initialize ::
            getFunctionListHistory (libraryPathOf "") PKCS11Library.ctor.trace)).rv =
            CKR_CRYPTOKI_ALREADY_INITIALIZED)) ∧
      (w'.isInitialized = true ↔ loads vendorOk (libraryPathOf "") PKCS11Library.ctor.trace ∧
        ((vendorOk (Call.C_Initialize ::
            getFunctionListHistory (libraryPathOf "") PKCS11Library.ctor.trace)).rv = CKR_OK ∨
         (vendorOk (Call.C_Initialize ::
            getFunctionListHistory (libraryPathOf "") PKCS11Library.ctor.trace)).rv =
            CKR_CRYPTOKI_ALREADY_INITIALIZED)) ∧
      (r.isOk = true → r = Result.Ok ())) ∧
    loadedState.initialized_ = true ∧
    PKCS11Library.initialize vendorOk "" loadedState = some (Result.Ok (), loadedState) :=
  ⟨rfl, (initialize_outcome vendorOk "" PKCS11Library.ctor).1 rfl, rfl,
    (initialize_outcome vendorOk "" loadedState).2.2 rfl⟩

/-- C12 (counterexample). The claim says that when `initialize` is called on an
uninitialized library, the library loads and `C_Initialize` returns `rv` other than
`CKR_OK` and `CKR_CRYPTOKI_ALREADY_INITIALIZED`, the error returned has
`errorCode = convertPKCS11Error(rv)`. On a fresh library, with a vendor that loads
and answers `CKR_HOST_MEMORY` to `C_Initialize`, the result has
`pkcs11Error = CKR_HOST_MEMORY` and `initialized_` stays false, but the `errorCode`
is `ERROR_GENERAL` where `convertPKCS11Error` gives `ERROR_MEMORY`; likewise for
`CKR_FUNCTION_FAILED` and `CKR_ARGUMENTS_BAD`. -/
theorem initialize_failure_not_translated :
    PKCS11Library.ctor.initialized_ = false ∧
    loads (vendorInit CKR_HOST_MEMORY) (libraryPathOf "") PKCS11Library.ctor.trace ∧
    CKR_HOST_MEMORY ≠ CKR_OK ∧ CKR_HOST_MEMORY ≠ CKR_CRYPTOKI_ALREADY_INITIALIZED ∧
    ( PKCS11Library.initialize (vendorInit CKR_HOST_MEMORY) "" PKCS11Library.ctor).map
        (fun p => (p.1.isOk, p.1.errorCode, p.1.pkcs11Error, p.2.initialized_)) =
      some (false, Status.ERROR_GENERAL, CKR_HOST_MEMORY, false) ∧
    convertPKCS11Error CKR_HOST_MEMORY = Status.ERROR_MEMORY ∧
    ( PKCS11Library.initialize (vendorInit CKR_FUNCTION_FAILED) "" PKCS11Library.ctor).map
        (fun p => (p.1.isOk, p.1.errorCode, p.1.pkcs11Error, p.2.initialized_)) =
      some (false, Status.ERROR_GENERAL, CKR_FUNCTION_FAILED, false) ∧
    convertPKCS11Error CKR_FUNCTION_FAILED = Status.ERROR_FUNCTION_FAILED ∧
    ( PKCS11Library.initialize (vendorInit CKR_ARGUMENTS_BAD) "" PKCS11Library.ctor).map
        (fun p => (p.1.isOk, p.1.errorCode, p.1.pkcs11Error, p.2.initialized_)) =
      some (false, Status.ERROR_GENERAL, CKR_ARGUMENTS_BAD, false) ∧
    convertPKCS11Error CKR_ARGUMENTS_BAD = Status.ERROR_INVALID_PARAMETER :=
  ⟨rfl, ⟨rfl, rfl, rfl, rfl⟩, by decide, by decide, by decide, by decide, by decide,
    by decide, by decide, by decide⟩

/-- C12 (amended). When `initialize` is called on an uninitialized library, the
library loads, and `C_Initialize` returns a code `rv` other than `CKR_OK` and
`CKR_CRYPTOKI_ALREADY_INITIALIZED`, `initialize` returns an error result with
`pkcs11Error = rv` and `errorCode = ERROR_GENERAL`, and `isInitialized()` stays
false. -/
theorem initialize_failure_reported (v : Vendor) (p : String) (w : PKCS11Library)
    (hn : w.initialized_ = false) (hl : loads v (libraryPathOf p) w.trace)
    (h1 : (v (Call.C_Initialize :: getFunctionListHistory (libraryPathOf p) w.trace)).rv ≠
      CKR_OK)
    (h2 : (v (Call.C_Initialize :: getFunctionListHistory (libraryPathOf p) w.trace)).rv ≠
      CKR_CRYPTOKI_ALREADY_INITIALIZED) :
    ∃ r w', PKCS11Library.initialize v p w = some (r, w') ∧
      r.isOk = false ∧ r.isError = true ∧
      r.pkcs11Error =
        (v (Call.C_Initialize :: getFunctionListHistory (libraryPathOf p) w.trace)).rv ∧
      r.errorCode = Status.ERROR_GENERAL ∧
      w'.isInitialized = false := by
  have hp : (if p.isEmpty = true then "libshuttle_p11v220.so.1.0.0" else p) =
      libraryPathOf p := rfl
  unfold PKCS11Library.initialize
  simp only [hn, Bool.false_eq_true, if_false, hp]
  rw [loadLibrary_of_loads v _ w hl]
  simp only [Result.isOk, Result.Ok, Bool.not_true, Bool.false_eq_true, if_false,
    viaFunctionList, call, if_true]
  have hrv : ((v (Call.C_Initialize ::
      getFunctionListHistory (libraryPathOf p) w.trace)).rv != CKR_OK &&
      (v (Call.C_Initialize :: getFunctionListHistory (libraryPathOf p) w.trace)).rv !=
        CKR_CRYPTOKI_ALREADY_INITIALIZED) = true := by
    simp [h1, h2]
  rw [if_pos hrv]
  exact ⟨_, _, rfl, rfl, rfl, rfl, rfl, hn⟩

/-- C12 (amended) at a concrete input: a fresh library against a vendor that loads
and answers `CKR_HOST_MEMORY` to `C_Initialize`. -/
theorem initialize_failure_reported_witness :
    PKCS11Library.ctor.initialized_ = false ∧
    loads (vendorInit CKR_HOST_MEMORY) (libraryPathOf "") PKCS11Library.ctor.trace ∧
    (vendorInit CKR_HOST_MEMORY (Call.C_Initialize ::
      getFunctionListHistory (libraryPathOf "") PKCS11Library.ctor.trace)).rv =
        CKR_HOST_MEMORY ∧
    ∃ r w', PKCS11Library.initialize (vendorInit CKR_HOST_MEMORY) "" PKCS11Library.ctor =
        some (r, w') ∧
      r.isOk = false ∧ r.isError = true ∧
      r.pkcs11Error =
        (vendorInit CKR_HOST_MEMORY (Call.C_Initialize ::
          getFunctionListHistory (libraryPathOf "") PKCS11Library.ctor.trace)).rv ∧
      r.errorCode = Status.ERROR_GENERAL ∧
      w'.isInitialized = false :=
  ⟨rfl, ⟨rfl, rfl, rfl, rfl⟩, rfl,
    initialize_failure_reported (vendorInit CKR_HOST_MEMORY) "" PKCS11Library.ctor rfl
      ⟨rfl, rfl, rfl, rfl⟩ (by decide) (by decide)⟩

/-! ## Lemmas: the auxiliary table is null unless the library is initialized -/

/-- A successful `openSession` leaves `sessionOpen_` set. -/
theorem openSession_isOk {v : Vendor} {w w1 : PKCS11Library} {s : CK_SLOT_ID} {rw : Bool}
    {r : Result Unit} (h : PKCS11Library.openSession v s rw w = some (r, w1))
    (hok : r.isOk = true) : w1.sessionOpen_ = true := by
  unfold PKCS11Library.openSession at h
  split at h
  · simp only [Option.some.injEq, Prod.mk.injEq] at h
    rw [← h.1] at hok; cases hok
  split at h; · cases h
  simp only at h
  generalize (if rw = true then CKF_SERIAL_SESSION ||| CKF_RW_SESSION
    else CKF_SERIAL_SESSION) = flags at h
  split at h; · cases h
  split at h <;> simp only [Option.some.injEq, Prod.mk.injEq] at h
  · rw [← h.1] at hok; cases hok
  · rw [← h.2]

/-- In a reachable state `openSession` has an outcome. -/
theorem openSession_total (v : Vendor) (w : PKCS11Library) (hi : Inv v w) (s : CK_SLOT_ID)
    (rw : Bool) : ∃ r w1, PKCS11Library.openSession v s rw w = some (r, w1) := by
  cases hinit : w.initialized_
  · exact ⟨Result.Error Status.ERROR_GENERAL "Library not initialized" 0, w,
      by simp [PKCS11Library.openSession, hinit]⟩
  · obtain ⟨r, w1, h, -⟩ := openSession_spec v w s rw (hi.loaded hinit).1 hinit
    exact ⟨r, w1, h⟩

/-- C19. In every reachable state, for every slot, pin and vendor, the constructor
of `SessionGuard` has an outcome, and the guard is valid if and only if its
`openSession` call succeeded and either the pin is empty or the `login` with that
pin, made in the state `openSession` left, succeeded. When `openSession` fails, or
the pin is empty, the state after the constructor is the state `openSession` left:
no `login` call is made; with a non-empty pin after a successful `openSession` the
last call is the `C_Login` of that `login`. -/
theorem sessionGuard_valid_iff (v : Vendor) (w : PKCS11Library) (hr : Reachable v w)
    (slotId : CK_SLOT_ID) (pin : String) :
    ∃ opened w1 g w',
      PKCS11Library.openSession v slotId true w = some (opened, w1) ∧
      SessionGuard.ctor v slotId pin w = some (g, w') ∧
      (g.isValid = true ↔ opened.isOk = true ∧ (pin.isEmpty = true ∨
        ∃ logged w2, PKCS11Library.login v pin CKU_USER w1 = some (logged, w2) ∧
          logged.isOk = true)) ∧
      (opened.isOk = false → w' = w1) ∧
      (pin.isEmpty = true → w' = w1) ∧
      (opened.isOk = true → pin.isEmpty = false →
        w'.trace = Call.C_Login w1.session_ CKU_USER pin :: w1.trace) := by
  have hi := inv_reachable hr
  obtain ⟨opened, w1, ho⟩ := openSession_total v w hi slotId true
  have hi1 : Inv v w1 := Inv.openSession hi ho
  refine ⟨opened, w1, ?_⟩
  unfold SessionGuard.ctor
  rw [ho]
  simp only [true_and]
  cases hok : opened.isOk
  · refine ⟨_, _, rfl, ?_, ?_, ?_, ?_⟩ <;> simp [SessionGuard.isValid]
  · have hso := openSession_isOk ho hok
    have hf := (hi1.loaded (hi1.opened hso)).1
    cases hp : pin.isEmpty
    · have hlogin : ∃ logged w2, PKCS11Library.login v pin CKU_USER w1 = some (logged, w2) ∧
          w2.trace = Call.C_Login w1.session_ CKU_USER pin :: w1.trace := by
        unfold PKCS11Library.login
        simp only [hso, Bool.not_true, Bool.false_eq_true, if_false, viaFunctionList, call, hf,
          if_true]
        split <;> exact ⟨_, _, rfl, rfl⟩
      obtain ⟨logged, w2, hl, ht⟩ := hlogin
      simp only [Bool.not_false, if_true, hl]
      refine ⟨_, _, rfl, ?_, ?_, ?_, ?_⟩
      · simp [SessionGuard.isValid]
      · intro h; cases h
      · intro h; cases h
      · intro _ _; exact ht
    · simp only [Bool.not_true, Bool.false_eq_true, if_false, if_true]
      refine ⟨_, _, rfl, ?_, ?_, ?_, ?_⟩ <;> simp [SessionGuard.isValid]

/-- C19 at a concrete input: an initialized library, a vendor answering
`CKR_PIN_INCORRECT` to `C_Login`, slot `1` and the pin `"1234"`. -/
theorem sessionGuard_valid_iff_witness :
    Reachable (vendorLogin CKR_PIN_INCORRECT) loadedState ∧
    ∃ opened w1 g w',
      PKCS11Library.openSession (vendorLogin CKR_PIN_INCORRECT) 1 true loadedState =
        some (opened, w1) ∧
      SessionGuard.ctor (vendorLogin CKR_PIN_INCORRECT) 1 "1234" loadedState = some (g, w') ∧
      (g.isValid = true ↔ opened.isOk = true ∧ ("1234".isEmpty = true ∨
        ∃ logged w2, PKCS11Library.login (vendorLogin CKR_PIN_INCORRECT) "1234" CKU_USER w1 =
            some (logged, w2) ∧ logged.isOk = true)) ∧
      (opened.isOk = false → w' = w1) ∧
      ("1234".isEmpty = true → w' = w1) ∧
      (opened.isOk = true → "1234".isEmpty = false →
        w'.trace = Call.C_Login w1.session_ CKU_USER "1234" :: w1.trace) :=
  ⟨⟨0, [Op.initialize_ ""], by decide⟩,
    sessionGuard_valid_iff (vendorLogin CKR_PIN_INCORRECT) loadedState
      ⟨0, [Op.initialize_ ""], by decide⟩ 1 "1234"⟩

/-- C20 (counterexample). The claim says `setTokenTimeout` passes exactly
`1000 × timeoutSeconds` for every `timeoutSeconds`. With a session open on slot `1`
and the auxiliary function available, `setTokenTimeout(18446744073709552)` (a
`CK_ULONG` value) passes `384`: the product is taken in `CK_ULONG` arithmetic and
wraps. -/
theorem setTokenTimeout_wraps :
    Reachable vendorAux openedAuxState ∧
    18446744073709552 < CK_ULONG_RANGE ∧
    (PKCS11Library.setTokenTimeout vendorAux 18446744073709552 openedAuxState).2.trace.head? =
      some (Call.EP_SetTokenTimeout 1 384) ∧
    1000 * 18446744073709552 ≠ 384 :=
  ⟨⟨0, [Op.initialize_ "", Op.openSession 1 true], by decide⟩, by decide, by decide, by decide⟩

/-- C20 (amended). For every `timeoutSeconds` with `1000 × timeoutSeconds` inside the
`CK_ULONG` range, when a session is open and the auxiliary `SetTokenTimeout`
function is available, `setTokenTimeout` makes one call, `SetTokenTimeout` for the
current slot with exactly `1000 × timeoutSeconds`, and passes its return code on. -/
theorem setTokenTimeout_milliseconds (v : Vendor) (w : PKCS11Library)
    (timeoutSeconds : CK_ULONG) (aux : AUX_FUNC_LIST) (ho : w.sessionOpen_ = true)
    (ha : w.auxFunctionList_ = some aux) (hf : aux.EP_SET_TOKEN_TIMEOUT = true)
    (hs : 1000 * timeoutSeconds < CK_ULONG_RANGE) :
    (PKCS11Library.setTokenTimeout v timeoutSeconds w).2.trace =
      Call.EP_SetTokenTimeout w.currentSlotId_ (1000 * timeoutSeconds) :: w.trace ∧
    passesOn (PKCS11Library.setTokenTimeout v timeoutSeconds w).1
      (v (Call.EP_SetTokenTimeout w.currentSlotId_ (1000 * timeoutSeconds) :: w.trace)).rv := by
  have hm : timeoutSeconds * 1000 % CK_ULONG_RANGE = 1000 * timeoutSeconds := by
    rw [Nat.mul_comm, Nat.mod_eq_of_lt hs]
  unfold PKCS11Library.setTokenTimeout PKCS11Library.viaAux
  rw [hm]
  simp only [ho, ha, hf, Bool.not_true, Bool.false_eq_true, if_false, call]
  split <;> simp_all [passesOn, Result.Error, Result.Ok, Result.isError]

/-- C20 (amended) at a concrete input: a timeout of 30 seconds is passed as 30000
milliseconds. -/
theorem setTokenTimeout_milliseconds_witness :
    openedAuxState.sessionOpen_ = true ∧ 1000 * 30 < CK_ULONG_RANGE ∧
    (PKCS11Library.setTokenTimeout vendorAux 30 openedAuxState).2.trace =
      Call.EP_SetTokenTimeout 1 30000 :: openedAuxState.trace :=
  ⟨rfl, by decide,
    (setTokenTimeout_milliseconds vendorAux openedAuxState 30 auxAll rfl rfl rfl
      (by decide)).1⟩

/-! ## Lemmas: results whose flag and status agree -/

theorem convertPKCS11Error_ne_OK {rv : CK_RV} (h : rv ≠ CKR_OK) :
    convertPKCS11Error rv ≠ Status.OK := by
  unfold convertPKCS11Error
  rw [if_neg h]
  repeat' split
  all_goals exact fun hc => Status.noConfusion hc

theorem Result.consistent_Ok {α : Type} (x : α) : (Result.Ok x).consistent := by
  simp [Result.consistent, Result.Ok, Result.isOk]

theorem Result.consistent_Error {α : Type} [Inhabited α] (c : Status) (m : String) (e : Nat)
    (hc : c ≠ Status.OK) : (Result.Error c m e : Result α).consistent := by
  simp [Result.consistent, Result.Error, Result.isOk, hc]

theorem Result.consistent_convert {α : Type} [Inhabited α] (rv : CK_RV) (m : String)
    (e : Nat) (h : (rv != CKR_OK) = true) :
    (Result.Error (convertPKCS11Error rv) m e : Result α).consistent :=
  Result.consistent_Error _ m e (convertPKCS11Error_ne_OK (by simpa using h))

theorem consistent_getAttributeBytes {v : Vendor} {w w' : PKCS11Library}
    {o : CK_OBJECT_HANDLE} {t : CK_ATTRIBUTE_TYPE} {r : Result (List CK_BYTE)}
    (h : PKCS11Library.getAttributeBytes v o t w = some (r, w')) : r.consistent := by
  unfold PKCS11Library.getAttributeBytes at h
  repeat' split at h
  all_goals simp only [Option.some.injEq, Prod.mk.injEq, reduceCtorEq] at h
  all_goals obtain ⟨rfl, -⟩ := h
  all_goals first
    | exact Result.consistent_Ok _
    | exact Result.consistent_convert _ _ _ (by assumption)

theorem consistent_getSlotList {v : Vendor} {w w' : PKCS11Library} {tp : Bool}
    {r : Result (List CK_SLOT_ID)}
    (h : PKCS11Library.getSlotList v tp w = some (r, w')) : r.consistent := by
  unfold PKCS11Library.getSlotList at h
  try simp only at h
  repeat' split at h
  all_goals simp only [Option.some.injEq, Prod.mk.injEq, reduceCtorEq] at h
  all_goals obtain ⟨rfl, -⟩ := h
  all_goals first
    | exact Result.consistent_Ok _
    | exact Result.consistent_convert _ _ _ (by assumption)
    | exact Result.consistent_Error _ _ _ (by decide)

theorem consistent_getSlotInfo {v : Vendor} {w w' : PKCS11Library} {s : CK_SLOT_ID}
    {r : Result Reply}
    (h : PKCS11Library.getSlotInfo v s w = some (r, w')) : r.consistent := by
  unfold PKCS11Library.getSlotInfo at h
  try simp only at h
  repeat' split at h
  all_goals simp only [Option.some.injEq, Prod.mk.injEq, reduceCtorEq] at h
  all_goals obtain ⟨rfl, -⟩ := h
  all_goals first
    | exact Result.consistent_Ok _
    | exact Result.consistent_convert _ _ _ (by assumption)
    | exact Result.consistent_Error _ _ _ (by decide)

theorem consistent_getTokenInfo {v : Vendor} {w w' : PKCS11Library} {s : CK_SLOT_ID}
    {r : Result Reply}
    (h : PKCS11Library.getTokenInfo v s w = some (r, w')) : r.consistent := by
  unfold PKCS11Library.getTokenInfo at h
  try simp only at h
  repeat' split at h
  all_goals simp only [Option.some.injEq, Prod.mk.injEq, reduceCtorEq] at h
  all_goals obtain ⟨rfl, -⟩ := h
  all_goals first
    | exact Result.consistent_Ok _
    | exact Result.consistent_convert _ _ _ (by assumption)
    | exact Result.consistent_Error _ _ _ (by decide)

theorem consistent_openSession {v : Vendor} {w w' : PKCS11Library} {s : CK_SLOT_ID} {rw : Bool}
    {r : Result Unit}
    (h : PKCS11Library.openSession v s rw w = some (r, w')) : r.consistent := by
  unfold PKCS11Library.openSession at h
  try simp only at h
  repeat' split at h
  all_goals simp only [Option.some.injEq, Prod.mk.injEq, reduceCtorEq] at h
  all_goals obtain ⟨rfl, -⟩ := h
  all_goals first
    | exact Result.consistent_Ok _
    | exact Result.consistent_convert _ _ _ (by assumption)
    | exact Result.consistent_Error _ _ _ (by decide)

theorem consistent_closeSession {v : Vendor} {w w' : PKCS11Library}
    {r : Result Unit}
    (h : PKCS11Library.closeSession v w = some (r, w')) : r.consistent := by
  unfold PKCS11Library.closeSession at h
  try simp only at h
  repeat' split at h
  all_goals simp only [Option.some.injEq, Prod.mk.injEq, reduceCtorEq] at h
  all_goals obtain ⟨rfl, -⟩ := h
  all_goals first
    | exact Result.consistent_Ok _
    | exact Result.consistent_convert _ _ _ (by assumption)

theorem consistent_login {v : Vendor} {w w' : PKCS11Library} {pin : String} {ut : CK_USER_TYPE}
    {r : Result Unit}
    (h : PKCS11Library.login v pin ut w = some (r, w')) : r.consistent := by
  unfold PKCS11Library.login at h
  try simp only at h
  repeat' split at h
  all_goals simp only [Option.some.injEq, Prod.mk.injEq, reduceCtorEq] at h
  all_goals obtain ⟨rfl, -⟩ := h
  all_goals first
    | exact Result.consistent_Ok _
    | exact Result.consistent_convert _ _ _ (by assumption)
    | exact Result.consistent_Error _ _ _ (by decide)

theorem consistent_logout {v : Vendor} {w w' : PKCS11Library}
    {r : Result Unit}
    (h : PKCS11Library.logout v w = some (r, w')) : r.consistent := by
  unfold PKCS11Library.logout at h
  try simp only at h
  repeat' split at h
  all_goals simp only [Option.some.injEq, Prod.mk.injEq, reduceCtorEq] at h
  all_goals obtain ⟨rfl, -⟩ := h
  all_goals first
    | exact Result.consistent_Ok _
    | exact Result.consistent_convert _ _ _ (by assumption)

theorem consistent_changePin {v : Vendor} {w w' : PKCS11Library} {o n : String}
    {r : Result Unit}
    (h : PKCS11Library.changePin v o n w = some (r, w')) : r.consistent := by
  unfold PKCS11Library.changePin at h
  try simp only at h
  repeat' split at h
  all_goals simp only [Option.some.injEq, Prod.mk.injEq, reduceCtorEq] at h
  all_goals obtain ⟨rfl, -⟩ := h
  all_goals first
    | exact Result.consistent_Ok _
    | exact Result.consistent_convert _ _ _ (by assumption)
    | exact Result.consistent_Error _ _ _ (by decide)

theorem consistent_initPin {v : Vendor} {w w' : PKCS11Library} {p : String}
    {r : Result Unit}
    (h : PKCS11Library.initPin v p w = some (r, w')) : r.consistent := by
  unfold PKCS11Library.initPin at h
  try simp only at h
  repeat' split at h
  all_goals simp only [Option.some.injEq, Prod.mk.injEq, reduceCtorEq] at h
  all_goals obtain ⟨rfl, -⟩ := h
  all_goals first
    | exact Result.consistent_Ok _
    | exact Result.consistent_convert _ _ _ (by assumption)
    | exact Result.consistent_Error _ _ _ (by decide)

theorem consistent_findCertificates {v : Vendor} {w w' : PKCS11Library} {fuel : Nat}
    {r : Result (List CertificateInfo)}
    (h : PKCS11Library.findCertificates v fuel w = some (r, w')) : r.consistent := by
  unfold PKCS11Library.findCertificates at h
  try simp only at h
  repeat' split at h
  all_goals simp only [Option.some.injEq, Prod.mk.injEq, reduceCtorEq] at h
  all_goals obtain ⟨rfl, -⟩ := h
  all_goals first
    | exact Result.consistent_Ok _
    | exact Result.consistent_convert _ _ _ (by assumption)
    | exact Result.consistent_Error _ _ _ (by decide)

theorem consistent_findKeys {v : Vendor} {w w' : PKCS11Library} {fuel : Nat} {kc : CK_OBJECT_CLASS}
    {r : Result (List KeyInfo)}
    (h : PKCS11Library.findKeys v fuel kc w = some (r, w')) : r.consistent := by
  unfold PKCS11Library.findKeys at h
  try simp only at h
  repeat' split at h
  all_goals simp only [Option.some.injEq, Prod.mk.injEq, reduceCtorEq] at h
  all_goals obtain ⟨rfl, -⟩ := h
  all_goals first
    | exact Result.consistent_Ok _
    | exact Result.consistent_convert _ _ _ (by assumption)
    | exact Result.consistent_Error _ _ _ (by decide)

theorem consistent_findDataObjects {v : Vendor} {w w' : PKCS11Library} {fuel : Nat}
    {r : Result (List CK_OBJECT_HANDLE)}
    (h : PKCS11Library.findDataObjects v fuel w = some (r, w')) : r.consistent := by
  unfold PKCS11Library.findDataObjects at h
  try simp only at h
  repeat' split at h
  all_goals simp only [Option.some.injEq, Prod.mk.injEq, reduceCtorEq] at h
  all_goals obtain ⟨rfl, -⟩ := h
  all_goals first
    | exact Result.consistent_Ok _
    | exact Result.consistent_convert _ _ _ (by assumption)
    | exact Result.consistent_Error _ _ _ (by decide)

theorem consistent_generateRSAKeyPair {v : Vendor} {w w' : PKCS11Library} {b : CK_ULONG} {l : List CK_BYTE}
    {r : Result KeyPair}
    (h : PKCS11Library.generateRSAKeyPair v b l w = some (r, w')) : r.consistent := by
  unfold PKCS11Library.generateRSAKeyPair at h
  try simp only at h
  repeat' split at h
  all_goals simp only [Option.some.injEq, Prod.mk.injEq, reduceCtorEq] at h
  all_goals obtain ⟨rfl, -⟩ := h
  all_goals first
    | exact Result.consistent_Ok _
    | exact Result.consistent_convert _ _ _ (by assumption)
    | exact Result.consistent_Error _ _ _ (by decide)

theorem consistent_generateSymmetricKey {v : Vendor} {w w' : PKCS11Library} {a : SymmetricAlgorithm} {n : CK_ULONG} {l : List CK_BYTE}
    {r : Result KeyInfo}
    (h : PKCS11Library.generateSymmetricKey v a n l w = some (r, w')) : r.consistent := by
  unfold PKCS11Library.generateSymmetricKey at h
  try simp only at h
  repeat' split at h
  all_goals simp only [Option.some.injEq, Prod.mk.injEq, reduceCtorEq] at h
  all_goals obtain ⟨rfl, -⟩ := h
  all_goals first
    | exact Result.consistent_Ok _
    | exact Result.consistent_convert _ _ _ (by assumption)
    | exact Result.consistent_Error _ _ _ (by decide)

theorem consistent_verify {v : Vendor} {w w' : PKCS11Library} {k : CK_OBJECT_HANDLE} {d s : List CK_BYTE} {a : HashAlgorithm}
    {r : Result Unit}
    (h : PKCS11Library.verify v k d s a w = some (r, w')) : r.consistent := by
  unfold PKCS11Library.verify at h
  try simp only at h
  repeat' split at h
  all_goals simp only [Option.some.injEq, Prod.mk.injEq, reduceCtorEq] at h
  all_goals obtain ⟨rfl, -⟩ := h
  all_goals first
    | exact Result.consistent_Ok _
    | exact Result.consistent_convert _ _ _ (by assumption)
    | exact Result.consistent_Error _ _ _ (by decide)

theorem consistent_destroyObject {v : Vendor} {w w' : PKCS11Library} {o : CK_OBJECT_HANDLE}
    {r : Result Unit}
    (h : PKCS11Library.destroyObject v o w = some (r, w')) : r.consistent := by
  unfold PKCS11Library.destroyObject at h
  try simp only at h
  repeat' split at h
  all_goals simp only [Option.some.injEq, Prod.mk.injEq, reduceCtorEq] at h
  all_goals obtain ⟨rfl, -⟩ := h
  all_goals first
    | exact Result.consistent_Ok _
    | exact Result.consistent_convert _ _ _ (by assumption)
    | exact Result.consistent_Error _ _ _ (by decide)

theorem consistent_twoPass {v : Vendor} {w w' : PKCS11Library} {init : Call} {op : Option Nat → Call} {m1 m2 m3 : String}
    {r : Result (List CK_BYTE)}
    (h : PKCS11Library.twoPass v w init op m1 m2 m3 = some (r, w')) : r.consistent := by
  unfold PKCS11Library.twoPass at h
  try simp only at h
  repeat' split at h
  all_goals simp only [Option.some.injEq, Prod.mk.injEq, reduceCtorEq] at h
  all_goals obtain ⟨rfl, -⟩ := h
  all_goals first
    | exact Result.consistent_Ok _
    | exact Result.consistent_convert _ _ _ (by assumption)
    | exact Result.consistent_Error _ _ _ (by decide)

theorem consistent_finalize {v : Vendor} {w w' : PKCS11Library}
    {r : Result Unit}
    (h : PKCS11Library.finalize v w = some (r, w')) : r.consistent := by
  unfold PKCS11Library.finalize at h
  try simp only at h
  repeat' split at h
  all_goals simp only [Option.some.injEq, Prod.mk.injEq, reduceCtorEq] at h
  all_goals obtain ⟨rfl, -⟩ := h
  all_goals first
    | exact Result.consistent_Ok _

theorem consistent_loadLibrary (v : Vendor) (path : String) (w : PKCS11Library) :
    (PKCS11Library.loadLibrary v path w).1.consistent := by
  unfold PKCS11Library.loadLibrary
  simp only
  repeat' split
  all_goals first
    | exact Result.consistent_Ok _
    | exact Result.consistent_Error _ _ _ (by decide)

theorem consistent_initialize {v : Vendor} {w w' : PKCS11Library} {p : String}
    {r : Result Unit}
    (h : PKCS11Library.initialize v p w = some (r, w')) : r.consistent := by
  cases hn : w.initialized_
  · unfold PKCS11Library.initialize at h
    simp only [hn, Bool.false_eq_true, if_false] at h
    have hc := consistent_loadLibrary v
      (if p.isEmpty = true then "libshuttle_p11v220.so.1.0.0" else p) w
    generalize PKCS11Library.loadLibrary v
      (if p.isEmpty = true then "libshuttle_p11v220.so.1.0.0" else p) w = res at h hc
    obtain ⟨r1, w1⟩ := res
    simp only at h hc
    split at h
    · simp only [Option.some.injEq, Prod.mk.injEq] at h
      rw [← h.1]; exact hc
    · repeat' split at h
      all_goals simp only [Option.some.injEq, Prod.mk.injEq, reduceCtorEq] at h
      all_goals obtain ⟨rfl, -⟩ := h
      all_goals first
        | exact Result.consistent_Ok _
        | exact Result.consistent_Error _ _ _ (by decide)
  · simp only [ PKCS11Library.initialize, hn, if_true, Option.some.injEq, Prod.mk.injEq] at h
    rw [← h.1]; exact Result.consistent_Ok _

theorem consistent_viaAux {α : Type} [Inhabited α] (v : Vendor) (w : PKCS11Library)
    (entry : AUX_FUNC_LIST → Bool) (missing failed : String) (c : Call) (ok : Reply → α) :
    (PKCS11Library.viaAux v w entry missing failed c ok).1.consistent := by
  unfold PKCS11Library.viaAux
  split
  · split
    · exact Result.consistent_Error _ _ _ (by decide)
    · simp only
      split
      · exact Result.consistent_convert _ _ _ (by assumption)
      · exact Result.consistent_Ok _
  · exact Result.consistent_Error _ _ _ (by decide)

theorem consistent_exportCertificateToFile {v : Vendor} {w w' : PKCS11Library}
    {c : CK_OBJECT_HANDLE} {f : String} {r : Result Unit}
    (h : PKCS11Library.exportCertificateToFile v c f w = some (r, w')) : r.consistent := by
  unfold PKCS11Library.exportCertificateToFile PKCS11Library.exportCertificate at h
  split at h
  · cases h
  · rename_i certData w1 h1
    have hc := consistent_getAttributeBytes h1
    split at h
    · rename_i hnok
      simp only [Option.some.injEq, Prod.mk.injEq] at h
      rw [← h.1]
      refine Result.consistent_Error _ _ _ ?_
      intro he
      rw [hc.mpr he] at hnok
      cases hnok
    · simp only at h
      repeat' split at h
      all_goals simp only [Option.some.injEq, Prod.mk.injEq, reduceCtorEq] at h
      all_goals obtain ⟨rfl, -⟩ := h
      all_goals first
        | exact Result.consistent_Ok _
        | exact Result.consistent_Error _ _ _ (by decide)

/-- C18. For every vendor, state, public operation and argument: when the operation
has an outcome, the result it returns satisfies `isOk()` if and only if its
`errorCode` is `Status::OK`. -/
theorem result_flag_matches_status (v : Vendor) (fuel : Nat) (op : Op) (w : PKCS11Library)
    (ok : Bool) (code : Status) (h : opResult v fuel op w = some (ok, code)) :
    ok = true ↔ code = Status.OK := by
  have key : ∀ {α σ : Type} {x : Option (Result α × σ)},
      x.map (fun y => (y.1.isOk, y.1.errorCode)) = some (ok, code) →
      (∀ r s, x = some (r, s) → r.consistent) → (ok = true ↔ code = Status.OK) := by
    intro α σ x hx hcons
    cases x with
    | none => cases hx
    | some y =>
      obtain ⟨r, s⟩ := y
      simp only [Option.map_some', Option.some.injEq, Prod.mk.injEq] at hx
      rw [← hx.1, ← hx.2]
      exact hcons r s rfl
  have key2 : ∀ {α : Type} (r : Result α), some (r.isOk, r.errorCode) = some (ok, code) →
      r.consistent → (ok = true ↔ code = Status.OK) := by
    intro α r hx hcons
    simp only [Option.some.injEq, Prod.mk.injEq] at hx
    rw [← hx.1, ← hx.2]
    exact hcons
  cases op <;> dsimp only [opResult] at h
  case initialize_ p => exact key h fun _ _ e => consistent_initialize e
  case finalize => exact key h fun _ _ e => consistent_finalize e
  case getSlotList tp => exact key h fun _ _ e => consistent_getSlotList e
  case getSlotInfo s => exact key h fun _ _ e => consistent_getSlotInfo e
  case getTokenInfo s => exact key h fun _ _ e => consistent_getTokenInfo e
  case openSession s rw => exact key h fun _ _ e => consistent_openSession e
  case closeSession => exact key h fun _ _ e => consistent_closeSession e
  case login pin ut => exact key h fun _ _ e => consistent_login e
  case logout => exact key h fun _ _ e => consistent_logout e
  case getPinInfo => exact key2 _ h (consistent_viaAux _ _ _ _ _ _ _)
  case changePin o n => exact key h fun _ _ e => consistent_changePin e
  case initPin p => exact key h fun _ _ e => consistent_initPin e
  case setTokenLabel l => exact key2 _ h (consistent_viaAux _ _ _ _ _ _ _)
  case setTokenTimeout s => exact key2 _ h (consistent_viaAux _ _ _ _ _ _ _)
  case getTokenTimeout => exact key2 _ h (consistent_viaAux _ _ _ _ _ _ _)
  case blankToken p => exact key2 _ h (consistent_viaAux _ _ _ _ _ _ _)
  case findCertificates => exact key h fun _ _ e => consistent_findCertificates e
  case findKeys c => exact key h fun _ _ e => consistent_findKeys e
  case findDataObjects => exact key h fun _ _ e => consistent_findDataObjects e
  case exportCertificate c => exact key h fun _ _ e => consistent_getAttributeBytes e
  case exportCertificateToFile c f =>
    exact key h fun _ _ e => consistent_exportCertificateToFile e
  case generateRSAKeyPair b l => exact key h fun _ _ e => consistent_generateRSAKeyPair e
  case generateSymmetricKey a n l =>
    exact key h fun _ _ e => consistent_generateSymmetricKey e
  case sign k d a => exact key h fun _ _ e => consistent_twoPass e
  case verify k d s a => exact key h fun _ _ e => consistent_verify e
  case encrypt k d a m iv => exact key h fun _ _ e => consistent_twoPass e
  case decrypt k d a m iv => exact key h fun _ _ e => consistent_twoPass e
  case encryptRSA k d => exact key h fun _ _ e => consistent_twoPass e
  case decryptRSA k d => exact key h fun _ _ e => consistent_twoPass e
  case destroyObject o => exact key h fun _ _ e => consistent_destroyObject e
  case getObjectAttribute o t => exact key h fun _ _ e => consistent_getAttributeBytes e
  case waitForSlotEvent b => exact key2 _ h (consistent_viaAux _ _ _ _ _ _ _)

/-- C18 at a concrete input: `login("1234")` with a session open, `C_Login` answering
`CKR_PIN_LOCKED`. -/
theorem result_flag_matches_status_witness :
    opResult (vendorLogin CKR_PIN_LOCKED) 0 (Op.login "1234" CKU_USER) openedState =
      some (false, Status.ERROR_PIN_LOCKED) ∧
    (false = true ↔ Status.ERROR_PIN_LOCKED = Status.OK) :=
  ⟨by decide,
    result_flag_matches_status (vendorLogin CKR_PIN_LOCKED) 0 (Op.login "1234" CKU_USER)
      openedState false Status.ERROR_PIN_LOCKED (by decide)⟩

/-! ## Lemmas: operations that test a flag never call through a null table -/

theorem step_of_null_table (v : Vendor) (fuel : Nat) (op : Op) (w : PKCS11Library)
    (hc : op.checksFlag = true) (hinit : w.initialized_ = false)
    (hso : w.sessionOpen_ = false) (hlg : w.loggedIn_ = false) :
    step v fuel op w = some w := by
  cases op
  case initialize_ p => exact absurd hc (by simp [Op.checksFlag])
  case exportCertificate c => exact absurd hc (by simp [Op.checksFlag])
  case exportCertificateToFile c f => exact absurd hc (by simp [Op.checksFlag])
  case getObjectAttribute o t => exact absurd hc (by simp [Op.checksFlag])
  all_goals
    simp [step, PKCS11Library.finalize, PKCS11Library.getSlotList,
        PKCS11Library.getSlotInfo, PKCS11Library.getTokenInfo, PKCS11Library.openSession,
        PKCS11Library.closeSession, PKCS11Library.login, PKCS11Library.logout,
        PKCS11Library.getPinInfo, PKCS11Library.changePin, PKCS11Library.initPin,
        PKCS11Library.setTokenLabel, PKCS11Library.setTokenTimeout,
        PKCS11Library.getTokenTimeout, PKCS11Library.blankToken,
        PKCS11Library.findCertificates, PKCS11Library.findKeys,
        PKCS11Library.findDataObjects, PKCS11Library.generateRSAKeyPair,
        PKCS11Library.generateSymmetricKey, PKCS11Library.sign, PKCS11Library.verify,
        PKCS11Library.encrypt, PKCS11Library.decrypt, PKCS11Library.encryptRSA,
        PKCS11Library.decryptRSA, PKCS11Library.destroyObject,
        PKCS11Library.waitForSlotEvent, PKCS11Library.twoPass, PKCS11Library.viaAux,
        hinit, hso, hlg]

theorem twoPass_isSome (v : Vendor) (w : PKCS11Library) (init : Call)
    (op : Option Nat → Call) (m1 m2 m3 : String) (hf : w.functionList_ = true) :
    (PKCS11Library.twoPass v w init op m1 m2 m3).isSome = true := by
  unfold PKCS11Library.twoPass
  simp only [viaFunctionList, call, hf, if_true]
  repeat' split
  all_goals rfl

theorem step_isSome_of_table (v : Vendor) (fuel : Nat) (op : Op) (w : PKCS11Library)
    (hi : Inv v w) (hc : op.checksFlag = true) (he : op.isEnumeration = false)
    (hf : w.functionList_ = true) : (step v fuel op w).isSome = true := by
  have simple : ∀ {α : Type} (x : Option (Result α × PKCS11Library)),
      x.isSome = true → (x.map Prod.snd).isSome = true := by
    intro α x hx
    cases x with
    | none => cases hx
    | some y => rfl
  cases op
  case initialize_ p => exact absurd hc (by simp [Op.checksFlag])
  case exportCertificate c => exact absurd hc (by simp [Op.checksFlag])
  case exportCertificateToFile c f => exact absurd hc (by simp [Op.checksFlag])
  case getObjectAttribute o t => exact absurd hc (by simp [Op.checksFlag])
  case findCertificates => exact absurd he (by simp [Op.isEnumeration])
  case findKeys c => exact absurd he (by simp [Op.isEnumeration])
  case findDataObjects => exact absurd he (by simp [Op.isEnumeration])
  case getPinInfo => rfl
  case setTokenLabel l => rfl
  case setTokenTimeout s => rfl
  case getTokenTimeout => rfl
  case blankToken p => rfl
  case waitForSlotEvent b => rfl
  case closeSession => simp only [step, closeSession_snd v w hf, Option.isSome_some]
  case logout => simp only [step, logout_snd v w hf, Option.isSome_some]
  case openSession s rw =>
    obtain ⟨r, w1, h⟩ := openSession_total v w hi s rw
    simp only [step, h, Option.map_some', Option.isSome_some]
  case finalize =>
    simp only [step]
    apply simple
    unfold PKCS11Library.finalize
    rw [closeSession_snd v w hf]
    cases w.initialized_ <;> cases w.sessionOpen_ <;> rfl
  case sign k d a => exact simple _ (twoPass_isSome _ _ _ _ _ _ _ hf)
  case encrypt k d a m iv => exact simple _ (twoPass_isSome _ _ _ _ _ _ _ hf)
  case decrypt k d a m iv => exact simple _ (twoPass_isSome _ _ _ _ _ _ _ hf)
  case encryptRSA k d => exact simple _ (twoPass_isSome _ _ _ _ _ _ _ hf)
  case decryptRSA k d => exact simple _ (twoPass_isSome _ _ _ _ _ _ _ hf)
  all_goals
    simp only [step]
    apply simple
    simp only [PKCS11Library.getSlotList, PKCS11Library.getSlotInfo,
      PKCS11Library.getTokenInfo, PKCS11Library.login, PKCS11Library.changePin,
      PKCS11Library.initPin, PKCS11Library.generateRSAKeyPair,
      PKCS11Library.generateSymmetricKey, PKCS11Library.verify,
      PKCS11Library.destroyObject, viaFunctionList, call, hf, if_true]
    repeat' split
    all_goals rfl

/-! ## Lemmas: the enumerations end, and never call through a null table -/

theorem findObjectsSinceInit_le_length : ∀ t : List Call, findObjectsSinceInit t ≤ t.length
  | [] => Nat.le_refl 0
  | c :: t => by
    have ih := findObjectsSinceInit_le_length t
    cases c <;> simp only [findObjectsSinceInit, List.length_cons] <;> omega

theorem endsWithin_cutOff (v : Vendor) (k : Nat) : endsWithin (cutOff v k) k := by
  intro s m t hk
  have hl := findObjectsSinceInit_le_length t
  right
  have hlen : k ≤ (Call.C_FindObjects s m :: t).length := by
    simp only [List.length_cons]; omega
  simp only [cutOff, hlen, if_true]

theorem cutOff_eq (v : Vendor) (k : Nat) (t : List Call) (h : t.length < k) :
    cutOff v k t = v t := by
  unfold cutOff
  split
  · rw [if_neg (by omega)]
  · rfl

theorem getAttribute_total (v : Vendor) (size : Nat) (handle : CK_OBJECT_HANDLE)
    (type : CK_ATTRIBUTE_TYPE) (w : PKCS11Library) (hf : w.functionList_ = true) :
    ∃ r w', PKCS11Library.getAttribute v size handle type w = some (r, w') ∧
      w'.functionList_ = true ∧
      findObjectsSinceInit w'.trace = findObjectsSinceInit w.trace := by
  unfold PKCS11Library.getAttribute
  simp only [viaFunctionList, call, hf, if_true]
  split <;> exact ⟨_, _, rfl, rfl, by simp [findObjectsSinceInit]⟩

theorem getAttributeBytes_total (v : Vendor) (handle : CK_OBJECT_HANDLE)
    (type : CK_ATTRIBUTE_TYPE) (w : PKCS11Library) (hf : w.functionList_ = true) :
    ∃ r w', PKCS11Library.getAttributeBytes v handle type w = some (r, w') ∧
      w'.functionList_ = true ∧
      findObjectsSinceInit w'.trace = findObjectsSinceInit w.trace := by
  unfold PKCS11Library.getAttributeBytes
  simp only [viaFunctionList, call, hf, if_true]
  repeat' split
  all_goals exact ⟨_, _, rfl, rfl, by simp [findObjectsSinceInit]⟩

theorem readFlag_total (v : Vendor) (handle : CK_OBJECT_HANDLE)
    (type : CK_ATTRIBUTE_TYPE) (w : PKCS11Library) (hf : w.functionList_ = true) :
    ∃ r w', PKCS11Library.readFlag v handle type w = some (r, w') ∧
      w'.functionList_ = true ∧
      findObjectsSinceInit w'.trace = findObjectsSinceInit w.trace := by
  obtain ⟨r, w1, h, hf1, hk1⟩ := getAttribute_total v sizeof_CK_BBOOL handle type w hf
  exact ⟨_, w1, by simp only [PKCS11Library.readFlag, h]; rfl, hf1, hk1⟩

theorem readCertificate_total (v : Vendor) (handle : CK_OBJECT_HANDLE) (w : PKCS11Library)
    (hf : w.functionList_ = true) :
    ∃ r w', PKCS11Library.readCertificate v handle w = some (r, w') ∧
      w'.functionList_ = true ∧
      findObjectsSinceInit w'.trace = findObjectsSinceInit w.trace := by
  obtain ⟨r1, w1, h1, hf1, hk1⟩ := getAttributeBytes_total v handle CKA_LABEL w hf
  obtain ⟨r2, w2, h2, hf2, hk2⟩ := getAttributeBytes_total v handle CKA_SUBJECT w1 hf1
  obtain ⟨r3, w3, h3, hf3, hk3⟩ := getAttributeBytes_total v handle CKA_ID w2 hf2
  obtain ⟨r4, w4, h4, hf4, hk4⟩ := getAttributeBytes_total v handle CKA_VALUE w3 hf3
  obtain ⟨r5, w5, h5, hf5, hk5⟩ :=
    getAttribute_total v sizeof_CK_ULONG handle CKA_CERTIFICATE_TYPE w4 hf4
  exact ⟨_, w5, by simp only [PKCS11Library.readCertificate, h1, h2, h3, h4, h5]; rfl, hf5,
    by omega⟩

theorem readKey_total (v : Vendor) (keyClass : CK_OBJECT_CLASS) (handle : CK_OBJECT_HANDLE)
    (w : PKCS11Library) (hf : w.functionList_ = true) :
    ∃ r w', PKCS11Library.readKey v keyClass handle w = some (r, w') ∧
      w'.functionList_ = true ∧
      findObjectsSinceInit w'.trace = findObjectsSinceInit w.trace := by
  obtain ⟨r1, w1, h1, hf1, hk1⟩ := getAttributeBytes_total v handle CKA_LABEL w hf
  obtain ⟨r2, w2, h2, hf2, hk2⟩ :=
    getAttribute_total v sizeof_CK_ULONG handle CKA_KEY_TYPE w1 hf1
  obtain ⟨r3, w3, h3, hf3, hk3⟩ := getAttributeBytes_total v handle CKA_ID w2 hf2
  obtain ⟨r4, w4, h4, hf4, hk4⟩ := readFlag_total v handle CKA_ENCRYPT w3 hf3
  obtain ⟨r5, w5, h5, hf5, hk5⟩ := readFlag_total v handle CKA_DECRYPT w4 hf4
  obtain ⟨r6, w6, h6, hf6, hk6⟩ := readFlag_total v handle CKA_SIGN w5 hf5
  obtain ⟨r7, w7, h7, hf7, hk7⟩ := readFlag_total v handle CKA_VERIFY w6 hf6
  obtain ⟨r8, w8, h8, hf8, hk8⟩ := readFlag_total v handle CKA_WRAP w7 hf7
  obtain ⟨r9, w9, h9, hf9, hk9⟩ := readFlag_total v handle CKA_UNWRAP w8 hf8
  obtain ⟨r10, w10, h10, hf10, hk10⟩ := readFlag_total v handle CKA_DERIVE w9 hf9
  obtain ⟨r11, w11, h11, hf11, hk11⟩ := readFlag_total v handle CKA_SENSITIVE w10 hf10
  obtain ⟨r12, w12, h12, hf12, hk12⟩ := readFlag_total v handle CKA_EXTRACTABLE w11 hf11
  exact ⟨_, w12, by simp only [PKCS11Library.readKey, h1, h2, h3, h4, h5, h6, h7, h8, h9,
    h10, h11, h12]; rfl, hf12, by omega⟩

theorem viaFunctionList_of_table (v : Vendor) (w : PKCS11Library) (c : Call)
    (hf : w.functionList_ = true) :
    viaFunctionList v w c = some (v (c :: w.trace), { w with trace := c :: w.trace }) := by
  simp only [viaFunctionList, call, hf, if_true]

theorem findDataObjectsLoop_total (v : Vendor) (n : Nat) (he : endsWithin v n) :
    ∀ (fuel : Nat) (w : PKCS11Library) (objects : List CK_OBJECT_HANDLE),
      w.functionList_ = true → n - findObjectsSinceInit w.trace < fuel →
      ∃ r w', PKCS11Library.findDataObjectsLoop v fuel w objects = some (r, w') ∧
        w'.functionList_ = true
  | 0, _, _, _, hlt => absurd hlt (Nat.not_lt_zero _)
  | fuel + 1, w, objects, hf, hlt => by
    unfold PKCS11Library.findDataObjectsLoop
    rw [viaFunctionList_of_table v w _ hf]
    simp only
    split
    · exact ⟨_, _, rfl, hf⟩
    · rename_i hc
      have hk : ¬ n ≤ findObjectsSinceInit w.trace := by
        intro hn
        rcases he w.session_ 1 w.trace hn with h1 | h1 <;> simp [h1] at hc
      exact findDataObjectsLoop_total v n he fuel _ _ hf
        (by simp only [findObjectsSinceInit]; omega)

theorem findCertificatesLoop_total (v : Vendor) (n : Nat) (he : endsWithin v n) :
    ∀ (fuel : Nat) (w : PKCS11Library) (certificates : List CertificateInfo),
      w.functionList_ = true → n - findObjectsSinceInit w.trace < fuel →
      ∃ r w', PKCS11Library.findCertificatesLoop v fuel w certificates = some (r, w') ∧
        w'.functionList_ = true
  | 0, _, _, _, hlt => absurd hlt (Nat.not_lt_zero _)
  | fuel + 1, w, certificates, hf, hlt => by
    unfold PKCS11Library.findCertificatesLoop
    rw [viaFunctionList_of_table v w _ hf]
    simp only
    split
    · exact ⟨_, _, rfl, hf⟩
    · rename_i hc
      have hk : ¬ n ≤ findObjectsSinceInit w.trace := by
        intro hn
        rcases he w.session_ 1 w.trace hn with h1 | h1 <;> simp [h1] at hc
      obtain ⟨cert, w2, h2, hf2, hk2⟩ := readCertificate_total v
        (v (Call.C_FindObjects w.session_ 1 :: w.trace)).handle
        { w with trace := Call.C_FindObjects w.session_ 1 :: w.trace } hf
      simp only [h2]
      exact findCertificatesLoop_total v n he fuel _ _ hf2
        (by rw [hk2]; simp only [findObjectsSinceInit]; omega)

theorem findKeysLoop_total (v : Vendor) (keyClass : CK_OBJECT_CLASS) (n : Nat)
    (he : endsWithin v n) :
    ∀ (fuel : Nat) (w : PKCS11Library) (keys : List KeyInfo),
      w.functionList_ = true → n - findObjectsSinceInit w.trace < fuel →
      ∃ r w', PKCS11Library.findKeysLoop v keyClass fuel w keys = some (r, w') ∧
        w'.functionList_ = true
  | 0, _, _, _, hlt => absurd hlt (Nat.not_lt_zero _)
  | fuel + 1, w, keys, hf, hlt => by
    unfold PKCS11Library.findKeysLoop
    rw [viaFunctionList_of_table v w _ hf]
    simp only
    split
    · exact ⟨_, _, rfl, hf⟩
    · rename_i hc
      have hk : ¬ n ≤ findObjectsSinceInit w.trace := by
        intro hn
        rcases he w.session_ 1 w.trace hn with h1 | h1 <;> simp [h1] at hc
      obtain ⟨key, w2, h2, hf2, hk2⟩ := readKey_total v keyClass
        (v (Call.C_FindObjects w.session_ 1 :: w.trace)).handle
        { w with trace := Call.C_FindObjects w.session_ 1 :: w.trace } hf
      simp only [h2]
      exact findKeysLoop_total v keyClass n he fuel _ _ hf2
        (by rw [hk2]; simp only [findObjectsSinceInit]; omega)

/-- An enumeration against a vendor that ends it within `n` objects has an outcome
for every `fuel` above `n`, in a state where an open session implies a non-null
table. -/
theorem step_isSome_of_endsWithin (v : Vendor) (n fuel : Nat) (op : Op) (w : PKCS11Library)
    (hf : w.sessionOpen_ = true → w.functionList_ = true) (ho : op.isEnumeration = true)
    (he : endsWithin v n) (hlt : n < fuel) : (step v fuel op w).isSome = true := by
  have fin : ∀ (α : Type) (x : α) (w2 : PKCS11Library), w2.functionList_ = true →
      ((match viaFunctionList v w2 (Call.C_FindObjectsFinal w2.session_) with
        | none => none
        | some (_, w3) => some (Result.Ok x, w3)).map Prod.snd).isSome = true := by
    intro α x w2 h2
    rw [viaFunctionList_of_table v w2 _ h2]
    rfl
  cases op
  case findCertificates =>
    cases hso : w.sessionOpen_
    · simp [step, PKCS11Library.findCertificates, hso]
    · have hfl := hf hso
      simp only [step, PKCS11Library.findCertificates, hso, Bool.not_true,
        Bool.false_eq_true, if_false]
      rw [viaFunctionList_of_table v w _ hfl]
      simp only
      split
      · rfl
      · obtain ⟨r, w2, h2, hf2⟩ := findCertificatesLoop_total v n he fuel
          { w with trace := (Call.C_FindObjectsInit w.session_
            [(CKA_CLASS, AttrValue.ulong CKO_CERTIFICATE),
              (CKA_TOKEN, AttrValue.bool true)]) :: w.trace } [] hfl
          (by simp only [findObjectsSinceInit]; omega)
        simp only [h2]
        exact fin _ r w2 hf2
  case findKeys c =>
    cases hso : w.sessionOpen_
    · simp [step, PKCS11Library.findKeys, hso]
    · have hfl := hf hso
      simp only [step, PKCS11Library.findKeys, hso, Bool.not_true,
        Bool.false_eq_true, if_false]
      rw [viaFunctionList_of_table v w _ hfl]
      simp only
      split
      · rfl
      · obtain ⟨r, w2, h2, hf2⟩ := findKeysLoop_total v c n he fuel
          { w with trace := (Call.C_FindObjectsInit w.session_
            [(CKA_CLASS, AttrValue.ulong c), (CKA_TOKEN, AttrValue.bool true)]) :: w.trace }
          [] hfl (by simp only [findObjectsSinceInit]; omega)
        simp only [h2]
        exact fin _ r w2 hf2
  case findDataObjects =>
    cases hso : w.sessionOpen_
    · simp [step, PKCS11Library.findDataObjects, hso]
    · have hfl := hf hso
      simp only [step, PKCS11Library.findDataObjects, hso, Bool.not_true,
        Bool.false_eq_true, if_false]
      rw [viaFunctionList_of_table v w _ hfl]
      simp only
      split
      · rfl
      · obtain ⟨r, w2, h2, hf2⟩ := findDataObjectsLoop_total v n he fuel
          { w with trace := (Call.C_FindObjectsInit w.session_
            [(CKA_CLASS, AttrValue.ulong CKO_DATA), (CKA_TOKEN, AttrValue.bool true)]) ::
              w.trace } [] hfl (by simp only [findObjectsSinceInit]; omega)
        simp only [h2]
        exact fin _ r w2 hf2
  all_goals exact absurd ho (by simp [Op.isEnumeration])

/-! ## Claims on the reachable states -/

/-- C14. In every state reachable from a freshly constructed `PKCS11Library` by any
sequence of public operations, against any vendor: `loggedIn_` implies
`sessionOpen_`, `sessionOpen_` implies `initialized_`, and `initialized_` implies
that `functionList_` and `libraryHandle_` are non-null. Hence an operation that tests
a flag before its first vendor call either finds the function table non-null or
returns at its test, with no call and no change, and it never calls through a null
table: every such operation other than an enumeration has an outcome; an enumeration
has an outcome for every `fuel` above `n` when the vendor ends it within `n` objects;
and against any vendor cut off at its `k`-th call, which answers as the vendor on
every history shorter than `k`, an enumeration has an outcome, so that the calls of
an enumeration against any vendor, up to any number, are none of them through a null
table. -/
theorem reachable_flags_nested (v : Vendor) (w : PKCS11Library) (hr : Reachable v w) :
    (w.loggedIn_ = true → w.sessionOpen_ = true) ∧
    (w.sessionOpen_ = true → w.initialized_ = true) ∧
    (w.initialized_ = true → w.functionList_ = true ∧ w.libraryHandle_ = true) ∧
    (∀ (fuel : Nat) (op : Op), op.checksFlag = true →
      w.functionList_ = true ∨ step v fuel op w = some w) ∧
    (∀ (fuel : Nat) (op : Op), op.checksFlag = true → op.isEnumeration = false →
      (step v fuel op w).isSome = true) ∧
    (∀ (n fuel : Nat) (op : Op), op.isEnumeration = true → endsWithin v n → n < fuel →
      (step v fuel op w).isSome = true) ∧
    (∀ (k : Nat) (op : Op), op.isEnumeration = true →
      (∀ t : List Call, t.length < k → cutOff v k t = v t) ∧
      (step (cutOff v k) (k + 1) op w).isSome = true) := by
  have hi := inv_reachable hr
  have key : w.functionList_ = true ∨
      (w.initialized_ = false ∧ w.sessionOpen_ = false ∧ w.loggedIn_ = false) := by
    cases hn : w.initialized_
    · right
      have hso : w.sessionOpen_ = false := by
        cases ho : w.sessionOpen_
        · rfl
        · rw [hi.opened ho] at hn
          cases hn
      have hlg : w.loggedIn_ = false := by
        cases hl : w.loggedIn_
        · rfl
        · rw [hi.logged hl] at hso
          cases hso
      exact ⟨rfl, hso, hlg⟩
    · exact Or.inl (hi.loaded hn).1
  have hopen : w.sessionOpen_ = true → w.functionList_ = true :=
    fun ho => (hi.loaded (hi.opened ho)).1
  refine ⟨hi.logged, hi.opened, hi.loaded, ?_, ?_, ?_, ?_⟩
  · intro fuel op hc
    rcases key with hf | ⟨h1, h2, h3⟩
    · exact Or.inl hf
    · exact Or.inr (step_of_null_table v fuel op w hc h1 h2 h3)
  · intro fuel op hc he
    rcases key with hf | ⟨h1, h2, h3⟩
    · exact step_isSome_of_table v fuel op w hi hc he hf
    · rw [step_of_null_table v fuel op w hc h1 h2 h3]
      rfl
  · intro n fuel op ho he hlt
    exact step_isSome_of_endsWithin v n fuel op w hopen ho he hlt
  · intro k op ho
    exact ⟨fun t ht => cutOff_eq v k t ht,
      step_isSome_of_endsWithin (cutOff v k) k (k + 1) op w hopen ho (endsWithin_cutOff v k)
        (Nat.lt_succ_self k)⟩

/-- C14 at a concrete input: the state after `initialize` and `openSession(1)` against
a vendor that reports two objects to an enumeration is reachable, its tables are
non-null, `login` on it has an outcome, and so has `findCertificates` with a `fuel`
of three; `findDataObjects` returns the two handles. -/
theorem reachable_flags_nested_witness :
    Reachable (vendorObjects 2) openedState ∧
    (openedState.initialized_ = true →
      openedState.functionList_ = true ∧ openedState.libraryHandle_ = true) ∧
    (step (vendorObjects 2) 0 (Op.login "1234" CKU_USER) openedState).isSome = true ∧
    endsWithin (vendorObjects 2) 2 ∧
    (step (vendorObjects 2) 3 Op.findCertificates openedState).isSome = true ∧
    (PKCS11Library.findDataObjects (vendorObjects 2) 3 openedState).map
        (fun p => (p.1.isOk, p.1.value)) = some (true, [7, 7]) :=
  ⟨⟨0, [Op.initialize_ "", Op.openSession 1 true], by decide⟩,
    (reachable_flags_nested (vendorObjects 2) openedState
      ⟨0, [Op.initialize_ "", Op.openSession 1 true], by decide⟩).2.2.1,
    (reachable_flags_nested (vendorObjects 2) openedState
      ⟨0, [Op.initialize_ "", Op.openSession 1 true], by decide⟩).2.2.2.2.1 0
      (Op.login "1234" CKU_USER) rfl rfl,
    fun _ _ t hk => Or.inr (by
      simp only [vendorObjects]
      rw [if_neg (by omega)]
      rfl),
    (reachable_flags_nested (vendorObjects 2) openedState
      ⟨0, [Op.initialize_ "", Op.openSession 1 true], by decide⟩).2.2.2.2.2.1 2 3
      Op.findCertificates rfl
      (fun _ _ t hk => Or.inr (by
        simp only [vendorObjects]
        rw [if_neg (by omega)]
        rfl))
      (by decide),
    by decide⟩

/-! ## Claims on the token timeout -/

/-- C21. `getTokenTimeout` returns a value exactly when a session is open, the
`GetTokenTimeout` entry of the auxiliary table is set and the vendor answers
`CKR_OK`, and the value is then the vendor's millisecond value divided by 1000,
rounded down. So when the vendor returns from `GetTokenTimeout` the value it
received in `SetTokenTimeout` (its entry is set, it answers `CKR_OK` and writes
that value), then for every `timeoutSeconds` with `1000 × timeoutSeconds` inside the
`CK_ULONG` range, `getTokenTimeout` called in the state a successful
`setTokenTimeout(timeoutSeconds)` left returns `Ok(timeoutSeconds)`. -/
theorem getTokenTimeout_round_trip (v : Vendor) (w : PKCS11Library) :
    ((PKCS11Library.getTokenTimeout v w).1.isOk = true ↔
      w.sessionOpen_ = true ∧
      (∃ aux, w.auxFunctionList_ = some aux ∧ aux.EP_GET_TOKEN_TIMEOUT = true) ∧
      (v (Call.EP_GetTokenTimeout w.currentSlotId_ :: w.trace)).rv = CKR_OK) ∧
    ((PKCS11Library.getTokenTimeout v w).1.isOk = true →
      (PKCS11Library.getTokenTimeout v w).1 =
        Result.Ok ((v (Call.EP_GetTokenTimeout w.currentSlotId_ :: w.trace)).count / 1000)) ∧
    (∀ (timeoutSeconds : CK_ULONG) (aux : AUX_FUNC_LIST),
      1000 * timeoutSeconds < CK_ULONG_RANGE →
      (PKCS11Library.setTokenTimeout v timeoutSeconds w).1.isOk = true →
      w.auxFunctionList_ = some aux → aux.EP_GET_TOKEN_TIMEOUT = true →
      returnsTimeoutReceived v w.trace →
      (PKCS11Library.getTokenTimeout v
          (PKCS11Library.setTokenTimeout v timeoutSeconds w).2).1 =
        Result.Ok timeoutSeconds) := by
  refine ⟨?_, ?_, ?_⟩
  · unfold PKCS11Library.getTokenTimeout PKCS11Library.viaAux
    cases ho : w.sessionOpen_ <;> cases ha : w.auxFunctionList_ <;>
      simp [Result.Error, Result.Ok, Result.isOk, call]
    rename_i aux
    cases hg : aux.EP_GET_TOKEN_TIMEOUT <;> simp [Result.Error, Result.Ok, Result.isOk]
    split <;> simp_all
  · unfold PKCS11Library.getTokenTimeout PKCS11Library.viaAux
    cases ho : w.sessionOpen_ <;> cases ha : w.auxFunctionList_ <;>
      simp [Result.Error, Result.Ok, Result.isOk, call]
    rename_i aux
    cases hg : aux.EP_GET_TOKEN_TIMEOUT <;> simp [Result.Error, Result.Ok, Result.isOk]
    split <;> simp_all
  · intro s aux hs hset ha hg hecho
    have hms : s * 1000 % CK_ULONG_RANGE = s * 1000 := by
      rw [Nat.mul_comm] at hs
      exact Nat.mod_eq_of_lt hs
    unfold PKCS11Library.setTokenTimeout PKCS11Library.viaAux at hset ⊢
    cases ho : w.sessionOpen_
    · simp [ho, Result.Error, Result.isOk] at hset
    · simp only [ho, ha] at hset ⊢
      cases hst : aux.EP_SET_TOKEN_TIMEOUT
      · simp [hst, Result.Error, Result.isOk] at hset
      · simp only [hst, Bool.not_true, Bool.false_eq_true, if_false, call] at hset ⊢
        obtain ⟨h1, h2⟩ := hecho w.currentSlotId_ (s * 1000)
        split at hset
        · simp [Result.Error, Result.isOk] at hset
        · rename_i hrv
          simp only [hrv, if_false]
          unfold PKCS11Library.getTokenTimeout PKCS11Library.viaAux
          simp only [ho, ha, hg, Bool.not_true, Bool.false_eq_true, if_false, call, hms, h1,
            h2, bne_self_eq_false]
          rw [Nat.mul_div_cancel s (by decide : 0 < 1000)]

/-- C21 at a concrete input: with a session open on slot `1`, against a vendor that
keeps the timeout, `setTokenTimeout(30)` succeeds and `getTokenTimeout` then returns
`Ok(30)`; against a vendor whose `GetTokenTimeout` writes `30999`, `getTokenTimeout`
returns `Ok(30)`, the quotient rounded down. -/
theorem getTokenTimeout_round_trip_witness :
    Reachable vendorTimeout openedAuxState ∧
    1000 * 30 < CK_ULONG_RANGE ∧
    (PKCS11Library.setTokenTimeout vendorTimeout 30 openedAuxState).1.isOk = true ∧
    returnsTimeoutReceived vendorTimeout openedAuxState.trace ∧
    (PKCS11Library.getTokenTimeout vendorTimeout
        (PKCS11Library.setTokenTimeout vendorTimeout 30 openedAuxState).2).1 = Result.Ok 30 ∧
    (PKCS11Library.getTokenTimeout (vendorTimeoutMs 30999) openedAuxState).1 = Result.Ok 30 :=
  ⟨⟨0, [Op.initialize_ "", Op.openSession 1 true], by decide⟩, by decide, by decide,
    fun _ _ => ⟨rfl, rfl⟩,
    (getTokenTimeout_round_trip vendorTimeout openedAuxState).2.2 30 auxAll (by decide)
      (by decide) rfl rfl (fun _ _ => ⟨rfl, rfl⟩),
    (getTokenTimeout_round_trip (vendorTimeoutMs 30999) openedAuxState).2.1 (by decide)⟩

/-! ## Claims on the export to a file -/

/-- C22. Let `exportCertificate` return `certData`, leaving the state `w1`. Its calls
are none of them on the file stream. `exportCertificateToFile` then has an outcome,
and the calls it adds are none, or the opening of `filename`, or that opening
followed by the writing of exactly `certData.value`, the last two only when
`certData` is `Ok`. When `certData` is an error it returns
`Error(certData.errorCode, certData.errorMessage, certData.pkcs11Error)` with the
state `w1`: no file is opened or written. When `certData` is `Ok`, the stream opens
and the stream is good after the write, it returns `Ok`, having opened `filename`
and written exactly `certData.value`. -/
theorem exportCertificateToFile_writes_what_it_read (v : Vendor) (w w1 : PKCS11Library)
    (certHandle : CK_OBJECT_HANDLE) (filename : String) (certData : Result (List CK_BYTE))
    (h : PKCS11Library.exportCertificate v certHandle w = some (certData, w1)) :
    (∃ cs, w1.trace = cs ++ w.trace ∧ ∀ c ∈ cs, c.isFile = false) ∧
    (∃ r w', PKCS11Library.exportCertificateToFile v certHandle filename w = some (r, w') ∧
      (w'.trace = w1.trace ∨
        (certData.isOk = true ∧
          (w'.trace = Call.ofstream_open filename :: w1.trace ∨
           w'.trace = Call.ofstream_write certData.value ::
             Call.ofstream_open filename :: w1.trace)))) ∧
    (certData.isOk = false →
      PKCS11Library.exportCertificateToFile v certHandle filename w =
        some (Result.Error certData.errorCode certData.errorMessage certData.pkcs11Error,
          w1)) ∧
    (certData.isOk = true →
      (v (Call.ofstream_open filename :: w1.trace)).ptr = true →
      (v (Call.ofstream_write certData.value ::
          Call.ofstream_open filename :: w1.trace)).ptr = true →
      PKCS11Library.exportCertificateToFile v certHandle filename w =
        some (Result.Ok (),
          { w1 with trace := Call.ofstream_write certData.value ::
              Call.ofstream_open filename :: w1.trace })) := by
  refine ⟨?_, ?_, ?_, ?_⟩
  · unfold PKCS11Library.exportCertificate PKCS11Library.getAttributeBytes at h
    repeat' split at h
    all_goals simp only [viaFunctionList_eq_some, Option.some.injEq, Prod.mk.injEq,
      reduceCtorEq] at *
    all_goals casesm* _ ∧ _
    all_goals subst_vars
    · exact ⟨[_], rfl, by simp [Call.isFile]⟩
    · exact ⟨[_], rfl, by simp [Call.isFile]⟩
    · exact ⟨[_, _], rfl, by simp [Call.isFile]⟩
    · exact ⟨[_, _], rfl, by simp [Call.isFile]⟩
  · unfold PKCS11Library.exportCertificateToFile
    simp only [h, call]
    cases hok : certData.isOk
    · exact ⟨_, _, rfl, Or.inl rfl⟩
    · simp only [Bool.not_true, Bool.false_eq_true, if_false, true_and]
      split
      · exact ⟨_, _, rfl, Or.inr (Or.inl rfl)⟩
      · split
        · exact ⟨_, _, rfl, Or.inr (Or.inr rfl)⟩
        · exact ⟨_, _, rfl, Or.inr (Or.inr rfl)⟩
  · intro hok
    unfold PKCS11Library.exportCertificateToFile
    simp [h, hok]
  · intro hok ho hw
    unfold PKCS11Library.exportCertificateToFile
    simp [h, hok, call, ho, hw]

/-- C22 at concrete inputs, with a session open: against a vendor whose
`C_GetAttributeValue` reports three bytes and writes `[48, 130, 1]`,
`exportCertificateToFile(5, "cert.der")` opens `cert.der`, writes `[48, 130, 1]` and
returns `Ok`; against one whose `C_GetAttributeValue` answers
`CKR_OBJECT_HANDLE_INVALID` it returns the error of `exportCertificate` and the only
call made is that `C_GetAttributeValue`. -/
theorem exportCertificateToFile_writes_what_it_read_witness :
    PKCS11Library.exportCertificate (vendorCert CKR_OK) 5 openedState =
      some (Result.Ok [48, 130, 1], certReadState) ∧
    PKCS11Library.exportCertificateToFile (vendorCert CKR_OK) 5 "cert.der" openedState =
      some (Result.Ok (),
        { certReadState with trace := Call.ofstream_write [48, 130, 1] ::
            Call.ofstream_open "cert.der" :: certReadState.trace }) ∧
    PKCS11Library.exportCertificate (vendorCert CKR_OBJECT_HANDLE_INVALID) 5 openedState =
      some (Result.Error Status.ERROR_OBJECT_NOT_FOUND "Failed to get attribute length"
        CKR_OBJECT_HANDLE_INVALID, certFailedState) ∧
    PKCS11Library.exportCertificateToFile (vendorCert CKR_OBJECT_HANDLE_INVALID) 5
        "cert.der" openedState =
      some (Result.Error Status.ERROR_OBJECT_NOT_FOUND "Failed to get attribute length"
        CKR_OBJECT_HANDLE_INVALID, certFailedState) :=
  ⟨by decide,
    (exportCertificateToFile_writes_what_it_read (vendorCert CKR_OK) openedState
      certReadState 5 "cert.der" (Result.Ok [48, 130, 1]) (by decide)).2.2.2 rfl rfl rfl,
    by decide,
    (exportCertificateToFile_writes_what_it_read (vendorCert CKR_OBJECT_HANDLE_INVALID)
      openedState certFailedState 5 "cert.der"
      (Result.Error Status.ERROR_OBJECT_NOT_FOUND "Failed to get attribute length"
        CKR_OBJECT_HANDLE_INVALID) (by decide)).2.2.1 rfl⟩

end PKCS11Lib
